import Mathlib

/-!
# OGN tracker link layer: radio codec, receive path and slot scheduler

A shallow embedding of `src/ogn-radio.cpp` and `src/proc.cpp`.
Bytes and machine words are natural numbers, reduced explicitly where the
C code stores into a narrower type.  Buffers are lists.  Library code that
the two translation units only call (packet classes, tables, CRC routines)
is either passed in as a function or written out under a doc comment that
says so.
-/

namespace OgnTracker

/-! ## Manchester codec -/

/-- Modelled from the spec: the table `ManchesterEncode[16]` of `manchester.h`
(4-bit nibble to 8-bit Manchester symbol, data bit 1 as `01` and 0 as `10`,
most significant bit first).  The entries agree with the Manchester-encoded
SYNC words quoted in `ogn-radio.cpp`. -/
def ManchesterEncodeTable : List Nat :=
  [ 0xAA, 0xA9, 0xA6, 0xA5, 0x9A, 0x99, 0x96, 0x95,
    0x6A, 0x69, 0x66, 0x65, 0x5A, 0x59, 0x56, 0x55 ]

/-- Table lookup `ManchesterEncode[Nibble]`. -/
def ManchesterEncode (Nibble : Nat) : Nat :=
  ManchesterEncodeTable.getD Nibble 0

/-- Modelled from the spec: the table `ManchesterDecode[256]` of `manchester.h`
(reverse lookup: the low nibble holds the four data bits, the high nibble
flags every bit pair that is not a valid Manchester symbol). -/
def ManchesterDecodeTable : List Nat :=
  [ 0xF0, 0xE1, 0xE0, 0xF1, 0xD2, 0xC3, 0xC2, 0xD3, 0xD0, 0xC1, 0xC0, 0xD1, 0xF2, 0xE3, 0xE2, 0xF3,
    0xB4, 0xA5, 0xA4, 0xB5, 0x96, 0x87, 0x86, 0x97, 0x94, 0x85, 0x84, 0x95, 0xB6, 0xA7, 0xA6, 0xB7,
    0xB0, 0xA1, 0xA0, 0xB1, 0x92, 0x83, 0x82, 0x93, 0x90, 0x81, 0x80, 0x91, 0xB2, 0xA3, 0xA2, 0xB3,
    0xF4, 0xE5, 0xE4, 0xF5, 0xD6, 0xC7, 0xC6, 0xD7, 0xD4, 0xC5, 0xC4, 0xD5, 0xF6, 0xE7, 0xE6, 0xF7,
    0x78, 0x69, 0x68, 0x79, 0x5A, 0x4B, 0x4A, 0x5B, 0x58, 0x49, 0x48, 0x59, 0x7A, 0x6B, 0x6A, 0x7B,
    0x3C, 0x2D, 0x2C, 0x3D, 0x1E, 0x0F, 0x0E, 0x1F, 0x1C, 0x0D, 0x0C, 0x1D, 0x3E, 0x2F, 0x2E, 0x3F,
    0x38, 0x29, 0x28, 0x39, 0x1A, 0x0B, 0x0A, 0x1B, 0x18, 0x09, 0x08, 0x19, 0x3A, 0x2B, 0x2A, 0x3B,
    0x7C, 0x6D, 0x6C, 0x7D, 0x5E, 0x4F, 0x4E, 0x5F, 0x5C, 0x4D, 0x4C, 0x5D, 0x7E, 0x6F, 0x6E, 0x7F,
    0x70, 0x61, 0x60, 0x71, 0x52, 0x43, 0x42, 0x53, 0x50, 0x41, 0x40, 0x51, 0x72, 0x63, 0x62, 0x73,
    0x34, 0x25, 0x24, 0x35, 0x16, 0x07, 0x06, 0x17, 0x14, 0x05, 0x04, 0x15, 0x36, 0x27, 0x26, 0x37,
    0x30, 0x21, 0x20, 0x31, 0x12, 0x03, 0x02, 0x13, 0x10, 0x01, 0x00, 0x11, 0x32, 0x23, 0x22, 0x33,
    0x74, 0x65, 0x64, 0x75, 0x56, 0x47, 0x46, 0x57, 0x54, 0x45, 0x44, 0x55, 0x76, 0x67, 0x66, 0x77,
    0xF8, 0xE9, 0xE8, 0xF9, 0xDA, 0xCB, 0xCA, 0xDB, 0xD8, 0xC9, 0xC8, 0xD9, 0xFA, 0xEB, 0xEA, 0xFB,
    0xBC, 0xAD, 0xAC, 0xBD, 0x9E, 0x8F, 0x8E, 0x9F, 0x9C, 0x8D, 0x8C, 0x9D, 0xBE, 0xAF, 0xAE, 0xBF,
    0xB8, 0xA9, 0xA8, 0xB9, 0x9A, 0x8B, 0x8A, 0x9B, 0x98, 0x89, 0x88, 0x99, 0xBA, 0xAB, 0xAA, 0xBB,
    0xFC, 0xED, 0xEC, 0xFD, 0xDE, 0xCF, 0xCE, 0xDF, 0xDC, 0xCD, 0xCC, 0xDD, 0xFE, 0xEF, 0xEE, 0xFF ]

/-- Table lookup `ManchesterDecode[Byte]`. -/
def ManchesterDecode (Byte : Nat) : Nat :=
  ManchesterDecodeTable.getD Byte 0

/-- `ManchEncode(Out, Inp, InpLen)` of `ogn-radio.cpp`: every input byte
appends the symbol of its upper nibble and then the symbol of its lower
nibble to `Out`.  The returned `Len` is the length of the result. -/
def ManchEncode : List Nat → List Nat
  | [] => []
  | Byte :: Inp =>
      ManchesterEncode (Byte >>> 4) :: ManchesterEncode (Byte &&& 0x0F) :: ManchEncode Inp

/-- One pass of the body of the Manchester loop of `Radio_Receive`: the two
received symbols `Radio_RxPacket[PktIdx]`, `Radio_RxPacket[PktIdx+1]` give
`(Data[Idx], Err[Idx])`, both stored as `uint8_t`. -/
def Radio_Receive_ManchByte (RxH RxL : Nat) : Nat × Nat :=
  let DecH := ManchesterDecode RxH
  let ErrH := DecH >>> 4
  let ByteH := DecH &&& 0x0F
  let DecL := ManchesterDecode RxL
  let ErrL := DecL >>> 4
  let ByteL := DecL &&& 0x0F
  (((ByteH <<< 4) ||| ByteL) % 256, ((ErrH <<< 4) ||| ErrL) % 256)

/-- The Manchester branch of `Radio_Receive`: for `Idx < PktLen` the symbols
at `PktIdx = 2*Idx` and `2*Idx+1` of the receive buffer are decoded into
`Data[Idx]` and `Err[Idx]`.  Returns `(Data, Err)`. -/
def Radio_Receive_Manch (Radio_RxPacket : List Nat) (PktLen : Nat) : List Nat × List Nat :=
  ((List.range PktLen).map fun Idx =>
      (Radio_Receive_ManchByte (Radio_RxPacket.getD (2 * Idx) 0)
        (Radio_RxPacket.getD (2 * Idx + 1) 0)).1,
   (List.range PktLen).map fun Idx =>
      (Radio_Receive_ManchByte (Radio_RxPacket.getD (2 * Idx) 0)
        (Radio_RxPacket.getD (2 * Idx + 1) 0)).2)

/-! ## Received radio frames and the long-range (LDR) decoder -/

/-- The received radio frame `FSK_RxPacket`, with the fields that
`ogn-radio.cpp` fills and `proc.cpp` reads. -/
structure FSK_RxPacket where
  Time : Nat
  msTime : Nat
  Channel : Nat
  RSSI : Nat
  SNR : Nat
  Manchester : Bool
  SysID : Nat
  Bytes : Nat
  Data : List Nat
  Err : List Nat
deriving DecidableEq, Repr

/-- Modelled from the spec: `ADSL_Packet::FlipBit(Byte, BitIdx)` of `adsl.h`,
which inverts one bit of a byte buffer; bits are counted from the most
significant bit of byte 0. -/
def FlipBit (Byte : List Nat) (BitIdx : Nat) : List Nat :=
  Byte.set (BitIdx / 8) (Byte.getD (BitIdx / 8) 0 ^^^ (1 <<< (7 - BitIdx % 8)))

/-- The packet-class routines that `DecodeRxLDR` calls and that live in
`adsl.h` and `paw.h`.  Each works on the 24 payload bytes it is given. -/
structure LDR_Codec where
  /-- `ADSL_Packet::checkPI(Data, 24)`: the 24-bit CRC syndrome. -/
  checkPI : List Nat → Nat
  /-- `PAW_Packet::CRC8(Data, 24)`: the external CRC-8. -/
  CRC8 : List Nat → Nat
  /-- `ADSL_Packet::FindCRCsyndrome(CRC)`: bit index, or `0xFF` for none. -/
  FindCRCsyndrome : Nat → Nat
  /-- `PAW_Packet::Whiten(Data, 24)`. -/
  Whiten : List Nat → List Nat
  /-- `PAW_Packet::IntCRC(Data, 24)`: the internal check of a PilotAware packet. -/
  IntCRC : List Nat → Nat

/-- What `DecodeRxLDR` does with a frame: return without a call, call
`DecodeRxADSL(RxPkt)`, or convert the whitened frame with `PAW->Write` and
call `ProcessRxOGN`.  The frame is carried as it stands at the call. -/
inductive LDR_Decision where
  | Drop
  | ADSL (RxPkt : FSK_RxPacket)
  | PAW (RxPkt : FSK_RxPacket)
deriving DecidableEq, Repr

/-- The single-bit repair at the head of `DecodeRxLDR`: the block
`if(CRC!=0 && CRC8!=RxPkt->Data[24]) ...`.  Returns `(Data, Err, CRC, CRC8)`
as they stand after it (`CRC` is a `uint32_t`, `CRC8` and `ErrBit` are `uint8_t`). -/
def DecodeRxLDR_Repair (C : LDR_Codec) (Data Err : List Nat) :
    List Nat × List Nat × Nat × Nat :=
  let CRC := C.checkPI (Data.take 24) % 4294967296
  let CRC8 := C.CRC8 (Data.take 24) % 256
  if CRC ≠ 0 ∧ CRC8 ≠ Data.getD 24 0 then
    let ErrBit := C.FindCRCsyndrome CRC % 256
    if ErrBit ≠ 0xFF then
      (FlipBit Data ErrBit, FlipBit Err ErrBit, 0, C.CRC8 ((FlipBit Data ErrBit).take 24) % 256)
    else (Data, Err, CRC, CRC8)
  else (Data, Err, CRC, CRC8)

/-- `DecodeRxLDR(RxPkt)` of `proc.cpp`. -/
def DecodeRxLDR (C : LDR_Codec) (RxPkt : FSK_RxPacket) : LDR_Decision :=
  if RxPkt.Bytes ≠ 25 ∨ RxPkt.Manchester = true then LDR_Decision.Drop
  else
    match DecodeRxLDR_Repair C RxPkt.Data RxPkt.Err with
    | (Data, Err, CRC, CRC8) =>
      if CRC8 ≠ Data.getD 24 0 then LDR_Decision.Drop
      else if CRC = 0 then LDR_Decision.ADSL { RxPkt with Data := Data, Err := Err }
      else
        let White := C.Whiten (Data.take 24) ++ Data.drop 24
        if C.IntCRC (White.take 24) % 256 ≠ 0 then LDR_Decision.Drop
        else LDR_Decision.PAW { RxPkt with Data := White, Err := Err }

/-- Classification of a decision, without the frame. -/
def LDR_Decision.kind : LDR_Decision → Nat
  | LDR_Decision.Drop => 0
  | LDR_Decision.ADSL _ => 1
  | LDR_Decision.PAW _ => 2

/-- The 24 payload bytes forwarded by a decision (none when dropped). -/
def LDR_Decision.payload : LDR_Decision → List Nat
  | LDR_Decision.Drop => []
  | LDR_Decision.ADSL RxPkt => RxPkt.Data.take 24
  | LDR_Decision.PAW RxPkt => RxPkt.Data.take 24

/-- Modelled from the spec: one bit through the polynomial of the embedded
24-bit CRC, the body of the loop of `ADSL_Packet::PolyPass` of `adsl.h`.  The
spec does not give the polynomial; the one here is that of the ADS-L
standard, `0x1FFF409`, held in the top 25 bits of a 32-bit word. -/
def ADSL_PolyStep (CRC : Nat) : Nat :=
  ((if CRC &&& 0x80000000 ≠ 0 then CRC ^^^ 0xFFFA0480 else CRC) <<< 1) % 2 ^ 32

/-- Modelled from the spec: `ADSL_Packet::PolyPass` of `adsl.h`, one byte
through the polynomial: the byte enters the low eight bits and the word is
stepped eight times. -/
def ADSL_PolyPass (CRC Byte : Nat) : Nat :=
  ADSL_PolyStep^[8] (CRC ||| Byte)

/-- Modelled from the spec: `ADSL_Packet::checkPI` of `adsl.h`, the CRC-24
syndrome of the payload bytes followed by their three CRC bytes; zero for an
intact packet. -/
def ADSL_checkPI (Byte : List Nat) : Nat :=
  ((Byte.drop 3).foldl ADSL_PolyPass
    (((Byte.take 3).foldl (fun c b => ((c <<< 8) ||| b) % 2 ^ 32) 0 <<< 8) % 2 ^ 32)) >>> 8

/-- Modelled from the spec: `ADSL_Packet::CRCsyndrome(Bit)` of `adsl.h`, the
syndrome of a packet whose only damage is the inverted bit `Bit`. -/
def ADSL_CRCsyndrome (Bit : Nat) : Nat :=
  ADSL_checkPI (FlipBit (List.replicate 24 0) Bit)

/-- The syndromes of the 192 payload bits, in bit order. -/
def ADSL_CRCsyndromeTable : List Nat :=
  (List.range 192).map ADSL_CRCsyndrome

/-- Modelled from the spec: `ADSL_Packet::FindCRCsyndrome` of `adsl.h`, the
syndrome lookup: the payload bit whose single inversion gives this syndrome,
or `0xFF` when there is none. -/
def ADSL_FindCRCsyndrome (Syndr : Nat) : Nat :=
  if List.indexOf Syndr ADSL_CRCsyndromeTable < 192
  then List.indexOf Syndr ADSL_CRCsyndromeTable else 0xFF

/-- Modelled from the spec: `PAW_Packet::CRC8` of `paw.h`, the one-byte
trailer check of a long-range frame.  The spec does not give its rule; the
one here (seed `0x71`, the last pre-data byte of `SYNC_LDR`, then the
exclusive-or of the bytes) stands in for it. -/
def PAW_CRC8 (Data : List Nat) : Nat :=
  Data.foldl (fun c b => c ^^^ b) 0x71

/-- Modelled from the spec: `PAW_Packet::IntCRC` of `paw.h`, the internal
check of a PilotAware packet, zero when intact; here the exclusive-or of all
bytes, which stands in for the rule of `paw.h`. -/
def PAW_IntCRC (Data : List Nat) : Nat :=
  Data.foldl (fun c b => c ^^^ b) 0

/-- Modelled from the spec: `PAW_Packet::Whiten` of `paw.h`, a reversible
exclusive-or of the payload with a fixed byte sequence.  The sequence of
`paw.h` is not reproduced; this one stands in for it and no result below
depends on its values. -/
def PAW_Whiten (Data : List Nat) : List Nat :=
  List.zipWith (fun b k => b ^^^ k) Data
    ((List.range Data.length).map fun i => (0x5B + 0x1D * i) % 256)

/-- The long-range codec assembled from the routines above, used to
evaluate `DecodeRxLDR` on concrete frames. -/
def LDR_Codec_model : LDR_Codec :=
  { checkPI := ADSL_checkPI, CRC8 := PAW_CRC8, FindCRCsyndrome := ADSL_FindCRCsyndrome,
    Whiten := PAW_Whiten, IntCRC := PAW_IntCRC }

/-- A long-range frame as `Radio_Receive` delivers it: 25 bytes, no
Manchester coding, error mask cleared. -/
def LDR_Frame (Data : List Nat) : FSK_RxPacket :=
  { Time := 0, msTime := 0, Channel := 2, RSSI := 0, SNR := 0, Manchester := false,
    SysID := 4, Bytes := 25, Data := Data, Err := List.replicate 25 0 }

/-- An ADS-L payload with a matching CRC-24 (last three bytes). -/
def LDR_sample_payload : List Nat :=
  [ 0x10, 0x00, 0x12, 0x34, 0x56, 0x07, 0x00, 0x00, 0x00, 0x00, 0x00, 0x00,
    0x00, 0x00, 0x00, 0x00, 0x00, 0x00, 0x00, 0x00, 0x00, 0x71, 0xC5, 0xFE ]

/-! ## Primary-protocol (OGN) packets and the receive path of `proc.cpp` -/

/-- The bit fields of `OGN_Packet::Header` that `proc.cpp` and
`ogn-radio.cpp` read and write.  `HeaderWord = 0` clears them all. -/
structure OGN_Header where
  Address : Nat
  AddrType : Nat
  NonPos : Bool
  Parity : Bool
  Relay : Nat
  Encrypted : Bool
  Emergency : Bool
deriving DecidableEq, Repr, Inhabited

/-- The header after `HeaderWord = 0`. -/
def OGN_Header.clear : OGN_Header :=
  { Address := 0, AddrType := 0, NonPos := false, Parity := false, Relay := 0,
    Encrypted := false, Emergency := false }

/-- An `OGN_Packet`: the header word and the payload words `Data[4]` (position,
status or info fields, as sent: whitened or encrypted on the air). -/
structure OGN_Packet where
  Header : OGN_Header
  Data : List Nat
deriving DecidableEq, Repr, Inhabited

/-- An `OGN_TxPacket<OGN_Packet>`: the packet and its FEC words. -/
structure OGN_TxPacket where
  Packet : OGN_Packet
  FEC : List Nat
deriving DecidableEq, Repr, Inhabited

/-- An `OGN_RxPacket<OGN_Packet>`: a received packet with the reception data
that `proc.cpp` fills or reads. -/
structure OGN_RxPacket where
  Packet : OGN_Packet
  RxErr : Nat
  RxChan : Nat
  RxRSSI : Nat
  Correct : Bool
  Warn : Bool
  Rank : Nat
  LatDist : Int
  LonDist : Int
deriving DecidableEq, Repr, Inhabited

/-- The routines of the packet classes (`ogn1.h`, `ogn.h`) that the code calls
on a primary-protocol packet.  `Whiten`, `Dewhiten` and `Encrypt` transform
the payload words (the glossary: whitening is a reversible transform of the
payload bytes) and do not look at the header: the callers that skip
whitening for ciphertext test `Header.Encrypted` themselves. -/
structure OGN_Lib where
  /-- `OGN_Packet::Whiten()`. -/
  Whiten : List Nat → List Nat
  /-- `OGN_Packet::Dewhiten()`. -/
  Dewhiten : List Nat → List Nat
  /-- `OGN_Packet::Encrypt(Key)`. -/
  Encrypt : List Nat → List Nat → List Nat
  /-- `OGN_Packet::calcAddrParity()`: the parity bit it stores in the header. -/
  calcAddrParity : OGN_Header → Bool
  /-- `OGN_TxPacket::calcFEC()`. -/
  calcFEC : OGN_Packet → List Nat
  /-- The assignment `Packet.Position.Time = T`. -/
  setPositionTime : List Nat → Nat → List Nat

/-- The part of `Parameters` (persisted configuration) read by the code. -/
structure Parameters where
  Address : Nat
  AddrType : Nat
  AcftType : Nat
  Stealth : Bool
  Encrypt : Bool
  EncryptKey : List Nat
  TxPower : Int
  Verbose : Bool
deriving DecidableEq, Repr

/-- Compile-time switches of `proc.cpp`. -/
structure PROC_Build where
  WITH_ENCRYPT : Bool
  WITH_SDLOG : Bool
  WITH_POGNT : Bool
  WITH_LOOKOUT : Bool
  WITH_APRS : Bool
  WITH_LOG : Bool
  WITH_PFLAA : Bool
  WITH_MAVLINK : Bool
deriving DecidableEq, Repr

/-- What `ProcessRxOGN` reads from the rest of the system for one packet. -/
structure PROC_RxEnv where
  /-- `RxPacket->calcRelayRank(GPS_Altitude/10)`: the rank it stores. -/
  calcRelayRank : OGN_RxPacket → Nat
  /-- `Packet.calcDistanceVector(...)`: the distances when the result is `>= 0`. -/
  calcDistanceVector : OGN_Packet → Option (Int × Int)
  /-- The previous packet of the same address returned by `OGN_RelayQueue.addNew`. -/
  addNewPrev : OGN_RxPacket → Option OGN_RxPacket
  /-- `Look.ProcessTarget(Packet, RxTime)`: the warning level of the target, if any. -/
  ProcessTarget : OGN_Packet → Nat → Option Nat
  /-- `OGN_isSignif(Packet, PrevPacket)`. -/
  OGN_isSignif : OGN_Packet → OGN_Packet → Bool

/-- Calls that `ProcessRxOGN` makes on the rest of the system, in order. -/
inductive RxEvent where
  | IGClog (RxPacket : OGN_RxPacket)
  | addNew (RxPacket : OGN_RxPacket)
  | calcDistanceVector (Packet : OGN_Packet)
  | WritePOGNT (RxPacket : OGN_RxPacket)
  | ProcessTarget (Packet : OGN_Packet)
  | OGN_isSignif (Packet : OGN_Packet)
  | APRSrx (RxPacket : OGN_RxPacket)
  | FlashLog (RxPacket : OGN_RxPacket)
  | WritePFLAA (RxPacket : OGN_RxPacket)
  | MAVLINK (Packet : OGN_Packet)
deriving DecidableEq, Repr

/-- `ProcessRxOGN(RxPacket, RxPacketIdx, RxTime)` of `proc.cpp`: the calls it
makes, in order.  `RxPacket` is the slot of the relay queue obtained with
`getNew()`; `addNew` commits that slot as it stands at the call.  Console
printing, the GDL90 report and the beeper are left out. -/
def ProcessRxOGN (B : PROC_Build) (P : Parameters) (E : PROC_RxEnv)
    (RxPacket : OGN_RxPacket) (RxTime : Nat) : List RxEvent :=
  if RxPacket.Packet.Header.NonPos then
    (if B.WITH_SDLOG then [RxEvent.IGClog RxPacket] else [])
  else if RxPacket.Packet.Header.Address = P.Address ∧
      RxPacket.Packet.Header.AddrType = P.AddrType then []
  else if RxPacket.Packet.Header.Encrypted ∧ RxPacket.RxErr < 10 then
    let Ranked := { RxPacket with Rank := E.calcRelayRank RxPacket }
    [RxEvent.addNew Ranked] ++ (if B.WITH_SDLOG then [RxEvent.IGClog Ranked] else [])
  else
    match E.calcDistanceVector RxPacket.Packet with
    | none => [RxEvent.calcDistanceVector RxPacket.Packet]
    | some (LatDist, LonDist) =>
      let Dist := { RxPacket with LatDist := LatDist, LonDist := LonDist }
      let Ranked := { Dist with Rank := E.calcRelayRank Dist }
      let Prev := E.addNewPrev Ranked
      let Tgt := if B.WITH_LOOKOUT then E.ProcessTarget Ranked.Packet RxTime else none
      let Warn : Nat := match Tgt with
        | some Level => Level
        | none => 0
      let Seen := if B.WITH_LOOKOUT then { Ranked with Warn := decide (Warn > 0) } else Ranked
      let Signif : Bool := match Prev with
        | none => true
        | some PrevRxPacket => E.OGN_isSignif Seen.Packet PrevRxPacket.Packet
      [RxEvent.calcDistanceVector RxPacket.Packet, RxEvent.addNew Ranked]
        ++ (if B.WITH_POGNT then [RxEvent.WritePOGNT Ranked] else [])
        ++ (if B.WITH_LOOKOUT then [RxEvent.ProcessTarget Ranked.Packet] else [])
        ++ (match Prev with
            | none => []
            | some _ => [RxEvent.OGN_isSignif Seen.Packet])
        ++ (if B.WITH_APRS && Signif then [RxEvent.APRSrx Seen] else [])
        ++ (if B.WITH_LOG && Signif then [RxEvent.FlashLog Seen] else [])
        ++ (if B.WITH_SDLOG && (Signif || decide (Warn ≠ 0)) then [RxEvent.IGClog Seen] else [])
        ++ (if B.WITH_PFLAA && P.Verbose && (!B.WITH_LOOKOUT || Tgt.isNone)
            then [RxEvent.WritePFLAA Seen] else [])
        ++ (if B.WITH_MAVLINK then [RxEvent.MAVLINK Seen.Packet] else [])

/-- The received packet with its payload words replaced. -/
def OGN_RxPacket.setData (RxPacket : OGN_RxPacket) (Data : List Nat) : OGN_RxPacket :=
  { RxPacket with Packet := { RxPacket.Packet with Data := Data } }

/-- The packet that `DecodeRxOGN(RxPkt)` hands to `ProcessRxOGN`, or `none`
when it returns before the call.  `Check` (a `uint8_t`) and `RxPacket` are
what the FEC decoder `RxPkt->Decode(*RxPacket, Decoder)` returned: the check
value and the corrected packet with `RxErr` set to the number of corrected
bits. -/
def DecodeRxOGN_Handed (L : OGN_Lib) (Check : Nat) (RxPacket : OGN_RxPacket) :
    Option OGN_RxPacket :=
  if Check ≠ 0 ∨ RxPacket.RxErr ≥ 15 then none
  else some (RxPacket.setData (L.Dewhiten RxPacket.Packet.Data))

/-- `DecodeRxOGN(RxPkt)` of `proc.cpp`: the calls made on the rest of the
system (none when the frame is dropped). -/
def DecodeRxOGN (B : PROC_Build) (P : Parameters) (E : PROC_RxEnv) (L : OGN_Lib)
    (Check : Nat) (RxPacket : OGN_RxPacket) (RxTime : Nat) : List RxEvent :=
  match DecodeRxOGN_Handed L Check RxPacket with
  | none => []
  | some Handed => ProcessRxOGN B P E Handed RxTime

/-- Modelled from the spec: an instance of the packet library for evaluating
the definitions on concrete inputs.  Whitening is the exclusive-or of every
payload word with a fixed word (the glossary's reversible XOR transform),
encryption the exclusive-or with the key words; parity, FEC and the time
field are simple placeholders.  It stands in for `ogn1.h` and `ogn.h`. -/
def OGN_Lib_sample : OGN_Lib :=
  { Whiten := fun Data => Data.map fun w => w ^^^ 0x9E3779B9
    Dewhiten := fun Data => Data.map fun w => w ^^^ 0x9E3779B9
    Encrypt := fun Key Data => List.zipWith (fun w k => w ^^^ k) Data Key
    calcAddrParity := fun H => decide (H.Address % 2 = 1)
    calcFEC := fun Packet => [Packet.Data.foldl (fun a w => a ^^^ w) 0]
    setPositionTime := fun Data T => Data.set 0 (Data.getD 0 0 / 64 * 64 + T % 64) }

/-- A received position packet flagged as encrypted, as the FEC decoder
returns it: address `0x123456`, address type 3, no corrected bits. -/
def OGN_RxPacket_sample_encrypted : OGN_RxPacket :=
  { Packet :=
      { Header := { OGN_Header.clear with Address := 0x123456, AddrType := 3, Encrypted := true }
        Data := [0x11111111, 0x22222222, 0x33333333, 0x44444444] }
    RxErr := 0, RxChan := 0, RxRSSI := 0, Correct := true, Warn := false, Rank := 0,
    LatDist := 0, LonDist := 0 }

/-- A reception environment for evaluating `ProcessRxOGN`: every packet in
range at rank 1, nothing heard before, no traffic target. -/
def PROC_RxEnv_sample : PROC_RxEnv :=
  { calcRelayRank := fun _ => 1
    calcDistanceVector := fun _ => some (0, 0)
    addNewPrev := fun _ => none
    ProcessTarget := fun _ _ => none
    OGN_isSignif := fun _ _ => true }

/-- A configuration for evaluating the definitions: own address `0xABCDEF`. -/
def Parameters_sample : Parameters :=
  { Address := 0xABCDEF, AddrType := 3, AcftType := 1, Stealth := false, Encrypt := true,
    EncryptKey := [1, 2, 3, 4], TxPower := 14, Verbose := false }

/-- A build with position encryption compiled in and no optional outputs. -/
def PROC_Build_sample : PROC_Build :=
  { WITH_ENCRYPT := true, WITH_SDLOG := false, WITH_POGNT := false, WITH_LOOKOUT := false,
    WITH_APRS := false, WITH_LOG := false, WITH_PFLAA := false, WITH_MAVLINK := false }

/-! ## Packet queues and the transmit side of `proc.cpp` -/

/-- Modelled from the spec: the packet queue `FIFO<Type, Size>` of `fifo.h`, a
circular buffer of `Size` slots (a power of two) with a read and a write
cursor.  A pointer returned by `getWrite()` or `getRead()` is the index of a
slot of `Data`. -/
structure FIFO (α : Type) where
  Size : Nat
  Data : List α
  ReadPtr : Nat
  WritePtr : Nat
deriving DecidableEq, Repr

/-- A store through the pointer `getWrite()`: the slot under the write cursor
is overwritten, the cursor stays. -/
def FIFO.setWrite {α : Type} (Q : FIFO α) (x : α) : FIFO α :=
  { Q with Data := Q.Data.set Q.WritePtr x }

/-- `Write()`: commit the slot under the write cursor; refused (nothing
changes) when the queue is full. -/
def FIFO.Write {α : Type} (Q : FIFO α) : FIFO α :=
  if (Q.WritePtr + 1) % Q.Size = Q.ReadPtr then Q
  else { Q with WritePtr := (Q.WritePtr + 1) % Q.Size }

/-- `getRead()`: the oldest committed slot, or null when the queue is empty. -/
def FIFO.getRead {α : Type} (Q : FIFO α) : Option Nat :=
  if Q.ReadPtr = Q.WritePtr then none else some Q.ReadPtr

/-- `Read()`: advance the read cursor past the oldest committed slot. -/
def FIFO.Read {α : Type} (Q : FIFO α) : FIFO α :=
  if Q.ReadPtr = Q.WritePtr then Q else { Q with ReadPtr := (Q.ReadPtr + 1) % Q.Size }

/-- `Full()`: the number of committed slots not yet read. -/
def FIFO.Full {α : Type} (Q : FIFO α) : Nat :=
  (Q.WritePtr + Q.Size - Q.ReadPtr) % Q.Size

/-- A queue as the code keeps it: `Size` slots, both cursors inside. -/
def FIFO.WF {α : Type} (Q : FIFO α) : Prop :=
  Q.Data.length = Q.Size ∧ Q.ReadPtr < Q.Size ∧ Q.WritePtr < Q.Size

/-- The state of `vTaskPROC` that its transmit branches read and write: the
persistent `PosPacket`, `PosTime`, the two back-off counters, the random
word `Random.RX` and the transmit queue `OGN_TxFIFO`. -/
structure PROC_State where
  PosPacket : OGN_Packet
  PosTime : Nat
  TxBackOff : Nat
  StatTxBackOff : Nat
  RandomRX : Nat
  OGN_TxFIFO : FIFO OGN_TxPacket
deriving DecidableEq, Repr

/-- The branch of `vTaskPROC` for a ready, valid, not yet sent GPS position.
`Encoded` is the payload written by `Position->Encode` with the aircraft type
and stealth flag set, `UnixTime` is `Position->getUnixTime()`, `AverSpeed` is
`GPS_AverageSpeed()`. -/
def vTaskPROC_Position (B : PROC_Build) (L : OGN_Lib) (XorShift32 : Nat → Nat) (P : Parameters)
    (Encoded : List Nat) (UnixTime : Nat) (AverSpeed : Int) (Radio_TxCredit : Int)
    (S : PROC_State) : PROC_State :=
  let Header0 := { OGN_Header.clear with Address := P.Address, AddrType := P.AddrType }
  let Header1 := if B.WITH_ENCRYPT && P.Encrypt then { Header0 with Encrypted := true } else Header0
  let Header2 := { Header1 with Parity := L.calcAddrParity Header1 }
  let PosPacket : OGN_Packet := { Header := Header2, Data := Encoded }
  let TxData :=
    if B.WITH_ENCRYPT && P.Encrypt then L.Encrypt P.EncryptKey PosPacket.Data
    else L.Whiten PosPacket.Data
  let TxPacket : OGN_Packet := { PosPacket with Data := TxData }
  let Q := S.OGN_TxFIFO.setWrite { Packet := TxPacket, FEC := L.calcFEC TxPacket }
  let FloatAcft : Bool := decide (P.AcftType = 3 ∨ (0xB ≤ P.AcftType ∧ P.AcftType ≤ 0xD))
  let RX := XorShift32 S.RandomRX
  if S.TxBackOff ≠ 0 then
    { S with PosPacket := PosPacket, PosTime := UnixTime, RandomRX := RX, OGN_TxFIFO := Q,
             TxBackOff := S.TxBackOff - 1 }
  else
    { S with PosPacket := PosPacket, PosTime := UnixTime, RandomRX := RX, OGN_TxFIFO := Q.Write,
             TxBackOff := ((if AverSpeed < 10 ∧ FloatAcft = false then 3 + (RX &&& 0x1) else 0)
                            + (if Radio_TxCredit ≤ 0 then 1 else 0)) % 256 }

/-- The `else` branch of `vTaskPROC`: the GPS position is missing, not valid
or already sent.  `SlotTime - PosTime` is a `uint32_t` difference. -/
def vTaskPROC_NoPosition (L : OGN_Lib) (XorShift32 : Nat → Nat) (SlotTime : Nat)
    (S : PROC_State) : PROC_State :=
  let PosPacket : OGN_Packet :=
    if (SlotTime + 2 ^ 32 - S.PosTime % 2 ^ 32) % 2 ^ 32 ≥ 30
    then { S.PosPacket with Data := L.setPositionTime S.PosPacket.Data 0x3F }
    else S.PosPacket
  let TxPacket : OGN_Packet := { PosPacket with Data := L.Whiten PosPacket.Data }
  let Q := S.OGN_TxFIFO.setWrite { Packet := TxPacket, FEC := L.calcFEC TxPacket }
  let RX := XorShift32 S.RandomRX
  { S with PosPacket := PosPacket, RandomRX := RX,
           OGN_TxFIFO := if S.PosTime ≠ 0 ∧ RX &&& 0x7 = 0 then Q.Write else Q }

/-- The status/info part of `vTaskPROC`.  `StatData` is the payload of
`StatPacket` after `ReadStatus`; `InfoChars` and `InfoData` are the return
value of `ReadInfo(StatPacket.Packet)` and the payload it leaves. -/
def vTaskPROC_Status (L : OGN_Lib) (XorShift32 : Nat → Nat) (P : Parameters)
    (StatData : List Nat) (InfoChars : Nat) (InfoData : List Nat) (S : PROC_State) : PROC_State :=
  let Header0 := { OGN_Header.clear with
    Address := P.Address, AddrType := P.AddrType, NonPos := true }
  let Header := { Header0 with Parity := L.calcAddrParity Header0 }
  let RX := XorShift32 S.RandomRX
  let S1 := { S with RandomRX := RX }
  let S2 :=
    if S.StatTxBackOff = 0 ∧ S.OGN_TxFIFO.Full < 2 then
      let Info : Bool := decide (P.AddrType ≠ 0 ∧ RX &&& 0x10 ≠ 0)
      let doTx := if Info then InfoChars % 256 else 1
      let Data := if Info then InfoData else StatData
      if doTx ≠ 0 then
        let TxPacket : OGN_Packet := { Header := Header, Data := L.Whiten Data }
        { S1 with StatTxBackOff := (16 + RX % 15) % 256,
                  OGN_TxFIFO :=
                    (S.OGN_TxFIFO.setWrite { Packet := TxPacket, FEC := L.calcFEC TxPacket }).Write }
      else S1
    else S1
  { S2 with StatTxBackOff := S2.StatTxBackOff - 1 }

/-- The relay priority structure `Relay_PrioQueue<OGN_RxPacket<OGN_Packet>, N>`:
the table of candidates, each with its `Rank`, and the sum of the ranks. -/
structure Relay_PrioQueue where
  Sum : Nat
  Packet : List OGN_RxPacket
deriving DecidableEq, Repr

/-- The methods of `Relay_PrioQueue` (`relay.h`) that `GetRelayPacket` calls. -/
structure Relay_Lib where
  /-- `getRand(Rand)`: the index drawn with the random word. -/
  getRand : Relay_PrioQueue → Nat → Nat
  /-- `decrRank(Idx)`. -/
  decrRank : Relay_PrioQueue → Nat → Relay_PrioQueue

/-- The outcome of `GetRelayPacket`: the return value, the packet behind the
output pointer, the relay queue and `Random.RX` after the call. -/
structure GetRelayPacket_Result where
  Ret : Bool
  Packet : OGN_TxPacket
  Queue : Relay_PrioQueue
  RandomRX : Nat
deriving DecidableEq, Repr

/-- `GetRelayPacket(OGN_TxPacket<OGN_Packet> *Packet)` of `proc.cpp`. -/
def GetRelayPacket (L : OGN_Lib) (R : Relay_Lib) (XorShift32 : Nat → Nat)
    (OGN_RelayQueue : Relay_PrioQueue) (RandomRX : Nat) (Packet : OGN_TxPacket) :
    GetRelayPacket_Result :=
  if OGN_RelayQueue.Sum = 0 then
    { Ret := false, Packet := Packet, Queue := OGN_RelayQueue, RandomRX := RandomRX }
  else
    let RX := XorShift32 RandomRX
    let Idx := R.getRand OGN_RelayQueue RX % 256
    let Sel := OGN_RelayQueue.Packet.getD Idx default
    if Sel.Rank = 0 then
      { Ret := false, Packet := Packet, Queue := OGN_RelayQueue, RandomRX := RX }
    else
      let Header := { Sel.Packet.Header with Relay := 1 }
      let Data := if Header.Encrypted then Sel.Packet.Data else L.Whiten Sel.Packet.Data
      let Relayed : OGN_Packet := { Header := Header, Data := Data }
      { Ret := true, Packet := { Packet := Relayed, FEC := L.calcFEC Relayed },
        Queue := R.decrRank OGN_RelayQueue Idx, RandomRX := RX }

/-- The relay refill loop of `vTaskPROC`,
`while(OGN_TxFIFO.Full()<2) ...`, run for at most `Fuel` passes.  Returns the
transmit queue, the relay queue and `Random.RX`. -/
def vTaskPROC_Relay (L : OGN_Lib) (R : Relay_Lib) (XorShift32 : Nat → Nat) :
    Nat → FIFO OGN_TxPacket → Relay_PrioQueue → Nat → FIFO OGN_TxPacket × Relay_PrioQueue × Nat
  | 0, Q, RelayQ, RX => (Q, RelayQ, RX)
  | Fuel + 1, Q, RelayQ, RX =>
    if Q.Full < 2 then
      let Res := GetRelayPacket L R XorShift32 RelayQ RX (Q.Data.getD Q.WritePtr default)
      if Res.Ret = false then (Q.setWrite Res.Packet, Res.Queue, Res.RandomRX)
      else vTaskPROC_Relay L R XorShift32 Fuel (Q.setWrite Res.Packet).Write Res.Queue Res.RandomRX
    else (Q, RelayQ, RX)

/-- Modelled from the spec: the generator `XorShift32` of the shared
pseudo-random source (its header is not among the sources): the usual
13/17/5 xorshift on a 32-bit word, used here to evaluate examples. -/
def XorShift32_sample (x : Nat) : Nat :=
  let a := (x ^^^ (x <<< 13)) % 2 ^ 32
  let b := a ^^^ (a >>> 17)
  (b ^^^ (b <<< 5)) % 2 ^ 32

/-- An empty transmit queue of four slots. -/
def OGN_TxFIFO_empty : FIFO OGN_TxPacket :=
  { Size := 4, Data := List.replicate 4 default, ReadPtr := 0, WritePtr := 0 }

/-- The state of `vTaskPROC` at start-up, with a given random word. -/
def PROC_State_start (RX : Nat) : PROC_State :=
  { PosPacket := default, PosTime := 0, TxBackOff := 0, StatTxBackOff := 16, RandomRX := RX,
    OGN_TxFIFO := OGN_TxFIFO_empty }

/-! ## The slot scheduler `Radio_Task` of `ogn-radio.cpp` -/

/-- Modelled from the spec: the radio-system identifier of the primary
protocol, `Radio_SysID_OGN` of `ogn-radio.h`.  The code fixes the
identifiers only so far: the Manchester systems lie below 4, the long-range
system in 4..7 and the combined receive profile from 8 up. -/
def Radio_SysID_OGN : Nat := 1

/-- Modelled from the spec: `Radio_SysID_ADSL` of `ogn-radio.h`, a Manchester system. -/
def Radio_SysID_ADSL : Nat := 2

/-- Modelled from the spec: `Radio_SysID_LDR` of `ogn-radio.h`, not a Manchester system. -/
def Radio_SysID_LDR : Nat := 4

/-- Modelled from the spec: `Radio_SysID_OGN_ADSL` of `ogn-radio.h`, the receive
profile that takes both Manchester protocols. -/
def Radio_SysID_OGN_ADSL : Nat := 8

/-- The fields and the channel function of `Radio_FreqPlan` that the
scheduler reads (`freqplan.h`). -/
structure FreqPlan where
  Plan : Nat
  Channels : Nat
  /-- `getChannel(Time, Slot, OGN)`. -/
  getChannel : Nat → Nat → Nat → Nat

/-- The bit routines behind the per-second hash of `Radio_Task`. -/
structure Hash_Lib where
  /-- `XorShift32(Hash)`: the word it leaves in `Hash`. -/
  XorShift32 : Nat → Nat
  /-- `Count1s(Hash)`. -/
  Count1s : Nat → Nat

/-- An ADS-L packet: its bytes from `Version` on. -/
structure ADSL_Packet where
  Byte : List Nat
deriving DecidableEq, Repr, Inhabited

/-- The byte pointer that `Radio_Task` passes to `Radio_Slot` as `TxPacket`:
`OgnPacket->Byte()` of a slot of `OGN_TxFIFO` or `&(AdslPacket->Version)` of a
slot of `ADSL_TxFIFO`. -/
inductive TxPacketRef where
  | OGN (Slot : Nat)
  | ADSL (Slot : Nat)
deriving DecidableEq, Repr

/-- The arguments of one call `Radio_Slot(TxChannel, TxPower, msTimeLen,
TxPacket, TxSysID, RxChannel, RxSysID, TimeRef)`. -/
structure Radio_SlotCall where
  TxChannel : Nat
  TxPower : Int
  msTimeLen : Nat
  TxPacket : Option TxPacketRef
  TxSysID : Nat
  RxChannel : Nat
  RxSysID : Nat
deriving DecidableEq, Repr

/-- Conversion to `int8_t` (two's complement wrap). -/
def toInt8 (x : Int) : Int := (x + 128) % 256 - 128

/-- The two reads at the head of the slot part of `Radio_Task`:
`P1 = getRead(); if(P1) Read(); P2 = getRead(); if(P2) { Read(); if(Swap)
Swap(P1, P2); } else P2 = P1;`.  Returns the queue and the two pointers. -/
def Radio_Task_Dequeue {α : Type} (Q : FIFO α) (Swap : Bool) : FIFO α × Option Nat × Option Nat :=
  let P1 := Q.getRead
  let Q1 := if P1.isSome then Q.Read else Q
  let P2 := Q1.getRead
  if P2.isSome then (Q1.Read, if Swap then (P2, P1) else (P1, P2))
  else (Q1, P1, P1)

/-- The hash of the UTC second: `(AdslSlot, Oband)`. -/
def Radio_Task_Hash (H : Hash_Lib) (UTC : Nat) (EU : Bool) : Bool × Bool :=
  let Hash1 := (H.XorShift32 (UTC % 2 ^ 32) % 2 ^ 32 * 48271) % 2 ^ 32
  let Hash2 := (H.XorShift32 Hash1 % 2 ^ 32 * 48271) % 2 ^ 32
  let AdslSlot : Bool := decide (H.Count1s Hash2 &&& 1 ≠ 0)
  let Hash3 := (H.XorShift32 Hash2 % 2 ^ 32 * 48271) % 2 ^ 32
  let Oband : Bool := EU && decide (H.Count1s Hash3 &&& 1 ≠ 0)
  (AdslSlot, Oband)

/-- The clamp `if(SlotLen<250) SlotLen=250; else if(SlotLen>480) SlotLen=480;`. -/
def Radio_Task_ClampSlotLen (SlotLen : Nat) : Nat :=
  if SlotLen < 250 then 250 else if SlotLen > 480 then 480 else SlotLen

/-- The arguments `Radio_Task` computes for one of its two `Radio_Slot`
calls.  `First` selects slot A (channel slot 0, ADS-L when `AdslSlot`, end at
800 ms) or slot B (channel slot 1, ADS-L when not `AdslSlot`, end at 1200 ms);
`msTime` is the `uint32_t` time since the pulse read before the call. -/
def Radio_Task_SlotCall (F : FreqPlan) (H : Hash_Lib) (UTC : Nat) (TxPower : Int) (First : Bool)
    (msTime : Nat) (OgnPacket AdslPacket : Option Nat) : Radio_SlotCall :=
  let EU : Bool := decide (F.Plan ≤ 1)
  let AdslSlot := (Radio_Task_Hash H UTC EU).1
  let Oband := (Radio_Task_Hash H UTC EU).2
  let AdslHere : Bool := if First then AdslSlot else !AdslSlot
  let TxPwr := toInt8 TxPower
  let TxChan := F.getChannel UTC (if First then 0 else 1) 1 % 256
  let OGN_Pkt := OgnPacket.map TxPacketRef.OGN
  let ADSL_Pkt := AdslPacket.map TxPacketRef.ADSL
  let TxProt := if AdslHere && EU then Radio_SysID_ADSL else Radio_SysID_OGN
  let TxPkt := if AdslHere && EU then ADSL_Pkt else OGN_Pkt
  let SlotLen :=
    Radio_Task_ClampSlotLen (((if First then 800 else 1200) + 2 ^ 32 - msTime % 2 ^ 32) % 2 ^ 32)
  if Oband && AdslHere then
    { TxChannel := F.Channels % 256, TxPower := toInt8 (TxPwr + 13), msTimeLen := SlotLen,
      TxPacket := TxPkt, TxSysID := Radio_SysID_LDR, RxChannel := F.Channels % 256,
      RxSysID := Radio_SysID_LDR }
  else
    { TxChannel := TxChan, TxPower := TxPwr, msTimeLen := SlotLen, TxPacket := TxPkt,
      TxSysID := TxProt, RxChannel := TxChan, RxSysID := Radio_SysID_OGN_ADSL }

/-- The slot part of one pass of the `Radio_Task` loop (built without the
LoRaWAN uplink): both queues are read, then slot A and slot B are called.
Returns the two calls and the queues. -/
def Radio_Task_Slots (F : FreqPlan) (H : Hash_Lib) (UTC : Nat) (TxPower : Int) (RandomRX : Nat)
    (msTimeA msTimeB : Nat) (OGN_TxFIFO : FIFO OGN_TxPacket) (ADSL_TxFIFO : FIFO ADSL_Packet) :
    Radio_SlotCall × Radio_SlotCall × FIFO OGN_TxPacket × FIFO ADSL_Packet :=
  let Ogn := Radio_Task_Dequeue OGN_TxFIFO (decide (RandomRX &&& 4 ≠ 0))
  let Adsl := Radio_Task_Dequeue ADSL_TxFIFO (decide (RandomRX &&& 8 ≠ 0))
  (Radio_Task_SlotCall F H UTC TxPower true msTimeA Ogn.2.1 Adsl.2.1,
   Radio_Task_SlotCall F H UTC TxPower false msTimeB Ogn.2.2 Adsl.2.2,
   Ogn.1, Adsl.1)

/-- Modelled from the spec: `Count1s` of the bit-counting header (not among
the sources): the number of set bits of a 32-bit word. -/
def Count1s_sample (x : Nat) : Nat :=
  ((List.range 32).filter fun i => x.testBit i).length

/-- The hash routines used to evaluate examples. -/
def Hash_Lib_sample : Hash_Lib :=
  { XorShift32 := XorShift32_sample, Count1s := Count1s_sample }

/-- A European frequency plan for evaluating examples: plan 1, two channels,
alternating channel function. -/
def FreqPlan_sample : FreqPlan :=
  { Plan := 1, Channels := 2, getChannel := fun Time Slot _ => (Time + Slot) % 2 }

/-- An empty ADS-L transmit queue of four slots. -/
def ADSL_TxFIFO_empty : FIFO ADSL_Packet :=
  { Size := 4, Data := List.replicate 4 default, ReadPtr := 0, WritePtr := 0 }

/-! ## Background noise tracking, single-poll reception and the LDR transmitter -/

/-- `Radio_BkgUpdate = 0.05`, the weight of the noise update, as an exact rational. -/
def Radio_BkgUpdate : ℚ := 1 / 20

/-- The update at the end of the timed `Radio_Receive`:
`Radio_BkgRSSI += Radio_BkgUpdate*(Radio_liveRSSI()-Radio_BkgRSSI)`, in exact
rational arithmetic. -/
def Radio_BkgRSSI_update (liveRSSI Radio_BkgRSSI : ℚ) : ℚ :=
  Radio_BkgRSSI + Radio_BkgUpdate * (liveRSSI - Radio_BkgRSSI)

/-- The estimate after `n` consecutive slot-end updates with the constant
live RSSI `V`, starting from `Radio_BkgRSSI`. -/
def Radio_BkgRSSI_after : Nat → ℚ → ℚ → ℚ
  | 0, _, Radio_BkgRSSI => Radio_BkgRSSI
  | n + 1, V, Radio_BkgRSSI => Radio_BkgRSSI_after n V (Radio_BkgRSSI_update V Radio_BkgRSSI)

/-- What the radio chip and the clock deliver to one poll of `Radio_Receive`. -/
structure Radio_RxInput where
  /-- `Radio_IRQ()`: the receive-ready line. -/
  IRQ : Bool
  /-- The RSSI reading of the packet: `Radio.getPacketStatus()` on the SX1262,
  the register `REG_RSSI_VALUE_FSK` on the SX1276. -/
  PktStat : Nat
  /-- The bytes returned by `Radio.readData`. -/
  Read : List Nat
  /-- `millis()`. -/
  millis : Nat
  /-- `TimeRef.sysTime`. -/
  sysTime : Nat
  /-- `TimeRef.UTC`. -/
  UTC : Nat
deriving DecidableEq, Repr

/-- The state that one poll of `Radio_Receive` reads and writes: the receive
queue, the receive counters and the random word `Random.Word`. -/
structure Radio_RxState where
  FSK_RxFIFO : FIFO FSK_RxPacket
  Radio_RxCount : List Nat
  RandomWord : Nat
deriving DecidableEq, Repr

/-- The methods of `FSK_RxPacket` and of the random source that
`Radio_Receive` calls (`ogn-radio.h` and the random-number header). -/
structure Radio_RxLib where
  /-- The chip the code is built for: `WITH_SX1262`, else `WITH_SX1276`. -/
  WITH_SX1262 : Bool
  /-- `RxPkt->DecodeSysID()`. -/
  DecodeSysID : FSK_RxPacket → Nat
  /-- `XorShift64(Random.Word)`: the word it leaves. -/
  XorShift64 : Nat → Nat

/-- Modelled from the spec: `Random.RX += x` on the shared random source, a
64-bit word whose low half is `Random.RX` (declared in a header that is not
among the sources). -/
def Random_addRX (Word x : Nat) : Nat :=
  Word / 2 ^ 32 * 2 ^ 32 + (Word % 2 ^ 32 + x) % 2 ^ 32

/-- Modelled from the spec: `FSK_RxPacket::ErrCount()` of `ogn-radio.h`, the
total error count of a frame: the number of bits set in `Err[0..Bytes)`. -/
def FSK_RxPacket.ErrCount (RxPkt : FSK_RxPacket) : Nat :=
  ((RxPkt.Err.take RxPkt.Bytes).map fun e =>
    ((List.range 8).filter fun i => e.testBit i).length).sum

/-- The frame that the single-poll `Radio_Receive` builds in the slot
`FSK_RxFIFO.getWrite()`. -/
def Radio_Receive_Frame (In : Radio_RxInput) (PktLen : Nat) (Manch : Bool)
    (SysID Channel : Nat) : FSK_RxPacket :=
  { Time := In.UTC
    msTime := (In.millis + 2 ^ 32 - In.sysTime % 2 ^ 32) % 2 ^ 32
    Channel := Channel
    RSSI := In.PktStat % 256
    SNR := 0
    Manchester := Manch
    SysID := SysID
    Bytes := PktLen
    Data := if Manch then (Radio_Receive_Manch In.Read PktLen).1
            else (List.range PktLen).map fun Idx => In.Read.getD Idx 0
    Err := if Manch then (Radio_Receive_Manch In.Read PktLen).2
           else List.replicate PktLen 0 }

/-- The single-poll `Radio_Receive(PktLen, Manch, SysID, Channel, TimeRef)` of
`ogn-radio.cpp`: the return value and the state after the call.  `SysID` and
`ManchErr` are `uint8_t`, the counters `uint32_t`. -/
def Radio_Receive (X : Radio_RxLib) (In : Radio_RxInput) (PktLen : Nat) (Manch : Bool)
    (SysID Channel : Nat) (S : Radio_RxState) : Nat × Radio_RxState :=
  if In.IRQ = false then (0, S)
  else
    let RxPkt := Radio_Receive_Frame In PktLen Manch SysID Channel
    let Word := X.XorShift64
      (Random_addRX S.RandomWord (if X.WITH_SX1262 then In.PktStat else RxPkt.RSSI))
    let Q := S.FSK_RxFIFO.setWrite RxPkt
    let Decoded := X.DecodeSysID RxPkt % 256
    let ManchErr := RxPkt.ErrCount % 256
    if Decoded ≥ 8 ∨ ManchErr ≥ 16 then
      (0, { S with FSK_RxFIFO := Q, RandomWord := Word })
    else
      (1, { FSK_RxFIFO := Q.Write
            Radio_RxCount :=
              S.Radio_RxCount.set Decoded ((S.Radio_RxCount.getD Decoded 0 + 1) % 2 ^ 32)
            RandomWord := Word })

/-- The library instance used to evaluate examples of `Radio_Receive`: the
decoded system is the primary protocol, the random word is left alone. -/
def Radio_RxLib_sample : Radio_RxLib :=
  { WITH_SX1262 := true, DecodeSysID := fun _ => Radio_SysID_OGN, XorShift64 := fun w => w }

/-- A receiver state for evaluating examples: an empty queue of 32 slots and
all counters at zero. -/
def Radio_RxState_sample : Radio_RxState :=
  { FSK_RxFIFO :=
      { Size := 32
        Data := List.replicate 32
          { Time := 0, msTime := 0, Channel := 0, RSSI := 0, SNR := 0, Manchester := false,
            SysID := 0, Bytes := 0, Data := [], Err := [] }
        ReadPtr := 0, WritePtr := 0 }
    Radio_RxCount := List.replicate 8 0
    RandomWord := 0 }

/-- A received Manchester frame of 26 bytes (52 symbols): the symbols `Head`
followed by the valid symbol `0xAA`.  A symbol `0x00` has no valid bit pair
(four flagged bits), `0x02` has one (three flagged bits). -/
def Radio_RxInput_sample (Head : List Nat) : Radio_RxInput :=
  { IRQ := true, PktStat := 180, millis := 1500, sysTime := 1000, UTC := 1700000000
    Read := Head ++ List.replicate (52 - Head.length) 0xAA }

/-- `SYNC_LDR[10]` of `ogn-radio.cpp`. -/
def SYNC_LDR : List Nat := [0xB4, 0x2B, 0x00, 0x00, 0x00, 0x00, 0x18, 0x71, 0x00, 0x00]

/-- `memcpy(Dst+Off, Src, Len)` on byte buffers. -/
def memcpy (Dst : List Nat) (Off : Nat) (Src : List Nat) (Len : Nat) : List Nat :=
  (List.range Len).foldl (fun Buf i => Buf.set (Off + i) (Src.getD i 0)) Dst

/-- The outcome of `Radio_TxLDR`: the bytes passed to `Radio_TxFSK` (the first
`Len` bytes of `Radio_TxPacket`), the buffer and the transmit counters. -/
structure Radio_TxLDR_Result where
  TxFSK : List Nat
  Radio_TxPacket : List Nat
  Radio_TxCount : List Nat
deriving DecidableEq, Repr

/-- `Radio_TxLDR(Packet, PktSize)` of `ogn-radio.cpp`, up to the call of
`Radio_TxFSK(Radio_TxPacket, 6+PktSize+1)`; `CRC8` is `PAW_Packet::CRC8`. -/
def Radio_TxLDR (CRC8 : List Nat → Nat) (Radio_TxPacket Radio_TxCount : List Nat)
    (Packet : List Nat) (PktSize : Nat) : Radio_TxLDR_Result :=
  let Buf1 := memcpy Radio_TxPacket 0 (SYNC_LDR.drop 2) 6
  let Buf2 := memcpy Buf1 6 Packet PktSize
  let Buf3 := Buf2.set (6 + PktSize) (CRC8 ((Buf2.drop 6).take PktSize) % 256)
  { TxFSK := Buf3.take ((6 + PktSize + 1) % 256)
    Radio_TxPacket := Buf3
    Radio_TxCount := Radio_TxCount.set Radio_SysID_LDR
      ((Radio_TxCount.getD Radio_SysID_LDR 0 + 1) % 2 ^ 32) }

/-! ## Transmit primitives and the air-time credit -/

/-- Conversion to `int32_t` (two's complement wrap). -/
def toInt32 (x : Int) : Int := (x + 2147483648) % 4294967296 - 2147483648

/-- The transmit side of the radio as `ogn-radio.cpp` keeps it: the air-time
credit `Radio_TxCredit` (an `int32_t`, in ms), the transmit counters
`Radio_TxCount[8]`, the buffer `Radio_TxPacket[96]`, and the frames handed to
the chip with `Radio.transmit` or `Radio.startTransmit`, in order. -/
structure Radio_TxState where
  Radio_TxCredit : Int
  Radio_TxCount : List Nat
  Radio_TxPacket : List Nat
  Transmitted : List (List Nat)
deriving DecidableEq, Repr

/-- The statement `Radio_TxCredit-=usTxTime/1000` with `uint32_t usTxTime`:
the quotient is a `uint32_t`, the difference is stored as `int32_t`. -/
def Radio_TxCredit_spend (usTxTime : Nat) (Radio_TxCredit : Int) : Int :=
  toInt32 (Radio_TxCredit - ((usTxTime % 4294967296 / 1000 : Nat) : Int))

/-- `Radio_TxFSK(Packet, Len)` of `ogn-radio.cpp` (the same for both chips as
far as this state goes): the first `Len` bytes go to the chip and the credit
is charged with `Radio.getTimeOnAir(Len)`, given in microseconds. -/
def Radio_TxFSK (getTimeOnAir : Nat → Nat) (Packet : List Nat) (Len : Nat)
    (T : Radio_TxState) : Radio_TxState :=
  { T with Radio_TxCredit := Radio_TxCredit_spend (getTimeOnAir Len) T.Radio_TxCredit
           Transmitted := T.Transmitted ++ [Packet.take Len] }

/-- A beacon frame `FANET_Packet` in its queue slot: the bytes, their number
and the flag `Done`. -/
structure FANET_Packet where
  Byte : List Nat
  Len : Nat
  Done : Bool
deriving DecidableEq, Repr, Inhabited

/-- Modelled from the spec: `Radio_SysID_FNT` of `ogn-radio.h`, the counter
index of the beacon protocol. -/
def Radio_SysID_FNT : Nat := 5

/-- `Radio_TxFANET(Packet)` of `ogn-radio.cpp`: the packet as it is left
(`Done=1`) and the transmit state. -/
def Radio_TxFANET (getTimeOnAir : Nat → Nat) (Packet : FANET_Packet) (T : Radio_TxState) :
    FANET_Packet × Radio_TxState :=
  ({ Packet with Done := true },
   { T with Transmitted := T.Transmitted ++ [Packet.Byte.take Packet.Len]
            Radio_TxCredit := Radio_TxCredit_spend (getTimeOnAir Packet.Len) T.Radio_TxCredit
            Radio_TxCount := T.Radio_TxCount.set Radio_SysID_FNT
              ((T.Radio_TxCount.getD Radio_SysID_FNT 0 + 1) % 4294967296) })

/-- `Radio_TxLoRaWAN(Packet, PktLen)` of `ogn-radio.cpp`: the body is the one
call `Radio.transmit(Packet, PktLen)`. -/
def Radio_TxLoRaWAN (Packet : List Nat) (PktLen : Nat) (T : Radio_TxState) : Radio_TxState :=
  { T with Transmitted := T.Transmitted ++ [Packet.take PktLen] }

/-- The end of one pass of the `Radio_Task` loop:
`Radio_TxCredit+= 10; if(Radio_TxCredit>60000) Radio_TxCredit=60000;`. -/
def Radio_Task_Replenish (Radio_TxCredit : Int) : Int :=
  if toInt32 (Radio_TxCredit + 10) > 60000 then 60000 else toInt32 (Radio_TxCredit + 10)

/-- A transmit state for evaluating examples: full credit, counters at zero. -/
def Radio_TxState_sample : Radio_TxState :=
  { Radio_TxCredit := 60000, Radio_TxCount := List.replicate 8 0,
    Radio_TxPacket := List.replicate 96 0, Transmitted := [] }

/-! ## The ADS-L side of `proc.cpp` -/

/-- An `ADSL_RxPacket`: a received ADS-L packet with the reception data that
`proc.cpp` fills or reads. -/
structure ADSL_RxPacket where
  Packet : ADSL_Packet
  RxErr : Nat
  RxChan : Nat
  RxRSSI : Nat
  Correct : Bool
  Warn : Bool
  Rank : Nat
  LatDist : Int
  LonDist : Int
deriving DecidableEq, Repr, Inhabited

/-- The routines of `ADSL_Packet` (`adsl.h`) that `proc.cpp` calls. -/
structure ADSL_Lib where
  /-- `isPos()`. -/
  isPos : ADSL_Packet → Bool
  /-- `getAddrTable()`, a `uint8_t`. -/
  getAddrTable : ADSL_Packet → Nat
  /-- `getAddress()`. -/
  getAddress : ADSL_Packet → Nat
  /-- `setRelay()`. -/
  setRelay : ADSL_Packet → ADSL_Packet
  /-- `Scramble()`. -/
  Scramble : ADSL_Packet → ADSL_Packet
  /-- `setCRC()`. -/
  setCRC : ADSL_Packet → ADSL_Packet

/-- The relay priority structure `Relay_PrioQueue<ADSL_RxPacket, N>`. -/
structure ADSL_Relay_PrioQueue where
  Sum : Nat
  Packet : List ADSL_RxPacket
deriving DecidableEq, Repr

/-- The methods of `Relay_PrioQueue<ADSL_RxPacket, N>` (`relay.h`) that
`GetRelayPacket` calls. -/
structure ADSL_Relay_Lib where
  /-- `getRand(Rand)`: the index drawn with the random word. -/
  getRand : ADSL_Relay_PrioQueue → Nat → Nat
  /-- `decrRank(Idx)`. -/
  decrRank : ADSL_Relay_PrioQueue → Nat → ADSL_Relay_PrioQueue

/-- The outcome of the ADS-L `GetRelayPacket`: the return value, the packet
behind the output pointer, the relay queue and `Random.RX` after the call. -/
structure GetRelayPacket_ADSL_Result where
  Ret : Bool
  Packet : ADSL_Packet
  Queue : ADSL_Relay_PrioQueue
  RandomRX : Nat
deriving DecidableEq, Repr

/-- `GetRelayPacket(ADSL_Packet *Packet)` of `proc.cpp`. -/
def GetRelayPacket_ADSL (A : ADSL_Lib) (R : ADSL_Relay_Lib) (XorShift32 : Nat → Nat)
    (ADSL_RelayQueue : ADSL_Relay_PrioQueue) (RandomRX : Nat) (Packet : ADSL_Packet) :
    GetRelayPacket_ADSL_Result :=
  if ADSL_RelayQueue.Sum = 0 then
    { Ret := false, Packet := Packet, Queue := ADSL_RelayQueue, RandomRX := RandomRX }
  else
    let RX := XorShift32 RandomRX
    let Idx := R.getRand ADSL_RelayQueue RX % 256
    let Sel := ADSL_RelayQueue.Packet.getD Idx default
    if Sel.Rank = 0 then
      { Ret := false, Packet := Packet, Queue := ADSL_RelayQueue, RandomRX := RX }
    else
      { Ret := true, Packet := A.setCRC (A.Scramble (A.setRelay Sel.Packet)),
        Queue := R.decrRank ADSL_RelayQueue Idx, RandomRX := RX }

/-- Modelled from the spec: an instance of the relay priority structure of
`relay.h` for evaluating examples.  `getRand` walks the table with the random
word reduced by the sum of ranks and returns the entry where the running sum
passes it; `decrRank` halves the rank of an entry and restores the sum. -/
def Relay_Lib_sample : Relay_Lib :=
  { getRand := fun Q Rand =>
      ((List.range Q.Packet.length).filter fun i =>
        decide (((Q.Packet.take (i + 1)).map fun p => p.Rank).sum ≤ Rand % Q.Sum)).length
    decrRank := fun Q Idx =>
      { Sum := Q.Sum - ((Q.Packet.getD Idx default).Rank - (Q.Packet.getD Idx default).Rank / 2)
        Packet := Q.Packet.set Idx
          { Q.Packet.getD Idx default with Rank := (Q.Packet.getD Idx default).Rank / 2 } } }

/-- A relay queue for evaluating examples: two candidates, of rank 0 and 6. -/
def Relay_PrioQueue_sample : Relay_PrioQueue :=
  { Sum := 6
    Packet := [ { OGN_RxPacket_sample_encrypted with Rank := 0 },
                { OGN_RxPacket_sample_encrypted with Rank := 6 } ] }

/-- The events of `ProcessRxOGN` that touch the relay priority structure, the
distance calculation or the traffic processing (`addNew`,
`calcDistanceVector`, `Look.ProcessTarget`, and `OGN_isSignif`, which reads
the previous entry of the relay queue). -/
def RxEvent.isRelayOrTraffic : RxEvent → Bool
  | RxEvent.addNew _ => true
  | RxEvent.calcDistanceVector _ => true
  | RxEvent.ProcessTarget _ => true
  | RxEvent.OGN_isSignif _ => true
  | _ => false

/-- What `ProcessRxADSL` reads from the rest of the system for one packet. -/
structure PROC_AdslRxEnv where
  /-- `RxPacket->calcRelayRank(GPS_Altitude/10)`: the rank it stores. -/
  calcRelayRank : ADSL_RxPacket → Nat
  /-- `RxPacket->calcDistanceVector(...)`: the distances when the result is `>= 0`. -/
  calcDistanceVector : ADSL_RxPacket → Option (Int × Int)
  /-- `Look.ProcessTarget(Packet, RxTime)`: the warning level of the target, if any. -/
  ProcessTarget : ADSL_Packet → Nat → Option Nat

/-- Calls that `ProcessRxADSL` makes on the rest of the system, in order. -/
inductive AdslRxEvent where
  | calcDistanceVector (RxPacket : ADSL_RxPacket)
  | addNew (RxPacket : ADSL_RxPacket)
  | ProcessTarget (Packet : ADSL_Packet) (RxTime : Nat)
deriving DecidableEq, Repr

/-- The address type that `ProcessRxADSL` compares with `Parameters.AddrType`:
`getAddrTable()` (a `uint8_t`) less 4, or 0 when it is below 4. -/
def ProcessRxADSL_AddrType (A : ADSL_Lib) (Packet : ADSL_Packet) : Nat :=
  if A.getAddrTable Packet % 256 < 4 then 0 else A.getAddrTable Packet % 256 - 4

/-- `ProcessRxADSL(RxPacket, RxPacketIdx, RxTime)` of `proc.cpp`: the calls it
makes, in order.  `RxPacket` is the slot of the relay queue obtained with
`getNew()`; `addNew` commits that slot as it stands at the call.  The GDL90
report and the beeper are left out. -/
def ProcessRxADSL (B : PROC_Build) (P : Parameters) (A : ADSL_Lib) (E : PROC_AdslRxEnv)
    (RxPacket : ADSL_RxPacket) (RxTime : Nat) : List AdslRxEvent :=
  if A.isPos RxPacket.Packet = false then []
  else if A.getAddress RxPacket.Packet = P.Address ∧
      ProcessRxADSL_AddrType A RxPacket.Packet = P.AddrType then []
  else
    match E.calcDistanceVector RxPacket with
    | none => [AdslRxEvent.calcDistanceVector RxPacket]
    | some (LatDist, LonDist) =>
      let Dist := { RxPacket with LatDist := LatDist, LonDist := LonDist }
      let Ranked := { Dist with Rank := E.calcRelayRank Dist }
      [AdslRxEvent.calcDistanceVector RxPacket, AdslRxEvent.addNew Ranked]
        ++ (if B.WITH_LOOKOUT then [AdslRxEvent.ProcessTarget Ranked.Packet RxTime] else [])

/-- Modelled from the spec: an instance of the ADS-L packet routines of
`adsl.h` for evaluating examples.  Byte 0 holds the payload type (2 for a
position), byte 1 the address table, bytes 2 to 4 the address; relaying sets
a flag in byte 5, scrambling and the CRC are placeholders. -/
def ADSL_Lib_sample : ADSL_Lib :=
  { isPos := fun Packet => decide (Packet.Byte.getD 0 0 = 2)
    getAddrTable := fun Packet => Packet.Byte.getD 1 0
    getAddress := fun Packet =>
      Packet.Byte.getD 2 0 + 256 * Packet.Byte.getD 3 0 + 65536 * Packet.Byte.getD 4 0
    setRelay := fun Packet => { Byte := Packet.Byte.set 5 (Packet.Byte.getD 5 0 ||| 0x80) }
    Scramble := fun Packet => { Byte := Packet.Byte.map fun b => b ^^^ 0x5A }
    setCRC := fun Packet => Packet }

/-- A reception environment for evaluating `ProcessRxADSL`: every packet in
range at rank 1 and no traffic target. -/
def PROC_AdslRxEnv_sample : PROC_AdslRxEnv :=
  { calcRelayRank := fun _ => 1
    calcDistanceVector := fun _ => some (0, 0)
    ProcessTarget := fun _ _ => none }

/-- A received ADS-L position packet carrying the address and address type
of `Parameters_sample` (address table 7, that is type 3). -/
def ADSL_RxPacket_sample_own : ADSL_RxPacket :=
  { Packet := { Byte := [2, 7, 0xEF, 0xCD, 0xAB, 0, 0, 0] }
    RxErr := 0, RxChan := 0, RxRSSI := 0, Correct := true, Warn := false, Rank := 0,
    LatDist := 0, LonDist := 0 }

/-- The telemetry builders that the ADS-L status part of `vTaskPROC` calls on
the queue slot.  `getTelemSatPPS` also returns whether it produced a packet. -/
structure ADSL_Telem where
  /-- `getTelemStatus(*Packet, Position)`. -/
  getTelemStatus : ADSL_Packet → ADSL_Packet
  /-- `getTelemSatSNR(*Packet)`. -/
  getTelemSatSNR : ADSL_Packet → ADSL_Packet
  /-- `getTelemSatPPS(*Packet)`. -/
  getTelemSatPPS : ADSL_Packet → Bool × ADSL_Packet

/-- The state of the ADS-L status part of `vTaskPROC`: its two static
counters, the random word `Random.RX` and the transmit queue `ADSL_TxFIFO`. -/
structure PROC_AdslState where
  StatTxBackOff : Nat
  StatTxPkt : Nat
  RandomRX : Nat
  ADSL_TxFIFO : FIFO ADSL_Packet
deriving DecidableEq, Repr

/-- The ADS-L telemetry part of `vTaskPROC` (`#ifdef WITH_ADSL`); the two
static counters are `uint8_t`. -/
def vTaskPROC_AdslStatus (A : ADSL_Lib) (T : ADSL_Telem) (XorShift32 : Nat → Nat)
    (S : PROC_AdslState) : PROC_AdslState :=
  let RX := XorShift32 S.RandomRX
  if S.StatTxBackOff ≠ 0 then { S with RandomRX := RX, StatTxBackOff := S.StatTxBackOff - 1 }
  else if S.ADSL_TxFIFO.Full < 2 then
    let Slot := S.ADSL_TxFIFO.Data.getD S.ADSL_TxFIFO.WritePtr default
    let Telem :=
      if S.StatTxPkt = 0 then T.getTelemStatus Slot
      else if S.StatTxPkt = 1 then T.getTelemSatSNR Slot
      else if (T.getTelemSatPPS Slot).1 = false then T.getTelemSatSNR (T.getTelemSatPPS Slot).2
      else (T.getTelemSatPPS Slot).2
    { StatTxBackOff := (10 + RX % 5) % 256
      StatTxPkt := if (S.StatTxPkt + 1) % 256 ≥ 3 then 0 else (S.StatTxPkt + 1) % 256
      RandomRX := RX
      ADSL_TxFIFO := (S.ADSL_TxFIFO.setWrite (A.setCRC (A.Scramble Telem))).Write }
  else { S with RandomRX := RX }

/-- The ADS-L relay refill loop of `vTaskPROC`,
`while(ADSL_TxFIFO.Full()<2) ...`, run for at most `Fuel` passes.  Returns the
transmit queue, the relay queue and `Random.RX`. -/
def vTaskPROC_Relay_ADSL (A : ADSL_Lib) (R : ADSL_Relay_Lib) (XorShift32 : Nat → Nat) :
    Nat → FIFO ADSL_Packet → ADSL_Relay_PrioQueue → Nat →
      FIFO ADSL_Packet × ADSL_Relay_PrioQueue × Nat
  | 0, Q, RelayQ, RX => (Q, RelayQ, RX)
  | Fuel + 1, Q, RelayQ, RX =>
    if Q.Full < 2 then
      let Res := GetRelayPacket_ADSL A R XorShift32 RelayQ RX (Q.Data.getD Q.WritePtr default)
      if Res.Ret = false then (Q.setWrite Res.Packet, Res.Queue, Res.RandomRX)
      else vTaskPROC_Relay_ADSL A R XorShift32 Fuel (Q.setWrite Res.Packet).Write Res.Queue
        Res.RandomRX
    else (Q, RelayQ, RX)

/-- Telemetry builders for evaluating examples: each writes a type byte
into byte 0 of the slot; the timing telemetry is always available. -/
def ADSL_Telem_sample : ADSL_Telem :=
  { getTelemStatus := fun Packet => { Byte := Packet.Byte.set 0 0x42 }
    getTelemSatSNR := fun Packet => { Byte := Packet.Byte.set 0 0x43 }
    getTelemSatPPS := fun Packet => (true, { Byte := Packet.Byte.set 0 0x44 }) }

/-- Modelled from the spec: an instance of the ADS-L relay priority
structure of `relay.h` for evaluating examples, the counterpart of
`Relay_Lib_sample`. -/
def ADSL_Relay_Lib_sample : ADSL_Relay_Lib :=
  { getRand := fun Q Rand =>
      ((List.range Q.Packet.length).filter fun i =>
        decide (((Q.Packet.take (i + 1)).map fun p => p.Rank).sum ≤ Rand % Q.Sum)).length
    decrRank := fun Q Idx =>
      { Sum := Q.Sum - ((Q.Packet.getD Idx default).Rank - (Q.Packet.getD Idx default).Rank / 2)
        Packet := Q.Packet.set Idx
          { Q.Packet.getD Idx default with Rank := (Q.Packet.getD Idx default).Rank / 2 } } }

/-- The state of `vTaskPROC` with the status back-off run down and a given
number of packets waiting in `OGN_TxFIFO`. -/
def PROC_State_pending (n : Nat) : PROC_State :=
  { PROC_State_start 8 with StatTxBackOff := 0
                            OGN_TxFIFO := { OGN_TxFIFO_empty with WritePtr := n } }

/-- The state of the ADS-L status part with the back-off run down and a
given number of packets waiting in `ADSL_TxFIFO`. -/
def PROC_AdslState_pending (n : Nat) : PROC_AdslState :=
  { StatTxBackOff := 0, StatTxPkt := 0, RandomRX := 8,
    ADSL_TxFIFO := { ADSL_TxFIFO_empty with WritePtr := n } }

/-! ## Queue slots held by the scheduler -/

/-- The queue operations and the slot calls of the slot part of one pass of
`Radio_Task`, in program order.  `Read` is a call of `Read()` that moves the
read cursor past a slot and so hands the slot back to the producer;
`Radio_Slot` is a call of `Radio_Slot`, which reads the bytes behind its
`TxPacket` pointer when it transmits. -/
inductive Radio_Task_Event where
  | Read (Slot : TxPacketRef)
  | Radio_Slot (Call : Radio_SlotCall)
deriving DecidableEq, Repr

/-- The `Read()` calls of `P1 = getRead(); if(P1) Read(); P2 = getRead();
if(P2) Read(); ...` at the head of the slot part, for one queue. -/
def Radio_Task_Dequeue_Events {α : Type} (Q : FIFO α) (Ref : Nat → TxPacketRef) :
    List Radio_Task_Event :=
  let P1 := Q.getRead
  let Q1 := if P1.isSome then Q.Read else Q
  let P2 := Q1.getRead
  (match P1 with
    | some Slot => [Radio_Task_Event.Read (Ref Slot)]
    | none => []) ++
  (match P2 with
    | some Slot => [Radio_Task_Event.Read (Ref Slot)]
    | none => [])

/-- The slot part of one pass of `Radio_Task` as a sequence of events: the
reads of `OGN_TxFIFO` (lines 857-861), the reads of `ADSL_TxFIFO` (lines
863-867), the call of slot A (line 904) and the call of slot B (line 943). -/
def Radio_Task_Trace (F : FreqPlan) (H : Hash_Lib) (UTC : Nat) (TxPower : Int) (RandomRX : Nat)
    (msTimeA msTimeB : Nat) (OGN_TxFIFO : FIFO OGN_TxPacket) (ADSL_TxFIFO : FIFO ADSL_Packet) :
    List Radio_Task_Event :=
  Radio_Task_Dequeue_Events OGN_TxFIFO TxPacketRef.OGN ++
  Radio_Task_Dequeue_Events ADSL_TxFIFO TxPacketRef.ADSL ++
  [ Radio_Task_Event.Radio_Slot
      (Radio_Task_Slots F H UTC TxPower RandomRX msTimeA msTimeB OGN_TxFIFO ADSL_TxFIFO).1,
    Radio_Task_Event.Radio_Slot
      (Radio_Task_Slots F H UTC TxPower RandomRX msTimeA msTimeB OGN_TxFIFO ADSL_TxFIFO).2.1 ]

/-- The pre-transmission delay of `Radio_Slot`:
`20+Random.RX%(msTimeLen-200)` for equal channels, `25+Random.RX%(msTimeLen-50)`
otherwise, in `uint32_t` arithmetic. -/
def Radio_Slot_TxTime (SameChan : Bool) (RandomRX msTimeLen : Nat) : Nat :=
  if SameChan then
    (20 + RandomRX % 4294967296 % ((msTimeLen + 4294967296 - 200) % 4294967296)) % 4294967296
  else
    (25 + RandomRX % 4294967296 % ((msTimeLen + 4294967296 - 50) % 4294967296)) % 4294967296

/-! ## Timed reception and the transmit/receive slot `Radio_Slot` -/

/-- What the clock and the radio chip deliver while a slot runs.  The index
is the number of blocking calls (`vTaskDelay(1)`, a transmission) completed
so far: `millis n` is the reading of `millis()` after `n` of them, `Rx n` what
a poll of the chip finds, `liveRSSI n` the reading of `Radio_liveRSSI()`.
The code between two blocking calls is taken to run within one reading of
the clock, and the 32-bit wrap of the millisecond clock is left out. -/
structure Radio_Env where
  millis : Nat → Nat
  Rx : Nat → Radio_RxInput
  liveRSSI : Nat → ℚ

/-- The state that a slot reads and writes: the number of blocking calls
completed, the receive side, the noise estimate `Radio_BkgRSSI` and the
transmit side. -/
structure Radio_SlotState where
  Step : Nat
  Rx : Radio_RxState
  Radio_BkgRSSI : ℚ
  Tx : Radio_TxState

/-- The library routines that `Radio_Slot` calls. -/
structure Radio_SlotLib where
  /-- The routines of the receive poll. -/
  Rx : Radio_RxLib
  /-- `FSK_RxPacket::SysSYNC(SYNC, PktLen, SysID)`: the returned SYNC length
  and the packet length it stores (a `uint8_t`). -/
  SysSYNC : Nat → Int × Nat
  /-- `PAW_Packet::CRC8`. -/
  CRC8 : List Nat → Nat
  /-- `Radio.getTimeOnAir(Len)`, in microseconds. -/
  getTimeOnAir : Nat → Nat
  /-- `Random.RX+=RSSI` with a `float` reading: the random word it leaves. -/
  addRSSI : Nat → ℚ → Nat

/-- The loop of the timed `Radio_Receive`: wait 1 ms, poll, stop when the
time since `msStart` has reached `msTimeLen`.  `Fuel` bounds the number of
passes; `none` when it runs out. -/
def Radio_Receive_Loop (X : Radio_RxLib) (E : Radio_Env) (msStart msTimeLen PktLen : Nat)
    (Manch : Bool) (SysID Channel : Nat) : Nat → Nat → Radio_SlotState →
      Option (Nat × Radio_SlotState)
  | 0, _, _ => none
  | Fuel + 1, PktCount, S =>
    let Poll := Radio_Receive X (E.Rx (S.Step + 1)) PktLen Manch SysID Channel S.Rx
    let S1 : Radio_SlotState := { S with Step := S.Step + 1, Rx := Poll.2 }
    if E.millis S1.Step - msStart ≥ msTimeLen then some (PktCount + Poll.1, S1)
    else Radio_Receive_Loop X E msStart msTimeLen PktLen Manch SysID Channel Fuel
      (PktCount + Poll.1) S1

/-- The timed `Radio_Receive(msTimeLen, PktLen, Manch, SysID, Channel,
TimeRef)` of `ogn-radio.cpp`: the number of packets received and the state,
with the noise estimate updated at the end of the slot. -/
def Radio_Receive_Timed (X : Radio_RxLib) (E : Radio_Env) (msTimeLen PktLen : Nat)
    (Manch : Bool) (SysID Channel : Nat) (Fuel : Nat) (S : Radio_SlotState) :
    Option (Nat × Radio_SlotState) :=
  match Radio_Receive_Loop X E (E.millis S.Step) msTimeLen PktLen Manch SysID Channel Fuel 0 S with
  | none => none
  | some (PktCount, S1) =>
    some (PktCount, { S1 with
      Radio_BkgRSSI := Radio_BkgRSSI_update (E.liveRSSI S1.Step) S1.Radio_BkgRSSI })

/-- `Radio_TxManchFSK(Packet, Len)` of `ogn-radio.cpp`: the packet is
Manchester-encoded into `Radio_TxPacket` and sent with `Radio_TxFSK`, whose
length argument is a `uint8_t`. -/
def Radio_TxManchFSK (getTimeOnAir : Nat → Nat) (Packet : List Nat) (Len : Nat)
    (T : Radio_TxState) : Radio_TxState :=
  let Enc := ManchEncode ((List.range Len).map fun Idx => Packet.getD Idx 0)
  let Buf := memcpy T.Radio_TxPacket 0 Enc Enc.length
  Radio_TxFSK getTimeOnAir Buf (Enc.length % 256) { T with Radio_TxPacket := Buf }

/-- `Radio_TxLDR(Packet, PktSize)` of `ogn-radio.cpp` on the transmit state:
the frame is built, `Radio_TxCount[Radio_SysID_LDR]` is counted up and the
frame is sent with `Radio_TxFSK`. -/
def Radio_TxLDR_Send (CRC8 : List Nat → Nat) (getTimeOnAir : Nat → Nat) (Packet : List Nat)
    (PktSize : Nat) (T : Radio_TxState) : Radio_TxState :=
  let Res := Radio_TxLDR CRC8 T.Radio_TxPacket T.Radio_TxCount Packet PktSize
  Radio_TxFSK getTimeOnAir Res.Radio_TxPacket ((6 + PktSize + 1) % 256)
    { T with Radio_TxPacket := Res.Radio_TxPacket, Radio_TxCount := Res.Radio_TxCount }

/-- One sample of the listen-before-talk loop of `Radio_Slot`, kept as a
record of the run: the number of blocking calls completed when it was taken,
the time since the start of the slot, the live RSSI read, the noise estimate
and the threshold `TxThres` it was compared with, and the random wait that
followed a sample at or above the bound. -/
structure Radio_LBT_Sample where
  Step : Nat
  msTime : Nat
  RSSI : ℚ
  Radio_BkgRSSI : ℚ
  TxThres : Int
  Wait : Option Nat
deriving DecidableEq, Repr

/-- The listen-before-talk loop of `Radio_Slot` for equal channels,
`for(int TxThres=10 ; ; ) ...`.  Returns the packets received while waiting,
the state and the record of the samples taken. -/
def Radio_Slot_LBT (L : Radio_SlotLib) (E : Radio_Env) (msStart msTimeLen RxPktLen : Nat)
    (RxManch : Bool) (RxSysID RxChannel : Nat) : Nat → Int → Radio_SlotState →
      Option (Nat × Radio_SlotState × List Radio_LBT_Sample)
  | 0, _, _ => none
  | Fuel + 1, TxThres, S =>
    let msTime := E.millis S.Step - msStart
    if msTime + 20 ≥ msTimeLen then some (0, S, [])
    else
      let RSSI := E.liveRSSI S.Step
      let S1 : Radio_SlotState :=
        { S with Rx := { S.Rx with RandomWord := L.addRSSI S.Rx.RandomWord RSSI } }
      if RSSI < S1.Radio_BkgRSSI + TxThres then
        some (0, { S1 with Radio_BkgRSSI := Radio_BkgRSSI_update RSSI S1.Radio_BkgRSSI },
          [{ Step := S.Step, msTime := msTime, RSSI := RSSI, Radio_BkgRSSI := S1.Radio_BkgRSSI,
             TxThres := TxThres, Wait := none }])
      else
        let S2 : Radio_SlotState :=
          { S1 with Rx := { S1.Rx with RandomWord := L.Rx.XorShift64 S1.Rx.RandomWord } }
        let TxTime := 10 + S2.Rx.RandomWord % 4294967296 % 19
        match Radio_Receive_Timed L.Rx E TxTime RxPktLen RxManch RxSysID RxChannel Fuel S2 with
        | none => none
        | some (n, S3) =>
          match Radio_Slot_LBT L E msStart msTimeLen RxPktLen RxManch RxSysID RxChannel Fuel
              (TxThres + 3) S3 with
          | none => none
          | some (m, S4, Log) =>
            some (n + m, S4,
              { Step := S.Step, msTime := msTime, RSSI := RSSI,
                Radio_BkgRSSI := S1.Radio_BkgRSSI, TxThres := TxThres,
                Wait := some TxTime } :: Log)

/-- The transmission in `Radio_Slot`: `if(TxManch) Radio_TxManchFSK(TxPacket,
TxPktLen); else Radio_TxLDR(TxPacket, TxPktLen); Radio_TxCount[TxSysID]++;`. -/
def Radio_Slot_Transmit (L : Radio_SlotLib) (Packet : List Nat) (TxSysID : Nat)
    (T : Radio_TxState) : Radio_TxState :=
  let TxPktLen := (L.SysSYNC TxSysID).2 % 256
  let T1 :=
    if TxSysID < 4 then Radio_TxManchFSK L.getTimeOnAir Packet TxPktLen T
    else Radio_TxLDR_Send L.CRC8 L.getTimeOnAir Packet TxPktLen T
  let Count := (T1.Radio_TxCount.getD TxSysID 0 + 1) % 4294967296
  { T1 with Radio_TxCount := T1.Radio_TxCount.set TxSysID Count }

/-- The end of `Radio_Slot`: keep receiving till the end of the slot. -/
def Radio_Slot_Tail (L : Radio_SlotLib) (E : Radio_Env) (msStart msTimeLen RxPktLen : Nat)
    (RxManch : Bool) (RxSysID RxChannel : Nat) (Fuel PktCount : Nat) (S : Radio_SlotState) :
    Option (Nat × Radio_SlotState) :=
  if E.millis S.Step - msStart < msTimeLen then
    match Radio_Receive_Timed L.Rx E (msTimeLen - (E.millis S.Step - msStart)) RxPktLen RxManch
        RxSysID RxChannel Fuel S with
    | none => none
    | some (n, S1) => some (PktCount + n, S1)
  else some (PktCount, S)

/-- `Radio_Slot(TxChannel, TxPower, msTimeLen, TxPacket, TxSysID, RxChannel,
RxSysID, TimeRef)` of `ogn-radio.cpp`: the number of packets received, the
state after the slot and the record of the listen-before-talk samples.
`TxPacket` holds the bytes behind the pointer, `none` for a null pointer.
`TxPower` and the frequencies only go to the chip and are left out; the
transmission counts as one blocking call. -/
def Radio_Slot (L : Radio_SlotLib) (E : Radio_Env) (TxChannel msTimeLen : Nat)
    (TxPacket : Option (List Nat)) (TxSysID RxChannel RxSysID : Nat) (Fuel : Nat)
    (S : Radio_SlotState) : Option (Nat × Radio_SlotState × List Radio_LBT_Sample) :=
  let RxManch : Bool := decide (RxSysID < 4 ∨ RxSysID ≥ 8)
  if (L.SysSYNC TxSysID).1 ≤ 0 ∨ (L.SysSYNC RxSysID).1 ≤ 0 then some (0, S, [])
  else
    let RxPktLen :=
      if RxSysID = Radio_SysID_LDR then ((L.SysSYNC RxSysID).2 % 256 + 7) % 256
      else (L.SysSYNC RxSysID).2 % 256
    let SameChan : Bool := decide (TxChannel = RxChannel)
    let msStart := E.millis S.Step
    let S1 : Radio_SlotState :=
      { S with Rx := { S.Rx with RandomWord := L.Rx.XorShift64 S.Rx.RandomWord } }
    match TxPacket with
    | none =>
      (Radio_Slot_Tail L E msStart msTimeLen RxPktLen RxManch RxSysID RxChannel Fuel 0 S1).map
        fun R => (R.1, R.2, [])
    | some Packet =>
      let TxTime := Radio_Slot_TxTime SameChan S1.Rx.RandomWord msTimeLen
      match Radio_Receive_Timed L.Rx E TxTime RxPktLen RxManch RxSysID RxChannel Fuel S1 with
      | none => none
      | some (n1, S2) =>
        match (if SameChan then
            Radio_Slot_LBT L E msStart msTimeLen RxPktLen RxManch RxSysID RxChannel Fuel 10 S2
          else some (0, S2, [])) with
        | none => none
        | some (n2, S3, Log) =>
          let S4 : Radio_SlotState :=
            { S3 with Step := S3.Step + 1, Tx := Radio_Slot_Transmit L Packet TxSysID S3.Tx }
          (Radio_Slot_Tail L E msStart msTimeLen RxPktLen RxManch RxSysID RxChannel Fuel
            (n1 + n2) S4).map fun R => (R.1, R.2, Log)

/-- The record of a listen-before-talk run is in order for a loop that starts
with the threshold `TxThres` no earlier than `From` ms into the slot: every
sample was compared with the threshold that the loop had reached, was taken
with more than 20 ms of the slot left, and either lies below the bound and
ends the record, or is followed by a wait of 10..28 ms and the rest of the
record with the threshold raised by 3. -/
def Radio_LBT_LogOK (msTimeLen : Nat) : Int → Nat → List Radio_LBT_Sample → Prop
  | _, _, [] => True
  | TxThres, From, s :: Log =>
    s.TxThres = TxThres ∧ From ≤ s.msTime ∧ s.msTime + 20 < msTimeLen ∧
    ((s.RSSI < s.Radio_BkgRSSI + TxThres ∧ s.Wait = none ∧ Log = []) ∨
     (¬ s.RSSI < s.Radio_BkgRSSI + TxThres ∧
       ∃ w, s.Wait = some w ∧ 10 ≤ w ∧ w ≤ 28 ∧
         Radio_LBT_LogOK msTimeLen (TxThres + 3) (s.msTime + w) Log))

/-- Modelled from the spec: an instance of the slot library for evaluating
examples.  `SysSYNC` knows the primary protocol (1, 26 bytes), ADS-L (2, 24
bytes), the long-range system (4, 24 bytes) and the combined receive profile
(8, 26 bytes); the time on air is 100 microseconds per byte. -/
def Radio_SlotLib_sample : Radio_SlotLib :=
  { Rx := Radio_RxLib_sample
    SysSYNC := fun SysID =>
      if SysID = 1 then (8, 26) else if SysID = 2 then (8, 24)
      else if SysID = 4 then (2, 24) else if SysID = 8 then (8, 26) else (0, 0)
    CRC8 := PAW_CRC8
    getTimeOnAir := fun Len => 100 * Len
    addRSSI := fun Word _ => Word }

/-- A quiet channel for evaluating examples: the clock advances by 1 ms with
every blocking call, no frame arrives, the live RSSI stays at -100 dBm. -/
def Radio_Env_sample : Radio_Env :=
  { millis := fun n => 1000 + n
    Rx := fun _ => { Radio_RxInput_sample [] with IRQ := false }
    liveRSSI := fun _ => -100 }

/-- The state at the start of a slot for evaluating examples. -/
def Radio_SlotState_sample : Radio_SlotState :=
  { Step := 0, Rx := Radio_RxState_sample, Radio_BkgRSSI := -105, Tx := Radio_TxState_sample }

/-! ## The beacon (FANET) part of the scheduler -/

/-- A received beacon frame `FANET_RxPacket` as `Radio_FANETrxPacket` fills
it.  The widths of the three rounded readings are fixed in `fanet.h`, which
is not among the sources; they are kept as integers. -/
structure FANET_RxPacket where
  Byte : List Nat
  Len : Nat
  badCRC : Bool
  msTime : Nat
  sTime : Nat
  FreqOfs : Int
  SNR : Int
  RSSI : Int
deriving DecidableEq, Repr, Inhabited

/-- What the chip and the clock deliver to one call of `Radio_FANETrxPacket`. -/
structure FANET_RxInput where
  /-- `Radio_IRQ()`. -/
  IRQ : Bool
  /-- `Radio.getPacketLength()`. -/
  PktLen : Nat
  /-- `Radio.getRSSI()`. -/
  RSSI : ℚ
  /-- `Radio.getSNR()`. -/
  SNR : ℚ
  /-- `Radio.getFrequencyError()`. -/
  FreqOfs : ℚ
  /-- The bytes delivered by `Radio.readData`. -/
  Read : List Nat
  /-- Whether `Radio.readData` returned `RADIOLIB_ERR_NONE`. -/
  ReadOK : Bool
  /-- `millis()`. -/
  millis : Nat
  /-- `TimeRef.sysTime`. -/
  sysTime : Nat
  /-- `TimeRef.UTC`. -/
  UTC : Nat

/-- What the clock and the chip deliver while the beacon part runs, indexed
by the number of blocking calls completed so far (as in `Radio_Env`);
`liveRSSI` is `Radio.getRSSI(false)`. -/
structure Radio_FNT_Env where
  millis : Nat → Nat
  Rx : Nat → FANET_RxInput
  liveRSSI : Nat → ℚ

/-- The state that the beacon part reads and writes. -/
structure Radio_FNT_State where
  Step : Nat
  FNT_RxFIFO : FIFO FANET_RxPacket
  FNT_TxFIFO : FIFO FANET_Packet
  Radio_RxCount : List Nat
  RandomWord : Nat
  Radio_BkgRSSI : ℚ
  Tx : Radio_TxState

/-- `Radio_FANETrxPacket(TimeRef)` of `ogn-radio.cpp`; `MaxBytes` is
`FANET_RxPacket::MaxBytes`. -/
def Radio_FANETrxPacket (MaxBytes : Nat) (In : FANET_RxInput) (S : Radio_FNT_State) :
    Nat × Radio_FNT_State :=
  if In.IRQ = false then (0, S)
  else
    let PktLen := if In.PktLen > MaxBytes then MaxBytes else In.PktLen
    let RxPkt : FANET_RxPacket :=
      { Byte := (List.range PktLen).map fun Idx => In.Read.getD Idx 0
        Len := PktLen
        badCRC := decide (In.PktLen > MaxBytes) || !In.ReadOK
        msTime := (In.millis + 4294967296 - In.sysTime % 4294967296) % 4294967296
        sTime := In.UTC
        FreqOfs := Int.floor (In.FreqOfs / 10 + 1 / 2)
        SNR := Int.floor (In.SNR * 4 + 1 / 2)
        RSSI := Int.floor (In.RSSI + 1 / 2) }
    (1, { S with FNT_RxFIFO := (S.FNT_RxFIFO.setWrite RxPkt).Write
                 Radio_RxCount := S.Radio_RxCount.set Radio_SysID_FNT
                   ((S.Radio_RxCount.getD Radio_SysID_FNT 0 + 1) % 4294967296) })

/-- The loop of `Radio_RxFANET`: wait 1 ms, poll, stop when the time since
`msStart` has reached `msTimeLen`.  `none` when the fuel runs out. -/
def Radio_RxFANET_Loop (MaxBytes : Nat) (E : Radio_FNT_Env) (msStart msTimeLen : Nat) :
    Nat → Nat → Radio_FNT_State → Option (Nat × Radio_FNT_State)
  | 0, _, _ => none
  | Fuel + 1, PktCount, S =>
    let Poll := Radio_FANETrxPacket MaxBytes (E.Rx (S.Step + 1)) { S with Step := S.Step + 1 }
    if E.millis Poll.2.Step - msStart ≥ msTimeLen then some (PktCount + Poll.1, Poll.2)
    else Radio_RxFANET_Loop MaxBytes E msStart msTimeLen Fuel (PktCount + Poll.1) Poll.2

/-- `Radio_RxFANET(msTimeLen, TimeRef)` of `ogn-radio.cpp`. -/
def Radio_RxFANET (MaxBytes : Nat) (E : Radio_FNT_Env) (msTimeLen Fuel : Nat)
    (S : Radio_FNT_State) : Option (Nat × Radio_FNT_State) :=
  match Radio_RxFANET_Loop MaxBytes E (E.millis S.Step) msTimeLen Fuel 0 S with
  | none => none
  | some (PktCount, S1) =>
    some (PktCount, { S1 with
      Radio_BkgRSSI := Radio_BkgRSSI_update (E.liveRSSI S1.Step) S1.Radio_BkgRSSI })

/-- `Radio_FANETslot(Freq, TxPower, msTimeLen, TxPacket, TimeRef)` of
`ogn-radio.cpp`.  `TxPacket` is the slot of `FNT_TxFIFO` behind the pointer;
`Radio_TxFANET(*TxPacket)` reads the frame there and sets its `Done` flag.
The frequency and the power only go to the chip and are left out; the
transmission counts as one blocking call. -/
def Radio_FANETslot (MaxBytes : Nat) (XorShift64 getTimeOnAir : Nat → Nat) (E : Radio_FNT_Env)
    (msTimeLen : Nat) (TxPacket : Option Nat) (Fuel : Nat) (S : Radio_FNT_State) :
    Option (Nat × Radio_FNT_State) :=
  let msStart := E.millis S.Step
  let S1 : Radio_FNT_State := { S with RandomWord := XorShift64 S.RandomWord }
  match TxPacket with
  | some Slot =>
    let TxTime :=
      if msTimeLen > 35 then
        (5 + S1.RandomWord % 4294967296 % ((msTimeLen + 4294967296 - 35) % 4294967296))
          % 4294967296
      else 5
    match Radio_RxFANET MaxBytes E TxTime Fuel S1 with
    | none => none
    | some (n1, S2) =>
      let Sent := Radio_TxFANET getTimeOnAir (S2.FNT_TxFIFO.Data.getD Slot default) S2.Tx
      let Queue : FIFO FANET_Packet :=
        { S2.FNT_TxFIFO with Data := S2.FNT_TxFIFO.Data.set Slot Sent.1 }
      let S3 : Radio_FNT_State :=
        { S2 with Step := S2.Step + 1, FNT_TxFIFO := Queue, Tx := Sent.2 }
      if E.millis S3.Step - msStart < msTimeLen then
        match Radio_RxFANET MaxBytes E (msTimeLen - (E.millis S3.Step - msStart)) Fuel S3 with
        | none => none
        | some (n2, S4) => some (n1 + n2, S4)
      else some (n1, S3)
  | none =>
    if E.millis S1.Step - msStart < msTimeLen then
      Radio_RxFANET MaxBytes E (msTimeLen - (E.millis S1.Step - msStart)) Fuel S1
    else some (0, S1)

/-- The beacon part of one pass of `Radio_Task` from the end of its waiting
loop on (`#ifdef WITH_FANET`, `FreqFNT` not zero): the queued frame is taken
from `FNT_TxFIFO`, and `Radio_FANETslot` is called when more than 40 ms are
left before the 400 ms mark.  `msTime` is the last reading of the time since
the pulse that the waiting loop left (a `uint32_t`); `msSlot` is an
`int32_t`. -/
def Radio_Task_FANET (MaxBytes : Nat) (XorShift64 getTimeOnAir : Nat → Nat) (E : Radio_FNT_Env)
    (msTime Fuel : Nat) (S : Radio_FNT_State) : Option (Nat × Radio_FNT_State) :=
  let FNTpacket := S.FNT_TxFIFO.getRead
  let S1 : Radio_FNT_State :=
    { S with FNT_TxFIFO := if FNTpacket.isSome then S.FNT_TxFIFO.Read else S.FNT_TxFIFO
             RandomWord := XorShift64 S.RandomWord }
  let msSlot := toInt32 (((400 + 4294967296 - msTime % 4294967296) % 4294967296 : Nat) : Int)
  if msSlot > 40 then
    Radio_FANETslot MaxBytes XorShift64 getTimeOnAir E (msSlot.toNat % 4294967296) FNTpacket Fuel S1
  else some (0, S1)

/-- A quiet beacon channel for evaluating examples: the clock advances by
1 ms with every blocking call and no frame arrives. -/
def Radio_FNT_Env_sample : Radio_FNT_Env :=
  { millis := fun n => 1000 + n
    Rx := fun _ => { IRQ := false, PktLen := 0, RSSI := 0, SNR := 0, FreqOfs := 0, Read := [],
                     ReadOK := true, millis := 0, sysTime := 0, UTC := 0 }
    liveRSSI := fun _ => -100 }

/-- A state of the beacon part for evaluating examples: one frame of three
bytes queued in slot 0 of `FNT_TxFIFO`. -/
def Radio_FNT_State_sample : Radio_FNT_State :=
  { Step := 0
    FNT_RxFIFO := { Size := 4, Data := List.replicate 4 default, ReadPtr := 0, WritePtr := 0 }
    FNT_TxFIFO :=
      { Size := 4
        Data := [{ Byte := [0x42, 0x11, 0x22], Len := 3, Done := false }, default, default,
                 default]
        ReadPtr := 0, WritePtr := 1 }
    Radio_RxCount := List.replicate 8 0
    RandomWord := 7
    Radio_BkgRSSI := -105
    Tx := Radio_TxState_sample }

/-! ## Small arithmetic of `proc.cpp` and `ogn-radio.cpp` -/

/-- `CleanRelayQueue(Time, Delay)` of `proc.cpp`: the arguments of
`OGN_RelayQueue.cleanTime(Sec)` and of `ADSL_RelayQueue.cleanTime(qSec<<2)`.
`Time-=Delay` is a `uint32_t` difference, `Sec` and `qSec` are `uint8_t`. -/
def CleanRelayQueue (Time Delay : Nat) : Nat × Nat :=
  let Time1 := (Time % 4294967296 + 4294967296 - Delay % 4294967296) % 4294967296
  let Sec := Time1 % 60 % 256
  let qSec := Sec % 15 % 256
  (Sec, (qSec <<< 2) % 256)

/-- The transmit-power field of `ReadStatus` in `proc.cpp`:
`uint8_t TxPower = Parameters.TxPower-4; if(TxPower>15) TxPower=15;`, with
`Parameters.TxPower` a signed 8-bit value. -/
def ReadStatus_TxPower (TxPower : Int) : Nat :=
  let Field := ((toInt8 TxPower - 4) % 256).toNat
  if Field > 15 then 15 else Field

/-- The shift loop of `ReadStatus`, `while(RxRate) { RxRate>>=1;
RxRateLog2++; }`, run for at most `Fuel` tests of its condition; `none` when
the fuel runs out.  `RxRateLog2` is a `uint8_t`. -/
def ReadStatus_RxRate_Loop : Nat → Nat → Nat → Option Nat
  | 0, _, _ => none
  | Fuel + 1, RxRate, RxRateLog2 =>
    if RxRate ≠ 0 then ReadStatus_RxRate_Loop Fuel (RxRate >>> 1) ((RxRateLog2 + 1) % 256)
    else some RxRateLog2

/-- The receive-rate field of `ReadStatus`: `uint8_t RxRateLog2=0; RxRate>>=1;
while(RxRate) ...` on the `uint16_t RxRate`. -/
def ReadStatus_RxRate (Fuel RxRate : Nat) : Option Nat :=
  ReadStatus_RxRate_Loop Fuel ((RxRate % 65536) >>> 1) 0

/-- `Radio_ConfigTxPower(TxPower)` of `ogn-radio.cpp`: the argument it gives
to `Radio.setOutputPower`, in exact rational arithmetic where the code uses
`float`.  `WITH_SX1262` selects the chip (else the SX1276). -/
def Radio_ConfigTxPower (WITH_SX1262 : Bool) (Radio_TxPwrGain TxPower : ℚ) : ℚ :=
  let Power := TxPower - Radio_TxPwrGain
  if Power < 0 then 0
  else if WITH_SX1262 then (if Power > 22 then 22 else Power)
  else (if Power > 20 then 20 else Power)

/-! ## The ADS-L position branch of `vTaskPROC` -/

/-- The state of the ADS-L position part of `vTaskPROC`: its own static
`TxBackOff`, the random word `Random.RX` and the transmit queue
`ADSL_TxFIFO`. -/
structure PROC_AdslPosState where
  TxBackOff : Nat
  RandomRX : Nat
  ADSL_TxFIFO : FIFO ADSL_Packet
deriving DecidableEq, Repr

/-- The ADS-L part of the position branch of `vTaskPROC` (`#ifdef WITH_ADSL`),
which follows the primary part on every ready, valid, not yet sent GPS
position.  `Encoded` is the packet after `Init`, the address, relay and
aircraft-type setters and `Position->Encode`; `AverSpeed` is
`GPS_AverageSpeed()`; the static `TxBackOff` is a `uint8_t`. -/
def vTaskPROC_AdslPosition (A : ADSL_Lib) (XorShift32 : Nat → Nat) (F : FreqPlan)
    (P : Parameters) (Encoded : ADSL_Packet) (AverSpeed : Int) (Radio_TxCredit : Int)
    (S : PROC_AdslPosState) : PROC_AdslPosState :=
  let FloatAcft : Bool := decide (P.AcftType = 3 ∨ (0xB ≤ P.AcftType ∧ P.AcftType ≤ 0xD))
  let RX := XorShift32 S.RandomRX
  if S.TxBackOff ≠ 0 then { S with RandomRX := RX, TxBackOff := S.TxBackOff - 1 }
  else if F.Plan ≤ 1 then
    let TxBackOff1 :=
      if AverSpeed < 10 ∧ FloatAcft = false then (S.TxBackOff + (3 + (RX &&& 0x1))) % 256
      else S.TxBackOff
    { RandomRX := RX
      ADSL_TxFIFO := (S.ADSL_TxFIFO.setWrite (A.setCRC (A.Scramble Encoded))).Write
      TxBackOff := if Radio_TxCredit ≤ 0 then (TxBackOff1 + 1) % 256 else TxBackOff1 }
  else { S with RandomRX := RX }

/-- The header that the position branch of `vTaskPROC` writes into
`PosPacket`: `HeaderWord=0`, the address and the address type of the
configuration, the `Encrypted` flag when encryption is compiled in and
requested, then `calcAddrParity()`. -/
def vTaskPROC_Position_Header (B : PROC_Build) (L : OGN_Lib) (P : Parameters) : OGN_Header :=
  let Header0 := { OGN_Header.clear with Address := P.Address, AddrType := P.AddrType }
  let Header1 := if B.WITH_ENCRYPT && P.Encrypt then { Header0 with Encrypted := true } else Header0
  { Header1 with Parity := L.calcAddrParity Header1 }

/-- The packet that the position branch of `vTaskPROC` stores in the slot
behind `OGN_TxFIFO.getWrite()` before it calls `Write()`: a copy of the
position packet `PosPacket`, encrypted when encryption is compiled in and
requested and whitened otherwise, with its FEC words. -/
def vTaskPROC_Position_TxPacket (B : PROC_Build) (L : OGN_Lib) (P : Parameters)
    (PosPacket : OGN_Packet) : OGN_TxPacket :=
  let TxData :=
    if B.WITH_ENCRYPT && P.Encrypt then L.Encrypt P.EncryptKey PosPacket.Data
    else L.Whiten PosPacket.Data
  let TxPacket : OGN_Packet := { PosPacket with Data := TxData }
  { Packet := TxPacket, FEC := L.calcFEC TxPacket }

/-- The ADS-L position state at start-up, with a given random word. -/
def PROC_AdslPosState_start (RX : Nat) : PROC_AdslPosState :=
  { TxBackOff := 0, RandomRX := RX, ADSL_TxFIFO := ADSL_TxFIFO_empty }

/-! ## Sample relay queue for the encrypted relay path -/

/-- A relay queue with one candidate of rank 1: the packet that `DecodeRxOGN`
commits with `addNew` for `OGN_RxPacket_sample_encrypted`. -/
def Relay_PrioQueue_encrypted : Relay_PrioQueue :=
  { Sum := 1
    Packet := [ { OGN_RxPacket_sample_encrypted.setData
                    (OGN_Lib_sample.Dewhiten OGN_RxPacket_sample_encrypted.Packet.Data) with
                  Rank := 1 } ] }

/-! ## Sample build with the optional outputs of `ProcessRxOGN` -/

/-- A build with traffic awareness, the flash log and the SD-card log
compiled in. -/
def PROC_Build_sample_logging : PROC_Build :=
  { WITH_ENCRYPT := true, WITH_SDLOG := true, WITH_POGNT := false, WITH_LOOKOUT := true,
    WITH_APRS := false, WITH_LOG := true, WITH_PFLAA := false, WITH_MAVLINK := false }

/-! ## The opportunistic uplink of `Radio_Task` -/

/-- Modelled from the spec: the fields of the uplink node `LoRaWANnode WANdev`
(`lorawan.h`) that `Radio_Task` reads or writes itself.  `State` is 0 when
idle, 1 after a join request, 2 when joined and 3 after a data frame; `State`,
`Chan`, `RxDelay` and `RxSilent` are kept as bytes and the two frame counters
as 32-bit words; `Session` stands for the keys and counters that only the
routines of the node touch.  The signal readings `RxRSSI` and `RxSNR` are
left out. -/
structure LoRaWANnode where
  Enable : Bool
  State : Nat
  Chan : Nat
  RxDelay : Nat
  TxCount : Nat
  RxCount : Nat
  RxSilent : Nat
  Session : List Nat
deriving DecidableEq, Repr

/-- The routines of `LoRaWANnode` (`lorawan.h`) that `Radio_Task` calls; each
returns the node as it leaves it. -/
structure LoRaWAN_Lib where
  /-- `getJoinRequest(&TxPacket)`: the frame, its length and the node. -/
  getJoinRequest : LoRaWANnode → List Nat × Nat × LoRaWANnode
  /-- `getDataPacket(&TxPacket, Data, DataLen, Port, Confirm)`: the frame, its
  length and the node.  `Data` is the packet header (absent in the short
  format, which starts at `PktData+4`) and the payload words. -/
  getDataPacket : LoRaWANnode → Option OGN_Header → List Nat → Nat → Nat → Bool →
    List Nat × Nat × LoRaWANnode
  /-- `procJoinAccept(WAN_RxPacket, RxLen)`. -/
  procJoinAccept : LoRaWANnode → List Nat → Int → LoRaWANnode
  /-- `procRxData(WAN_RxPacket, RxLen)`. -/
  procRxData : LoRaWANnode → List Nat → Int → LoRaWANnode
  /-- `Disconnect()`. -/
  Disconnect : LoRaWANnode → LoRaWANnode

/-- What the clock and the chip deliver during one call of
`Radio_RxLoRaWAN`, indexed by the number of `vTaskDelay(1)` calls completed
since its entry; `PktLen` is `Radio.getPacketLength()` and `Data` what
`Radio.readData` delivers. -/
structure Radio_WAN_RxEnv where
  millis : Nat → Nat
  IRQ : Nat → Bool
  PktLen : Int
  Data : List Nat

/-- The waiting loop of `Radio_RxLoRaWAN`: wait 1 ms, stop when the time since
`msStart` has reached `msTimeLen` or when `Radio_IRQ()` is set.  Returns the
number of waits made; `none` when the fuel runs out. -/
def Radio_RxLoRaWAN_Loop (E : Radio_WAN_RxEnv) (msStart msTimeLen : Nat) :
    Nat → Nat → Option Nat
  | 0, _ => none
  | Fuel + 1, Step =>
    if E.millis (Step + 1) - msStart ≥ msTimeLen then some (Step + 1)
    else if E.IRQ (Step + 1) then some (Step + 1)
    else Radio_RxLoRaWAN_Loop E msStart msTimeLen Fuel (Step + 1)

/-- `Radio_RxLoRaWAN(Packet, MaxPktLen, msTimeLen, ...)` of `ogn-radio.cpp`:
the return value and the bytes read into `Packet`. -/
def Radio_RxLoRaWAN (E : Radio_WAN_RxEnv) (MaxPktLen msTimeLen Fuel : Nat) :
    Option (Int × List Nat) :=
  match Radio_RxLoRaWAN_Loop E (E.millis 0) msTimeLen Fuel 0 with
  | none => none
  | some Step =>
    if E.IRQ Step = false then some (0, [])
    else if E.PktLen ≤ 0 ∨ E.PktLen > MaxPktLen then some (0, [])
    else some (E.PktLen, E.Data.take E.PktLen.toNat)

/-- The uplink state of `Radio_Task`: the static `WAN_BackOff` (a `uint8_t`
that starts at 60), the static `WAN_RespTick` (a `uint32_t`), the node
`WANdev` and the transmit side of the radio. -/
structure Radio_WAN_State where
  WAN_BackOff : Nat
  WAN_RespTick : Nat
  WANdev : LoRaWANnode
  Tx : Radio_TxState
deriving DecidableEq, Repr

/-- What one pass of the `Radio_Task` loop delivers to its uplink part:
`Parameters.TxWAN`, `Radio_FreqPlan.Plan`, `Random.Word` as the second slot
leaves it, the packets behind `OgnPacket1` and `OgnPacket2`,
`getUniqueAddress()`, the three readings of `millis()` (after the
transmission, before the reception test, before the reception) and the
environment of `Radio_RxLoRaWAN`. -/
structure Radio_WAN_Input where
  TxWAN : Bool
  Plan : Nat
  RandomWord : Nat
  OgnPacket1 : Option OGN_Packet
  OgnPacket2 : Option OGN_Packet
  UniqueAddress : Nat
  millisTx : Nat
  millisRx : Nat
  millisWait : Nat
  Rx : Radio_WAN_RxEnv

/-- The uplink decision of `Radio_Task` before the second slot: the flag
`WANtx` and the state. -/
def Radio_Task_WAN_Decide (In : Radio_WAN_Input) (S : Radio_WAN_State) :
    Bool × Radio_WAN_State :=
  if S.WAN_BackOff ≠ 0 then (false, { S with WAN_BackOff := S.WAN_BackOff - 1 })
  else if S.WANdev.Enable && In.TxWAN && decide (In.Plan ≤ 1) then
    (decide (S.WANdev.State = 0 ∨ S.WANdev.State = 2), S)
  else (false, S)

/-- The length that the uplink decision leaves in `SlotLen` for the second
slot, before it is clamped; `millis` is the reading of `millis()` there and
`msTime` the time since the pulse, both `uint32_t`; `RespLeft` is an
`int32_t`. -/
def Radio_Task_WAN_SlotLen (WANtx : Bool) (millis msTime SlotLen : Nat)
    (S : Radio_WAN_State) : Nat :=
  if WANtx then (1150 + 4294967296 - msTime % 4294967296) % 4294967296
  else if S.WANdev.State = 1 ∨ S.WANdev.State = 3 then
    let RespLeft :=
      toInt32 (((S.WAN_RespTick + 4294967296 - millis % 4294967296) % 4294967296 : Nat) : Int)
    if RespLeft > 0 ∧ RespLeft < 1000 then ((RespLeft - 40) % 4294967296).toNat else SlotLen
  else SlotLen

/-- The block `if(WANtx) { ... }` of `Radio_Task` after the second slot.
`Random.Word` is a `uint64_t` and `Random.RX` its low word.  The in-place
`Dewhiten()` of the queue slot behind `PktData` is kept in the data handed
to `getDataPacket` only. -/
def Radio_Task_WAN_Tx (L : OGN_Lib) (W : LoRaWAN_Lib) (XorShift64 : Nat → Nat)
    (In : Radio_WAN_Input) (S : Radio_WAN_State) : Radio_WAN_State :=
  let Word := XorShift64 In.RandomWord % 18446744073709551616
  let RX := Word % 4294967296
  let Dev : LoRaWANnode := { S.WANdev with Chan := (RX &&& 7) % 256 }
  if Dev.State = 0 then
    let Req := W.getJoinRequest Dev
    { WAN_BackOff := (50 + Word % 19) % 256
      WAN_RespTick := (In.millisTx % 4294967296 + 5000) % 4294967296
      WANdev := { Req.2.2 with TxCount := (Req.2.2.TxCount + 1) % 4294967296 }
      Tx := Radio_TxLoRaWAN Req.1 (Req.2.1 % 256) S.Tx }
  else if Dev.State = 2 then
    let PktData : Option OGN_Packet :=
      match In.OgnPacket1 with
      | some Packet => some Packet
      | none => In.OgnPacket2
    match PktData with
    | none => { S with WANdev := Dev }
    | some OGN =>
      let Data := if OGN.Header.Encrypted then OGN.Data else L.Dewhiten OGN.Data
      let Short : Bool :=
        !OGN.Header.NonPos && !OGN.Header.Encrypted && decide (OGN.Header.AddrType = 3)
          && decide (OGN.Header.Address = In.UniqueAddress % 4294967296 &&& 0x00FFFFFF)
      let Confirm : Bool := decide ((RX >>> 16) &&& 0xF = 0x8)
      let Pkt :=
        if Short then W.getDataPacket Dev none Data 16 1 Confirm
        else W.getDataPacket Dev (some OGN.Header) Data 20 1 Confirm
      let RespDelay := Pkt.2.2.RxDelay &&& 0x0F
      let RespDelay1 := (if RespDelay < 1 then 1 else RespDelay) * 1000
      { WAN_BackOff := (50 + Word % 19) % 256
        WAN_RespTick := (In.millisTx % 4294967296 + RespDelay1) % 4294967296
        WANdev := Pkt.2.2
        Tx := Radio_TxLoRaWAN Pkt.1 (Pkt.2.1 % 256) S.Tx }
  else { S with WANdev := Dev }

/-- The reception part of the uplink in `Radio_Task`, from `bool WANrx=0;` to
the end of `if(WANrx) { ... }`; `RespLeft` is an `int32_t`, `msMaxTime` goes
to the `uint32_t` parameter of `Radio_RxLoRaWAN`.  `none` when the fuel of
the waiting loop runs out. -/
def Radio_Task_WAN_Rx (W : LoRaWAN_Lib) (In : Radio_WAN_Input) (Fuel : Nat)
    (S : Radio_WAN_State) : Option Radio_WAN_State :=
  let RespLeft :=
    toInt32 (((S.WAN_RespTick + 4294967296 - In.millisRx % 4294967296) % 4294967296 : Nat) : Int)
  if S.WANdev.State = 1 ∨ S.WANdev.State = 3 then
    if RespLeft ≤ 5 then
      some { S with WANdev := { S.WANdev with State := S.WANdev.State - 1 } }
    else if RespLeft < 200 then
      let msMaxTime :=
        ((S.WAN_RespTick + 4294967296 - In.millisWait % 4294967296) % 4294967296 + 120)
          % 4294967296
      match Radio_RxLoRaWAN In.Rx 64 msMaxTime Fuel with
      | none => none
      | some (RxLen, Packet) =>
        if RxLen > 0 then
          let Dev : LoRaWANnode :=
            { S.WANdev with RxCount := (S.WANdev.RxCount + 1) % 4294967296 }
          let Dev1 :=
            if Dev.State = 1 then W.procJoinAccept Dev Packet RxLen
            else if Dev.State = 3 then W.procRxData Dev Packet RxLen
            else Dev
          some { S with WANdev := { Dev1 with RxSilent := 0 } }
        else
          let Dev : LoRaWANnode :=
            { S.WANdev with State := S.WANdev.State - 1
                            RxSilent := (S.WANdev.RxSilent + 1) % 256 }
          some { S with WANdev := if Dev.RxSilent ≥ 60 then W.Disconnect Dev else Dev }
    else some S
  else some S

/-- The uplink part of one pass of the `Radio_Task` loop: the decision, the
transmission block when `WANtx` is set, the reception part. -/
def Radio_Task_WAN (L : OGN_Lib) (W : LoRaWAN_Lib) (XorShift64 : Nat → Nat)
    (In : Radio_WAN_Input) (Fuel : Nat) (S : Radio_WAN_State) : Option Radio_WAN_State :=
  let Decision := Radio_Task_WAN_Decide In S
  Radio_Task_WAN_Rx W In Fuel
    (if Decision.1 then Radio_Task_WAN_Tx L W XorShift64 In Decision.2 else Decision.2)

/-- Whether a pass that took the uplink state from `S` to `S1` handed a frame
to the chip. -/
def Radio_Task_WAN_Sent (S S1 : Radio_WAN_State) : Bool :=
  decide (S.Tx.Transmitted.length < S1.Tx.Transmitted.length)

/-- Consecutive passes of the uplink part, one per element of `Inputs`:
for each pass, whether it handed a frame to the chip, and the final state. -/
def Radio_Task_WAN_Run (L : OGN_Lib) (W : LoRaWAN_Lib) (XorShift64 : Nat → Nat) (Fuel : Nat) :
    List Radio_WAN_Input → Radio_WAN_State → Option (List Bool × Radio_WAN_State)
  | [], S => some ([], S)
  | In :: Rest, S =>
    match Radio_Task_WAN L W XorShift64 In Fuel S with
    | none => none
    | some S1 =>
      match Radio_Task_WAN_Run L W XorShift64 Fuel Rest S1 with
      | none => none
      | some (Sent, S2) => some (Radio_Task_WAN_Sent S S1 :: Sent, S2)

/-- Modelled from the spec: a stand-in for the node routines of `lorawan.h`
for evaluating the definitions: a join request moves the node to state 1, a
data frame to state 3, an accepted join to state 2, a received downlink to
state 2, and `Disconnect` to state 0 with the session erased. -/
def LoRaWAN_Lib_sample : LoRaWAN_Lib :=
  { getJoinRequest := fun Dev => ([0x00, 0x01, 0x02], 3, { Dev with State := 1 })
    getDataPacket := fun Dev _ Data Len _ _ => (0x40 :: Data, Len + 1, { Dev with State := 3 })
    procJoinAccept := fun Dev _ _ => { Dev with State := 2, Session := [1] }
    procRxData := fun Dev _ _ => { Dev with State := 2 }
    Disconnect := fun Dev => { Dev with State := 0, RxSilent := 0, Session := [] } }

/-- An idle, enabled node that has not joined. -/
def LoRaWANnode_sample : LoRaWANnode :=
  { Enable := true, State := 0, Chan := 0, RxDelay := 5, TxCount := 0, RxCount := 0,
    RxSilent := 0, Session := [] }

/-- The uplink state at start-up. -/
def Radio_WAN_State_start : Radio_WAN_State :=
  { WAN_BackOff := 60, WAN_RespTick := 0, WANdev := LoRaWANnode_sample,
    Tx := Radio_TxState_sample }

/-- A silent uplink channel: the clock advances by 1 ms with every wait and
no frame arrives. -/
def Radio_WAN_RxEnv_silent (msStart : Nat) : Radio_WAN_RxEnv :=
  { millis := fun n => msStart + n, IRQ := fun _ => false, PktLen := 0, Data := [] }

/-- A pass of the loop in second `Sec` with the uplink allowed, nothing queued
and a silent uplink channel; `msRx` is the reading of `millis()` before the
reception test. -/
def Radio_WAN_Input_sample (Sec msRx : Nat) : Radio_WAN_Input :=
  { TxWAN := true, Plan := 1, RandomWord := 12345 + Sec, OgnPacket1 := none, OgnPacket2 := none,
    UniqueAddress := 0xABCDEF, millisTx := 1000 * Sec + 1200, millisRx := msRx,
    millisWait := msRx + 1, Rx := Radio_WAN_RxEnv_silent (msRx + 1) }

/-- Modelled from the spec: a 64-bit shift-and-xor generator standing in for
`XorShift64`, for evaluating the definitions. -/
def XorShift64_sample (x : Nat) : Nat :=
  let a := (x ^^^ (x <<< 13)) % 2 ^ 64
  let b := a ^^^ (a >>> 7)
  (b ^^^ (b <<< 17)) % 2 ^ 64

/-- The uplink state while the answer to a join request is awaited: the
answer is due at tick 66200 and 59 passes have been silent. -/
def Radio_WAN_State_waiting : Radio_WAN_State :=
  { WAN_BackOff := 55, WAN_RespTick := 66200
    WANdev := { LoRaWANnode_sample with State := 1, RxSilent := 59, Session := [7] }
    Tx := Radio_TxState_sample }

/-! ## Theorems -/

set_option maxRecDepth 1000000 in
theorem Radio_Receive_ManchByte_encode :
    ∀ Byte, Byte < 256 →
      Radio_Receive_ManchByte (ManchesterEncode (Byte >>> 4)) (ManchesterEncode (Byte &&& 0x0F))
        = (Byte, 0) := by
  decide

theorem ManchEncode_length (P : List Nat) : (ManchEncode P).length = 2 * P.length := by
  induction P with
  | nil => rfl
  | cons b P ih => simp [ManchEncode, ih]; omega

theorem ManchEncode_getD_even (P : List Nat) :
    ∀ i, i < P.length → (ManchEncode P).getD (2 * i) 0 = ManchesterEncode (P.getD i 0 >>> 4) := by
  induction P with
  | nil => intro i hi; simp at hi
  | cons b P ih =>
      intro i hi
      cases i with
      | zero => simp [ManchEncode]
      | succ j =>
          have hj : j < P.length := by simpa using hi
          have : 2 * (j + 1) = 2 * j + 1 + 1 := by ring
          rw [this]
          simp only [ManchEncode, List.getD_cons_succ]
          exact ih j hj

theorem ManchEncode_getD_odd (P : List Nat) :
    ∀ i, i < P.length →
      (ManchEncode P).getD (2 * i + 1) 0 = ManchesterEncode (P.getD i 0 &&& 0x0F) := by
  induction P with
  | nil => intro i hi; simp at hi
  | cons b P ih =>
      intro i hi
      cases i with
      | zero => simp [ManchEncode]
      | succ j =>
          have hj : j < P.length := by simpa using hi
          have : 2 * (j + 1) + 1 = (2 * j + 1) + 1 + 1 := by ring
          rw [this]
          simp only [ManchEncode, List.getD_cons_succ]
          exact ih j hj

/-- C1: for every byte sequence `P` of at most 48 bytes, `ManchEncode` gives
`2 * len P` symbols that fit the 96-byte buffer, symbols `2i` and `2i+1` are
the table codes of the high and the low nibble of `P[i]`, and the Manchester
branch of `Radio_Receive`, reading those symbols from the receive buffer
(whatever follows them there), returns `Data = P` and `Err = 0` in every byte. -/
theorem ManchEncode_Radio_Receive_roundtrip (P Stale : List Nat)
    (hLen : P.length ≤ 48) (hByte : ∀ b ∈ P, b < 256) :
    (ManchEncode P).length = 2 * P.length ∧ (ManchEncode P).length ≤ 96 ∧
    (∀ i, i < P.length →
      (ManchEncode P).getD (2 * i) 0 = ManchesterEncode (P.getD i 0 >>> 4) ∧
      (ManchEncode P).getD (2 * i + 1) 0 = ManchesterEncode (P.getD i 0 &&& 0x0F)) ∧
    Radio_Receive_Manch (ManchEncode P ++ Stale) P.length
      = (P, List.replicate P.length 0) := by
  have hL := ManchEncode_length P
  refine ⟨hL, by omega, fun i hi => ⟨ManchEncode_getD_even P i hi, ManchEncode_getD_odd P i hi⟩, ?_⟩
  have hpair : ∀ i, i < P.length →
      Radio_Receive_ManchByte ((ManchEncode P ++ Stale).getD (2 * i) 0)
        ((ManchEncode P ++ Stale).getD (2 * i + 1) 0) = (P.getD i 0, 0) := by
    intro i hi
    rw [List.getD_append _ _ _ _ (by omega), List.getD_append _ _ _ _ (by omega),
      ManchEncode_getD_even P i hi, ManchEncode_getD_odd P i hi]
    apply Radio_Receive_ManchByte_encode
    rw [List.getD_eq_getElem _ _ hi]
    exact hByte _ (List.getElem_mem _)
  unfold Radio_Receive_Manch
  refine Prod.ext ?_ ?_
  · apply List.ext_getElem
    · simp
    · intro i h1 h2
      have hi : i < P.length := h2
      simp only [List.getElem_map, List.getElem_range, hpair i hi]
      exact List.getD_eq_getElem _ _ hi
  · apply List.ext_getElem
    · simp
    · intro i h1 h2
      have hi : i < P.length := by simpa using h2
      simp only [List.getElem_map, List.getElem_range, hpair i hi, List.getElem_replicate]

/-- Witness for C1: the OGN SYNC word `0A F3 65 6C`, whose Manchester form
`AA 66 55 A5 96 99 96 5A` is quoted in `ogn-radio.cpp`. -/
theorem ManchEncode_Radio_Receive_roundtrip_witness :
    ManchEncode [0x0A, 0xF3, 0x65, 0x6C] = [0xAA, 0x66, 0x55, 0xA5, 0x96, 0x99, 0x96, 0x5A] ∧
    Radio_Receive_Manch (ManchEncode [0x0A, 0xF3, 0x65, 0x6C] ++ []) 4
      = ([0x0A, 0xF3, 0x65, 0x6C], [0, 0, 0, 0]) :=
  ⟨by decide,
   (ManchEncode_Radio_Receive_roundtrip [0x0A, 0xF3, 0x65, 0x6C] [] (by decide)
      (by decide)).2.2.2⟩

theorem FlipBit_length (Byte : List Nat) (BitIdx : Nat) :
    (FlipBit Byte BitIdx).length = Byte.length := by
  simp [FlipBit]

theorem FlipBit_FlipBit (Byte : List Nat) (BitIdx : Nat) (h : BitIdx / 8 < Byte.length) :
    FlipBit (FlipBit Byte BitIdx) BitIdx = Byte := by
  unfold FlipBit
  have h1 : (Byte.set (BitIdx / 8) (Byte.getD (BitIdx / 8) 0 ^^^ 1 <<< (7 - BitIdx % 8))).getD
      (BitIdx / 8) 0 = Byte.getD (BitIdx / 8) 0 ^^^ 1 <<< (7 - BitIdx % 8) := by
    rw [List.getD_eq_getElem _ _ (by simpa using h)]
    simp
  rw [h1, List.set_set, Nat.xor_assoc, Nat.xor_self, Nat.xor_zero, List.getD_eq_getElem _ _ h]
  apply List.ext_getElem (by simp)
  intro n h2 h3
  rw [List.getElem_set]
  split
  · next heq => subst heq; rfl
  · rfl

theorem FlipBit_getD_of_ne (Byte : List Nat) (BitIdx i : Nat) (h : BitIdx / 8 ≠ i) :
    (FlipBit Byte BitIdx).getD i 0 = Byte.getD i 0 := by
  unfold FlipBit
  simp only [List.getD_eq_getElem?_getD]
  rw [List.getElem?_set_ne h]

/-- Counterexample to C2: the frame made of a payload with a zero CRC-24
syndrome and its CRC-8 trailer `0x5C` is forwarded as ADS-L, but with the last
bit of the trailer inverted (bit 199 of the frame) it is dropped. -/
theorem DecodeRxLDR_trailer_bit_not_corrected :
    DecodeRxLDR LDR_Codec_model (LDR_Frame (LDR_sample_payload ++ [0x5C]))
      = LDR_Decision.ADSL (LDR_Frame (LDR_sample_payload ++ [0x5C])) ∧
    FlipBit (LDR_sample_payload ++ [0x5C]) 199 = LDR_sample_payload ++ [0x5D] ∧
    DecodeRxLDR LDR_Codec_model (LDR_Frame (FlipBit (LDR_sample_payload ++ [0x5C]) 199))
      = LDR_Decision.Drop := by
  set_option maxRecDepth 1000000 in decide

theorem DecodeRxLDR_Repair_intact (C : LDR_Codec) (Data Err : List Nat)
    (hCRC : C.checkPI (Data.take 24) % 4294967296 = 0)
    (hCRC8 : C.CRC8 (Data.take 24) % 256 = Data.getD 24 0) :
    DecodeRxLDR_Repair C Data Err = (Data, Err, 0, Data.getD 24 0) := by
  simp [DecodeRxLDR_Repair, hCRC, hCRC8]

theorem DecodeRxLDR_Repair_flipped (C : LDR_Codec) (Data Err : List Nat) (b : Nat)
    (hLen : Data.length = 25) (hb : b < 192)
    (hCRC8 : C.CRC8 (Data.take 24) % 256 = Data.getD 24 0)
    (hSyndr : C.checkPI ((FlipBit Data b).take 24) % 4294967296 ≠ 0)
    (hFind : C.FindCRCsyndrome (C.checkPI ((FlipBit Data b).take 24) % 4294967296) % 256 = b)
    (hSeen : C.CRC8 ((FlipBit Data b).take 24) % 256 ≠ Data.getD 24 0) :
    DecodeRxLDR_Repair C (FlipBit Data b) Err = (Data, FlipBit Err b, 0, Data.getD 24 0) := by
  have hb8 : b / 8 < Data.length := by omega
  have hTrail : (FlipBit Data b).getD 24 0 = Data.getD 24 0 :=
    FlipBit_getD_of_ne _ _ _ (by omega)
  have hbFF : b ≠ 255 := by omega
  unfold DecodeRxLDR_Repair
  simp only []
  rw [if_pos ⟨hSyndr, by rw [hTrail]; exact hSeen⟩, hFind, if_pos hbFF,
    FlipBit_FlipBit _ _ hb8, hCRC8]

theorem DecodeRxLDR_of_Repair (C : LDR_Codec) (RxPkt : FSK_RxPacket) (Data Err : List Nat)
    (hBytes : RxPkt.Bytes = 25) (hManch : RxPkt.Manchester = false)
    (hRepair : DecodeRxLDR_Repair C RxPkt.Data RxPkt.Err = (Data, Err, 0, Data.getD 24 0)) :
    DecodeRxLDR C RxPkt = LDR_Decision.ADSL { RxPkt with Data := Data, Err := Err } := by
  have hGate : ¬ (RxPkt.Bytes ≠ 25 ∨ RxPkt.Manchester = true) := by simp [hBytes, hManch]
  unfold DecodeRxLDR
  rw [if_neg hGate, hRepair]
  simp

/-- C2 (amended): a frame that `DecodeRxLDR` forwards as ADS-L with a zero
CRC-24 syndrome is still forwarded as ADS-L, with the same payload bytes,
when one bit `b` of its 24 payload bytes is inverted, provided the syndrome
of the damaged payload is non-zero, `FindCRCsyndrome` locates it at `b`, and
the damage shows in the CRC-8; the repaired bit is marked in the error mask. -/
theorem DecodeRxLDR_corrects_payload_bit (C : LDR_Codec) (RxPkt : FSK_RxPacket) (b : Nat)
    (hBytes : RxPkt.Bytes = 25) (hManch : RxPkt.Manchester = false)
    (hLen : RxPkt.Data.length = 25) (hb : b < 192)
    (hCRC : C.checkPI (RxPkt.Data.take 24) % 4294967296 = 0)
    (hCRC8 : C.CRC8 (RxPkt.Data.take 24) % 256 = RxPkt.Data.getD 24 0)
    (hSyndr : C.checkPI ((FlipBit RxPkt.Data b).take 24) % 4294967296 ≠ 0)
    (hFind :
      C.FindCRCsyndrome (C.checkPI ((FlipBit RxPkt.Data b).take 24) % 4294967296) % 256 = b)
    (hSeen : C.CRC8 ((FlipBit RxPkt.Data b).take 24) % 256 ≠ RxPkt.Data.getD 24 0) :
    DecodeRxLDR C RxPkt = LDR_Decision.ADSL RxPkt ∧
    DecodeRxLDR C { RxPkt with Data := FlipBit RxPkt.Data b }
      = LDR_Decision.ADSL { RxPkt with Err := FlipBit RxPkt.Err b } ∧
    (DecodeRxLDR C { RxPkt with Data := FlipBit RxPkt.Data b }).kind
      = (DecodeRxLDR C RxPkt).kind ∧
    (DecodeRxLDR C { RxPkt with Data := FlipBit RxPkt.Data b }).payload
      = (DecodeRxLDR C RxPkt).payload := by
  have h1 : DecodeRxLDR C RxPkt = LDR_Decision.ADSL RxPkt :=
    DecodeRxLDR_of_Repair C RxPkt RxPkt.Data RxPkt.Err hBytes hManch
      (DecodeRxLDR_Repair_intact C _ _ hCRC hCRC8)
  have h2 : DecodeRxLDR C { RxPkt with Data := FlipBit RxPkt.Data b }
      = LDR_Decision.ADSL { RxPkt with Err := FlipBit RxPkt.Err b } :=
    DecodeRxLDR_of_Repair C { RxPkt with Data := FlipBit RxPkt.Data b } RxPkt.Data
      (FlipBit RxPkt.Err b) hBytes hManch
      (DecodeRxLDR_Repair_flipped C _ _ b hLen hb hCRC8 hSyndr hFind hSeen)
  refine ⟨h1, h2, ?_, ?_⟩
  · rw [h1, h2]; rfl
  · rw [h1, h2]; rfl

/-- Witness for C2 (amended): bit 37 of the sample ADS-L frame. -/
theorem DecodeRxLDR_corrects_payload_bit_witness :
    DecodeRxLDR LDR_Codec_model
        { LDR_Frame (LDR_sample_payload ++ [0x5C]) with
          Data := FlipBit (LDR_sample_payload ++ [0x5C]) 37 }
      = LDR_Decision.ADSL
        { LDR_Frame (LDR_sample_payload ++ [0x5C]) with
          Err := FlipBit (List.replicate 25 0) 37 } :=
  (DecodeRxLDR_corrects_payload_bit LDR_Codec_model (LDR_Frame (LDR_sample_payload ++ [0x5C])) 37
    rfl rfl (by decide) (by decide)
    (by set_option maxRecDepth 1000000 in decide)
    (by set_option maxRecDepth 1000000 in decide)
    (by set_option maxRecDepth 1000000 in decide)
    (by set_option maxRecDepth 1000000 in decide)
    (by set_option maxRecDepth 1000000 in decide)).2.1

/-- C3 (the code as it is): `DecodeRxOGN` de-whitens every packet that passes
the FEC check with fewer than 15 corrected bits, the ones flagged
`Header.Encrypted` included: the payload handed to `ProcessRxOGN` is
`Dewhiten` of the FEC-corrected payload, and for an encrypted position packet
of another device with fewer than 10 corrected bits that is the payload
committed to the relay queue with `addNew`. -/
theorem DecodeRxOGN_dewhitens_encrypted (B : PROC_Build) (P : Parameters) (E : PROC_RxEnv)
    (L : OGN_Lib) (RxPacket : OGN_RxPacket) (RxTime : Nat)
    (hErr : RxPacket.RxErr < 10) (hEnc : RxPacket.Packet.Header.Encrypted = true)
    (hPos : RxPacket.Packet.Header.NonPos = false)
    (hOther : ¬ (RxPacket.Packet.Header.Address = P.Address ∧
      RxPacket.Packet.Header.AddrType = P.AddrType)) :
    DecodeRxOGN_Handed L 0 RxPacket
      = some (RxPacket.setData (L.Dewhiten RxPacket.Packet.Data)) ∧
    RxEvent.addNew
        { RxPacket.setData (L.Dewhiten RxPacket.Packet.Data) with
          Rank := E.calcRelayRank (RxPacket.setData (L.Dewhiten RxPacket.Packet.Data)) }
      ∈ DecodeRxOGN B P E L 0 RxPacket RxTime := by
  have hGate : ¬ ((0 : Nat) ≠ 0 ∨ RxPacket.RxErr ≥ 15) := by omega
  have hH : DecodeRxOGN_Handed L 0 RxPacket
      = some (RxPacket.setData (L.Dewhiten RxPacket.Packet.Data)) := by
    unfold DecodeRxOGN_Handed
    rw [if_neg hGate]
  refine ⟨hH, ?_⟩
  unfold DecodeRxOGN
  rw [hH]
  simp only [ProcessRxOGN, OGN_RxPacket.setData, hPos, hEnc, hErr, hOther, Bool.false_eq_true,
    if_false, and_self, if_true]
  simp

/-- Failing input for C3: an encrypted position packet with payload
`11111111 22222222 33333333 44444444` reaches the relay queue with another
payload. -/
theorem DecodeRxOGN_dewhitens_encrypted_witness :
    DecodeRxOGN PROC_Build_sample Parameters_sample PROC_RxEnv_sample OGN_Lib_sample 0
        OGN_RxPacket_sample_encrypted 7
      = [RxEvent.addNew { OGN_RxPacket_sample_encrypted with
          Packet := { OGN_RxPacket_sample_encrypted.Packet with
            Data := [0x8F2668A8, 0xBC155B9B, 0xAD044A8A, 0xDA733DFD] }
          Rank := 1 }] ∧
    RxEvent.addNew
        { OGN_RxPacket_sample_encrypted.setData
            (OGN_Lib_sample.Dewhiten OGN_RxPacket_sample_encrypted.Packet.Data) with
          Rank := PROC_RxEnv_sample.calcRelayRank (OGN_RxPacket_sample_encrypted.setData
            (OGN_Lib_sample.Dewhiten OGN_RxPacket_sample_encrypted.Packet.Data)) }
      ∈ DecodeRxOGN PROC_Build_sample Parameters_sample PROC_RxEnv_sample OGN_Lib_sample 0
          OGN_RxPacket_sample_encrypted 7 :=
  ⟨by decide,
   (DecodeRxOGN_dewhitens_encrypted PROC_Build_sample Parameters_sample PROC_RxEnv_sample
      OGN_Lib_sample OGN_RxPacket_sample_encrypted 7 (by decide) rfl rfl (by decide)).2⟩

/-- Counterexample to C9: a frame whose FEC check passes with exactly 15
corrected bits is not handed to `ProcessRxOGN`. -/
theorem DecodeRxOGN_drops_15_corrected_bits :
    DecodeRxOGN_Handed OGN_Lib_sample 0 { OGN_RxPacket_sample_encrypted with RxErr := 15 }
      = none ∧
    DecodeRxOGN PROC_Build_sample Parameters_sample PROC_RxEnv_sample OGN_Lib_sample 0
      { OGN_RxPacket_sample_encrypted with RxErr := 15 } 7 = [] := by
  decide

/-- C9 (amended): `DecodeRxOGN` hands a frame to `ProcessRxOGN` exactly when
the FEC check passes (`Check == 0`) and fewer than 15 bits were corrected;
every other frame (failed check, or 15 or more corrected bits) is dropped
with no call at all: not de-whitened, not processed, not added to the relay
queue. -/
theorem DecodeRxOGN_handed_iff (B : PROC_Build) (P : Parameters) (E : PROC_RxEnv)
    (L : OGN_Lib) (Check : Nat) (RxPacket : OGN_RxPacket) (RxTime : Nat) :
    ((DecodeRxOGN_Handed L Check RxPacket).isSome = true ↔ (Check = 0 ∧ RxPacket.RxErr < 15)) ∧
    (¬ (Check = 0 ∧ RxPacket.RxErr < 15) →
      DecodeRxOGN_Handed L Check RxPacket = none ∧
      DecodeRxOGN B P E L Check RxPacket RxTime = []) := by
  by_cases h : Check ≠ 0 ∨ RxPacket.RxErr ≥ 15
  · have hn : ¬ (Check = 0 ∧ RxPacket.RxErr < 15) := by omega
    have hH : DecodeRxOGN_Handed L Check RxPacket = none := by
      unfold DecodeRxOGN_Handed
      rw [if_pos h]
    refine ⟨?_, fun _ => ⟨hH, ?_⟩⟩
    · rw [hH]; simp; omega
    · unfold DecodeRxOGN
      rw [hH]
  · have hy : Check = 0 ∧ RxPacket.RxErr < 15 := by omega
    refine ⟨?_, fun hn => absurd hy hn⟩
    unfold DecodeRxOGN_Handed
    rw [if_neg h]
    simp [hy]

/-- Witness for C9 (amended): a frame with a passing check and 14 corrected
bits is handed on, de-whitened. -/
theorem DecodeRxOGN_handed_iff_witness :
    (DecodeRxOGN_Handed OGN_Lib_sample 0
      { OGN_RxPacket_sample_encrypted with RxErr := 14 }).isSome = true :=
  (DecodeRxOGN_handed_iff PROC_Build_sample Parameters_sample PROC_RxEnv_sample OGN_Lib_sample 0
    { OGN_RxPacket_sample_encrypted with RxErr := 14 } 7).1.2 ⟨rfl, by decide⟩

theorem vTaskPROC_Position_PosPacket (B : PROC_Build) (L : OGN_Lib) (XorShift32 : Nat → Nat)
    (P : Parameters) (Encoded : List Nat) (UnixTime : Nat) (AverSpeed Radio_TxCredit : Int)
    (S : PROC_State) :
    (vTaskPROC_Position B L XorShift32 P Encoded UnixTime AverSpeed Radio_TxCredit S).PosPacket.Header.Encrypted
      = (B.WITH_ENCRYPT && P.Encrypt) ∧
    (vTaskPROC_Position B L XorShift32 P Encoded UnixTime AverSpeed Radio_TxCredit S).PosPacket.Data
      = Encoded ∧
    (vTaskPROC_Position B L XorShift32 P Encoded UnixTime AverSpeed Radio_TxCredit S).PosTime
      = UnixTime := by
  unfold vTaskPROC_Position
  by_cases hB : S.TxBackOff ≠ 0 <;> by_cases hE : (B.WITH_ENCRYPT && P.Encrypt) = true <;>
    simp [hB, hE, OGN_Header.clear]

/-- C4 (the code as it is): in the branch of `vTaskPROC` for a missing or
stale position, the packet committed to `OGN_TxFIFO` is the persistent
`PosPacket` with `Whiten` applied to its payload, whatever its header says:
when `PosPacket` carries `Header.Encrypted` (left there by the last valid
position with encryption on), a packet flagged as encrypted is queued with a
whitened plaintext payload. -/
theorem vTaskPROC_NoPosition_whitens_encrypted (L : OGN_Lib) (XorShift32 : Nat → Nat)
    (SlotTime : Nat) (S : PROC_State)
    (hWF : S.OGN_TxFIFO.WF)
    (hFree : (S.OGN_TxFIFO.WritePtr + 1) % S.OGN_TxFIFO.Size ≠ S.OGN_TxFIFO.ReadPtr)
    (hEnc : S.PosPacket.Header.Encrypted = true) (hTime : S.PosTime ≠ 0)
    (hRX : XorShift32 S.RandomRX &&& 0x7 = 0) :
    (vTaskPROC_NoPosition L XorShift32 SlotTime S).OGN_TxFIFO.WritePtr
      = (S.OGN_TxFIFO.WritePtr + 1) % S.OGN_TxFIFO.Size ∧
    ∃ TxPacket : OGN_TxPacket,
      (vTaskPROC_NoPosition L XorShift32 SlotTime S).OGN_TxFIFO.Data[S.OGN_TxFIFO.WritePtr]?
        = some TxPacket ∧
      TxPacket.Packet.Header.Encrypted = true ∧
      TxPacket.Packet.Data
        = L.Whiten (vTaskPROC_NoPosition L XorShift32 SlotTime S).PosPacket.Data := by
  obtain ⟨hLen, -, hW⟩ := hWF
  have hIdx : S.OGN_TxFIFO.WritePtr < S.OGN_TxFIFO.Data.length := by omega
  unfold vTaskPROC_NoPosition
  simp only [hTime, hRX, ne_eq, not_false_eq_true, and_self, if_true]
  refine ⟨?_, ?_⟩
  · simp [FIFO.Write, FIFO.setWrite, hFree]
  · simp only [FIFO.Write, FIFO.setWrite, if_neg hFree, List.getElem?_set_self hIdx]
    refine ⟨_, rfl, ?_, rfl⟩
    split_ifs <;> exact hEnc

/-- Failing input for C4: encryption compiled in and switched on, one valid
position (queued encrypted), then a slot without a valid position in which
the random word has its three low bits clear: the second packet in
`OGN_TxFIFO` is flagged as encrypted and carries the whitened position. -/
theorem vTaskPROC_NoPosition_whitens_encrypted_witness :
    (vTaskPROC_NoPosition OGN_Lib_sample XorShift32_sample 101
      (vTaskPROC_Position PROC_Build_sample OGN_Lib_sample XorShift32_sample Parameters_sample
        [0x01020304, 0x05060708, 0x090A0B0C, 0x0D0E0F10] 100 50 60000
        (PROC_State_start 8))).OGN_TxFIFO.Data.take 2
      = [ { Packet :=
              { Header := { OGN_Header.clear with
                  Address := 0xABCDEF, AddrType := 3, Parity := true, Encrypted := true }
                Data := [0x01020305, 0x0506070A, 0x090A0B0F, 0x0D0E0F14] }
            FEC := [0x00000014] },
          { Packet :=
              { Header := { OGN_Header.clear with
                  Address := 0xABCDEF, AddrType := 3, Parity := true, Encrypted := true }
                Data := OGN_Lib_sample.Whiten [0x01020304, 0x05060708, 0x090A0B0C, 0x0D0E0F10] }
            FEC := [0x00000010] } ] ∧
    ∃ TxPacket : OGN_TxPacket,
      (vTaskPROC_NoPosition OGN_Lib_sample XorShift32_sample 101
        (vTaskPROC_Position PROC_Build_sample OGN_Lib_sample XorShift32_sample Parameters_sample
          [0x01020304, 0x05060708, 0x090A0B0C, 0x0D0E0F10] 100 50 60000
          (PROC_State_start 8))).OGN_TxFIFO.Data[
            (vTaskPROC_Position PROC_Build_sample OGN_Lib_sample XorShift32_sample
              Parameters_sample [0x01020304, 0x05060708, 0x090A0B0C, 0x0D0E0F10] 100 50 60000
              (PROC_State_start 8)).OGN_TxFIFO.WritePtr]? = some TxPacket ∧
      TxPacket.Packet.Header.Encrypted = true ∧
      TxPacket.Packet.Data
        = OGN_Lib_sample.Whiten (vTaskPROC_NoPosition OGN_Lib_sample XorShift32_sample 101
            (vTaskPROC_Position PROC_Build_sample OGN_Lib_sample XorShift32_sample
              Parameters_sample [0x01020304, 0x05060708, 0x090A0B0C, 0x0D0E0F10] 100 50 60000
              (PROC_State_start 8))).PosPacket.Data :=
  ⟨by decide,
   (vTaskPROC_NoPosition_whitens_encrypted OGN_Lib_sample XorShift32_sample 101
      (vTaskPROC_Position PROC_Build_sample OGN_Lib_sample XorShift32_sample Parameters_sample
        [0x01020304, 0x05060708, 0x090A0B0C, 0x0D0E0F10] 100 50 60000 (PROC_State_start 8))
      ⟨by decide, by decide, by decide⟩ (by decide) (by decide) (by decide) (by decide)).2⟩

theorem toInt8_of_range (x : Int) (h1 : -128 ≤ x) (h2 : x ≤ 127) : toInt8 x = x := by
  unfold toInt8
  omega

theorem Radio_Task_Dequeue_one {α : Type} (Q : FIFO α) (Swap : Bool)
    (hSize : Q.Size = 4) (hWF : Q.WF) (hOne : Q.Full = 1) :
    (Radio_Task_Dequeue Q Swap).2 = (some Q.ReadPtr, some Q.ReadPtr) := by
  obtain ⟨-, hR, hW⟩ := hWF
  unfold FIFO.Full at hOne
  rw [hSize] at hOne hR hW
  have hne : Q.ReadPtr ≠ Q.WritePtr := by omega
  have hnext : (Q.ReadPtr + 1) % 4 = Q.WritePtr := by omega
  simp [Radio_Task_Dequeue, FIFO.getRead, FIFO.Read, hne, hSize, hnext]

theorem Radio_Task_Dequeue_none {α : Type} (Q : FIFO α) (Swap : Bool)
    (hEmpty : Q.ReadPtr = Q.WritePtr) :
    (Radio_Task_Dequeue Q Swap).2 = (none, none) := by
  simp [Radio_Task_Dequeue, FIFO.getRead, hEmpty]

/-- C5: with one packet queued in `OGN_TxFIFO`, an empty ADS-L queue and the
European plan (`Plan <= 1`, the region with 2 channels), one pass of
`Radio_Task` hands the queued packet to exactly one of its two `Radio_Slot`
calls, as a primary-protocol transmission; the other call gets a null
`TxPacket` and transmits nothing. -/
theorem Radio_Task_one_OGN_transmission (F : FreqPlan) (H : Hash_Lib) (UTC : Nat)
    (TxPower : Int) (RandomRX msTimeA msTimeB : Nat)
    (OGN_TxFIFO : FIFO OGN_TxPacket) (ADSL_TxFIFO : FIFO ADSL_Packet)
    (hPlan : F.Plan ≤ 1) (hChannels : F.Channels = 2)
    (hSize : OGN_TxFIFO.Size = 4) (hWF : OGN_TxFIFO.WF) (hOne : OGN_TxFIFO.Full = 1)
    (hNoAdsl : ADSL_TxFIFO.ReadPtr = ADSL_TxFIFO.WritePtr) :
    ((Radio_Task_Slots F H UTC TxPower RandomRX msTimeA msTimeB OGN_TxFIFO ADSL_TxFIFO).1.TxPacket
        = some (TxPacketRef.OGN OGN_TxFIFO.ReadPtr) ∧
      (Radio_Task_Slots F H UTC TxPower RandomRX msTimeA msTimeB OGN_TxFIFO ADSL_TxFIFO).1.TxSysID
        = Radio_SysID_OGN ∧
      (Radio_Task_Slots F H UTC TxPower RandomRX msTimeA msTimeB OGN_TxFIFO ADSL_TxFIFO).2.1.TxPacket
        = none) ∨
    ((Radio_Task_Slots F H UTC TxPower RandomRX msTimeA msTimeB OGN_TxFIFO ADSL_TxFIFO).2.1.TxPacket
        = some (TxPacketRef.OGN OGN_TxFIFO.ReadPtr) ∧
      (Radio_Task_Slots F H UTC TxPower RandomRX msTimeA msTimeB OGN_TxFIFO ADSL_TxFIFO).2.1.TxSysID
        = Radio_SysID_OGN ∧
      (Radio_Task_Slots F H UTC TxPower RandomRX msTimeA msTimeB OGN_TxFIFO ADSL_TxFIFO).1.TxPacket
        = none) := by
  have hC := hChannels
  unfold Radio_Task_Slots
  simp only [Radio_Task_Dequeue_one OGN_TxFIFO _ hSize hWF hOne,
    Radio_Task_Dequeue_none ADSL_TxFIFO _ hNoAdsl]
  unfold Radio_Task_SlotCall
  simp only [hPlan, decide_True]
  cases (Radio_Task_Hash H UTC true).1 <;> cases (Radio_Task_Hash H UTC true).2 <;> simp

/-- Witness for C5: UTC second 1700000000, one queued packet in slot 0. -/
theorem Radio_Task_one_OGN_transmission_witness :
    ((Radio_Task_Slots FreqPlan_sample Hash_Lib_sample 1700000000 14 0 405 810
        (OGN_TxFIFO_empty.setWrite default).Write ADSL_TxFIFO_empty).1.TxPacket,
     (Radio_Task_Slots FreqPlan_sample Hash_Lib_sample 1700000000 14 0 405 810
        (OGN_TxFIFO_empty.setWrite default).Write ADSL_TxFIFO_empty).2.1.TxPacket)
      = (some (TxPacketRef.OGN 0), none) ∧
    (((Radio_Task_Slots FreqPlan_sample Hash_Lib_sample 1700000000 14 0 405 810
          (OGN_TxFIFO_empty.setWrite default).Write ADSL_TxFIFO_empty).1.TxPacket
        = some (TxPacketRef.OGN (OGN_TxFIFO_empty.setWrite default).Write.ReadPtr) ∧
      (Radio_Task_Slots FreqPlan_sample Hash_Lib_sample 1700000000 14 0 405 810
          (OGN_TxFIFO_empty.setWrite default).Write ADSL_TxFIFO_empty).1.TxSysID
        = Radio_SysID_OGN ∧
      (Radio_Task_Slots FreqPlan_sample Hash_Lib_sample 1700000000 14 0 405 810
          (OGN_TxFIFO_empty.setWrite default).Write ADSL_TxFIFO_empty).2.1.TxPacket
        = none) ∨
    ((Radio_Task_Slots FreqPlan_sample Hash_Lib_sample 1700000000 14 0 405 810
          (OGN_TxFIFO_empty.setWrite default).Write ADSL_TxFIFO_empty).2.1.TxPacket
        = some (TxPacketRef.OGN (OGN_TxFIFO_empty.setWrite default).Write.ReadPtr) ∧
      (Radio_Task_Slots FreqPlan_sample Hash_Lib_sample 1700000000 14 0 405 810
          (OGN_TxFIFO_empty.setWrite default).Write ADSL_TxFIFO_empty).2.1.TxSysID
        = Radio_SysID_OGN ∧
      (Radio_Task_Slots FreqPlan_sample Hash_Lib_sample 1700000000 14 0 405 810
          (OGN_TxFIFO_empty.setWrite default).Write ADSL_TxFIFO_empty).1.TxPacket
        = none)) :=
  ⟨by decide,
   Radio_Task_one_OGN_transmission FreqPlan_sample Hash_Lib_sample 1700000000 14 0 405 810
     (OGN_TxFIFO_empty.setWrite default).Write ADSL_TxFIFO_empty
     (by decide) rfl rfl ⟨by decide, by decide, by decide⟩ (by decide) rfl⟩

/-- C6: in a plan with the secondary protocol enabled (`Plan <= 1`) the two
`Radio_Slot` calls of a second are complementary.  One of them (slot A when
the hash flag `AdslSlot` is clear, slot B when it is set) transmits the
primary protocol: `TxSysID = OGN`, the OGN packet, the hopping channel, the
configured power.  The other one carries the ADS-L packet, as Manchester
ADS-L on the hopping channel at the configured power or, when the O-band
flag of the hash is set, as an LDR frame on channel index `Channels` with 13
dB more (in `int8_t`; exactly `TxPower + 13` up to 114 dBm) and the LDR
receive profile.  The O-band choice is never made for both slots. -/
theorem Radio_Task_slots_complementary (F : FreqPlan) (H : Hash_Lib) (UTC : Nat)
    (TxPower : Int) (RandomRX msTimeA msTimeB : Nat)
    (OGN_TxFIFO : FIFO OGN_TxPacket) (ADSL_TxFIFO : FIFO ADSL_Packet)
    (hPlan : F.Plan ≤ 1) (hPwrLo : -128 ≤ TxPower) (hPwrHi : TxPower ≤ 127) :
    let S := Radio_Task_Slots F H UTC TxPower RandomRX msTimeA msTimeB OGN_TxFIFO ADSL_TxFIFO
    let OgnPtr := (Radio_Task_Dequeue OGN_TxFIFO (decide (RandomRX &&& 4 ≠ 0))).2
    let AdslPtr := (Radio_Task_Dequeue ADSL_TxFIFO (decide (RandomRX &&& 8 ≠ 0))).2
    let AdslSlot := (Radio_Task_Hash H UTC true).1
    let Oband := (Radio_Task_Hash H UTC true).2
    let Ogn := if AdslSlot then S.2.1 else S.1
    let Adsl := if AdslSlot then S.1 else S.2.1
    Ogn.TxSysID = Radio_SysID_OGN ∧
    Ogn.TxPacket = (if AdslSlot then OgnPtr.2 else OgnPtr.1).map TxPacketRef.OGN ∧
    Ogn.TxChannel = F.getChannel UTC (if AdslSlot then 1 else 0) 1 % 256 ∧
    Ogn.TxPower = TxPower ∧ Ogn.RxSysID = Radio_SysID_OGN_ADSL ∧
    Adsl.TxSysID ≠ Radio_SysID_OGN ∧
    Adsl.TxPacket = (if AdslSlot then AdslPtr.1 else AdslPtr.2).map TxPacketRef.ADSL ∧
    (if Oband then
        Adsl.TxSysID = Radio_SysID_LDR ∧ Adsl.TxChannel = F.Channels % 256 ∧
        Adsl.TxPower = toInt8 (TxPower + 13) ∧ (TxPower ≤ 114 → Adsl.TxPower = TxPower + 13) ∧
        Adsl.RxSysID = Radio_SysID_LDR
      else
        Adsl.TxSysID = Radio_SysID_ADSL ∧
        Adsl.TxChannel = F.getChannel UTC (if AdslSlot then 0 else 1) 1 % 256 ∧
        Adsl.TxPower = TxPower ∧ Adsl.RxSysID = Radio_SysID_OGN_ADSL) ∧
    ¬ (S.1.TxSysID = Radio_SysID_LDR ∧ S.2.1.TxSysID = Radio_SysID_LDR) := by
  have h8 := toInt8_of_range TxPower hPwrLo hPwrHi
  have h13 : TxPower ≤ 114 → toInt8 (TxPower + 13) = TxPower + 13 :=
    fun h => toInt8_of_range _ (by omega) (by omega)
  cases hA : (Radio_Task_Hash H UTC true).1 <;> cases hO : (Radio_Task_Hash H UTC true).2 <;>
    simp [Radio_Task_Slots, Radio_Task_SlotCall, hPlan, hA, hO, h8, Radio_SysID_OGN,
      Radio_SysID_ADSL, Radio_SysID_LDR] <;>
    exact h13

/-- Witness for C6: UTC second 1700000002 in the sample European plan, where
the hash selects slot A for ADS-L and the O-band for it. -/
theorem Radio_Task_slots_complementary_witness :
    (Radio_Task_Hash Hash_Lib_sample 1700000002 true) = (true, true) ∧
    (let S := Radio_Task_Slots FreqPlan_sample Hash_Lib_sample 1700000002 14 0 405 810
        (OGN_TxFIFO_empty.setWrite default).Write (ADSL_TxFIFO_empty.setWrite default).Write
     let OgnPtr := (Radio_Task_Dequeue (OGN_TxFIFO_empty.setWrite default).Write
        (decide (0 &&& 4 ≠ 0))).2
     let AdslPtr := (Radio_Task_Dequeue (ADSL_TxFIFO_empty.setWrite default).Write
        (decide (0 &&& 8 ≠ 0))).2
     let AdslSlot := (Radio_Task_Hash Hash_Lib_sample 1700000002 true).1
     let Oband := (Radio_Task_Hash Hash_Lib_sample 1700000002 true).2
     let Ogn := if AdslSlot then S.2.1 else S.1
     let Adsl := if AdslSlot then S.1 else S.2.1
     Ogn.TxSysID = Radio_SysID_OGN ∧
     Ogn.TxPacket = (if AdslSlot then OgnPtr.2 else OgnPtr.1).map TxPacketRef.OGN ∧
     Ogn.TxChannel = FreqPlan_sample.getChannel 1700000002 (if AdslSlot then 1 else 0) 1 % 256 ∧
     Ogn.TxPower = 14 ∧ Ogn.RxSysID = Radio_SysID_OGN_ADSL ∧
     Adsl.TxSysID ≠ Radio_SysID_OGN ∧
     Adsl.TxPacket = (if AdslSlot then AdslPtr.1 else AdslPtr.2).map TxPacketRef.ADSL ∧
     (if Oband then
         Adsl.TxSysID = Radio_SysID_LDR ∧ Adsl.TxChannel = FreqPlan_sample.Channels % 256 ∧
         Adsl.TxPower = toInt8 (14 + 13) ∧ ((14 : Int) ≤ 114 → Adsl.TxPower = 14 + 13) ∧
         Adsl.RxSysID = Radio_SysID_LDR
       else
         Adsl.TxSysID = Radio_SysID_ADSL ∧
         Adsl.TxChannel
           = FreqPlan_sample.getChannel 1700000002 (if AdslSlot then 0 else 1) 1 % 256 ∧
         Adsl.TxPower = 14 ∧ Adsl.RxSysID = Radio_SysID_OGN_ADSL) ∧
     ¬ (S.1.TxSysID = Radio_SysID_LDR ∧ S.2.1.TxSysID = Radio_SysID_LDR)) :=
  ⟨by decide,
   Radio_Task_slots_complementary FreqPlan_sample Hash_Lib_sample 1700000002 14 0 405 810
     (OGN_TxFIFO_empty.setWrite default).Write (ADSL_TxFIFO_empty.setWrite default).Write
     (by decide) (by decide) (by decide)⟩

theorem Radio_BkgRSSI_after_sub (n : Nat) (V B : ℚ) :
    Radio_BkgRSSI_after n V B - V = (19 / 20) ^ n * (B - V) := by
  induction n generalizing B with
  | zero => simp [Radio_BkgRSSI_after]
  | succ n ih =>
      rw [Radio_BkgRSSI_after, ih, Radio_BkgRSSI_update, Radio_BkgUpdate]
      ring

/-- Counterexample to C7: from the initial estimate -105 dBm, 50 updates with
the constant live RSSI -100 dBm leave the estimate more than 0.1 dB (in fact
more than 0.38 dB) away from -100 dBm. -/
theorem Radio_BkgRSSI_50_updates_not_within_tenth :
    (1 : ℚ) / 10 < abs (Radio_BkgRSSI_after 50 (-100) (-105) - (-100)) ∧
    (38 : ℚ) / 100 < abs (Radio_BkgRSSI_after 50 (-100) (-105) - (-100)) := by
  rw [Radio_BkgRSSI_after_sub]
  norm_num [abs_of_neg]

/-- C7 (amended): 50 slot-end updates with a constant live RSSI `V` shrink
the distance of the estimate from `V` by exactly `(19/20)^50` (about 0.077),
whatever the starting estimate; so the estimate ends within 0.1 dB of `V`
whenever it started within 1.29 dB of `V`. -/
theorem Radio_BkgRSSI_50_updates (V B : ℚ) (hNear : abs (B - V) ≤ 129 / 100) :
    abs (Radio_BkgRSSI_after 50 V B - V) = (19 / 20) ^ 50 * abs (B - V) ∧
    abs (Radio_BkgRSSI_after 50 V B - V) ≤ 1 / 10 := by
  have hpos : (0 : ℚ) < (19 / 20) ^ 50 := by positivity
  have hEq : abs (Radio_BkgRSSI_after 50 V B - V) = (19 / 20) ^ 50 * abs (B - V) := by
    rw [Radio_BkgRSSI_after_sub, abs_mul, abs_of_pos hpos]
  refine ⟨hEq, ?_⟩
  rw [hEq]
  calc (19 / 20 : ℚ) ^ 50 * abs (B - V)
      ≤ (19 / 20) ^ 50 * (129 / 100) := mul_le_mul_of_nonneg_left hNear hpos.le
    _ ≤ 1 / 10 := by norm_num

/-- Witness for C7 (amended): from -101 dBm towards a constant -100 dBm. -/
theorem Radio_BkgRSSI_50_updates_witness :
    abs (Radio_BkgRSSI_after 50 (-100) (-101) - (-100)) ≤ 1 / 10 :=
  (Radio_BkgRSSI_50_updates (-100) (-101) (by norm_num [abs_of_neg])).2

/-- Counterexample to C8: a frame with a valid decoded system id and exactly
16 flagged Manchester bits is rejected: `Radio_Receive` returns 0, the write
cursor of `FSK_RxFIFO` stays and no receive counter moves. -/
theorem Radio_Receive_rejects_16_errors :
    (Radio_Receive_Frame (Radio_RxInput_sample [0, 0, 0, 0]) 26 true Radio_SysID_OGN_ADSL
      0).ErrCount = 16 ∧
    (Radio_Receive Radio_RxLib_sample (Radio_RxInput_sample [0, 0, 0, 0]) 26 true
      Radio_SysID_OGN_ADSL 0 Radio_RxState_sample).1 = 0 ∧
    (Radio_Receive Radio_RxLib_sample (Radio_RxInput_sample [0, 0, 0, 0]) 26 true
      Radio_SysID_OGN_ADSL 0 Radio_RxState_sample).2.FSK_RxFIFO.WritePtr = 0 ∧
    (Radio_Receive Radio_RxLib_sample (Radio_RxInput_sample [0, 0, 0, 0]) 26 true
      Radio_SysID_OGN_ADSL 0 Radio_RxState_sample).2.Radio_RxCount = List.replicate 8 0 := by
  set_option maxRecDepth 1000000 in decide

/-- C8 (amended): with the receive-ready line raised and a valid decoded
system id (below 8), the single-poll `Radio_Receive` rejects the frame
(returns 0, no `FSK_RxFIFO.Write()`, receive counters unchanged) exactly when
its Manchester error count, as held in the `uint8_t ManchErr`, is 16 or
more; a frame with at most 15 errors is committed with `FSK_RxFIFO.Write()`,
adds one to `Radio_RxCount` of its decoded system id and returns 1. -/
theorem Radio_Receive_threshold (X : Radio_RxLib) (In : Radio_RxInput) (PktLen : Nat)
    (Manch : Bool) (SysID Channel : Nat) (S : Radio_RxState)
    (hIRQ : In.IRQ = true)
    (hSys : X.DecodeSysID (Radio_Receive_Frame In PktLen Manch SysID Channel) % 256 < 8) :
    let RxPkt := Radio_Receive_Frame In PktLen Manch SysID Channel
    let Decoded := X.DecodeSysID RxPkt % 256
    let Res := Radio_Receive X In PktLen Manch SysID Channel S
    (Res.1 = 0 ↔ RxPkt.ErrCount % 256 ≥ 16) ∧
    (RxPkt.ErrCount % 256 ≥ 16 →
      Res.1 = 0 ∧ Res.2.FSK_RxFIFO = S.FSK_RxFIFO.setWrite RxPkt ∧
      Res.2.FSK_RxFIFO.WritePtr = S.FSK_RxFIFO.WritePtr ∧
      Res.2.Radio_RxCount = S.Radio_RxCount) ∧
    (RxPkt.ErrCount % 256 ≤ 15 →
      Res.1 = 1 ∧ Res.2.FSK_RxFIFO = (S.FSK_RxFIFO.setWrite RxPkt).Write ∧
      Res.2.Radio_RxCount
        = S.Radio_RxCount.set Decoded ((S.Radio_RxCount.getD Decoded 0 + 1) % 2 ^ 32)) := by
  intro RxPkt Decoded Res
  have hI : ¬ (In.IRQ = false) := by simp [hIRQ]
  by_cases hE : RxPkt.ErrCount % 256 ≥ 16
  · have hGate : Decoded ≥ 8 ∨ RxPkt.ErrCount % 256 ≥ 16 := Or.inr hE
    have hRes : Res = (0, ⟨S.FSK_RxFIFO.setWrite RxPkt, S.Radio_RxCount,
        X.XorShift64
          (Random_addRX S.RandomWord (if X.WITH_SX1262 then In.PktStat else RxPkt.RSSI))⟩) := by
      show Radio_Receive X In PktLen Manch SysID Channel S = _
      unfold Radio_Receive
      rw [if_neg hI]
      exact if_pos hGate
    rw [hRes]
    refine ⟨⟨fun _ => hE, fun _ => rfl⟩, fun _ => ⟨rfl, rfl, rfl, rfl⟩, fun h => ?_⟩
    omega
  · have hGate : ¬ (Decoded ≥ 8 ∨ RxPkt.ErrCount % 256 ≥ 16) := by
      have : Decoded < 8 := hSys
      omega
    have hRes : Res = (1, ⟨(S.FSK_RxFIFO.setWrite RxPkt).Write,
        S.Radio_RxCount.set Decoded ((S.Radio_RxCount.getD Decoded 0 + 1) % 2 ^ 32),
        X.XorShift64
          (Random_addRX S.RandomWord (if X.WITH_SX1262 then In.PktStat else RxPkt.RSSI))⟩) := by
      show Radio_Receive X In PktLen Manch SysID Channel S = _
      unfold Radio_Receive
      rw [if_neg hI]
      exact if_neg hGate
    rw [hRes]
    refine ⟨⟨fun h => absurd h (by simp), fun h => absurd h hE⟩, fun h => absurd h hE,
      fun _ => ⟨rfl, rfl, rfl⟩⟩

/-- Witness for C8 (amended): a frame with 15 flagged bits is committed and
counted. -/
theorem Radio_Receive_threshold_witness :
    (Radio_Receive_Frame (Radio_RxInput_sample [0, 0, 0, 2]) 26 true Radio_SysID_OGN_ADSL
      0).ErrCount = 15 ∧
    (Radio_Receive Radio_RxLib_sample (Radio_RxInput_sample [0, 0, 0, 2]) 26 true
      Radio_SysID_OGN_ADSL 0 Radio_RxState_sample).1 = 1 ∧
    (Radio_Receive Radio_RxLib_sample (Radio_RxInput_sample [0, 0, 0, 2]) 26 true
      Radio_SysID_OGN_ADSL 0 Radio_RxState_sample).2.Radio_RxCount
      = [0, 1, 0, 0, 0, 0, 0, 0] :=
  ⟨by set_option maxRecDepth 1000000 in decide,
   ((Radio_Receive_threshold Radio_RxLib_sample (Radio_RxInput_sample [0, 0, 0, 2]) 26 true
      Radio_SysID_OGN_ADSL 0 Radio_RxState_sample rfl (by decide)).2.2
      (by set_option maxRecDepth 1000000 in decide)).1,
   ((Radio_Receive_threshold Radio_RxLib_sample (Radio_RxInput_sample [0, 0, 0, 2]) 26 true
      Radio_SysID_OGN_ADSL 0 Radio_RxState_sample rfl (by decide)).2.2
      (by set_option maxRecDepth 1000000 in decide)).2.2⟩

theorem memcpy_succ (Dst : List Nat) (Off : Nat) (Src : List Nat) (Len : Nat) :
    memcpy Dst Off Src (Len + 1) = (memcpy Dst Off Src Len).set (Off + Len) (Src.getD Len 0) := by
  simp [memcpy, List.range_succ, List.foldl_append]

theorem memcpy_length (Dst : List Nat) (Off : Nat) (Src : List Nat) (Len : Nat) :
    (memcpy Dst Off Src Len).length = Dst.length := by
  induction Len with
  | zero => simp [memcpy]
  | succ n ih => rw [memcpy_succ, List.length_set, ih]

theorem memcpy_getElem? (Dst : List Nat) (Off : Nat) (Src : List Nat) (Len j : Nat) :
    (memcpy Dst Off Src Len)[j]? =
      if Off ≤ j ∧ j < Off + Len ∧ j < Dst.length then some (Src.getD (j - Off) 0)
      else Dst[j]? := by
  induction Len with
  | zero =>
      have : ¬ (Off ≤ j ∧ j < Off + 0 ∧ j < Dst.length) := by omega
      rw [if_neg this]
      simp [memcpy]
  | succ n ih =>
      rw [memcpy_succ, List.getElem?_set, memcpy_length, ih]
      by_cases h1 : Off + n = j
      · subst h1
        by_cases h2 : Off + n < Dst.length
        · simp [h2]
        · have h3 : Dst[Off + n]? = none := by
            apply List.getElem?_eq_none
            omega
          simp [h2, h3]
      · by_cases h2 : Off ≤ j ∧ j < Off + n ∧ j < Dst.length
        · have h3 : Off ≤ j ∧ j < Off + (n + 1) ∧ j < Dst.length := by omega
          simp [h1, h2, h3]
        · have h3 : ¬ (Off ≤ j ∧ j < Off + (n + 1) ∧ j < Dst.length) := by omega
          simp [h1, h2, h3]

/-- C10: for every 24-byte payload, `Radio_TxLDR(Packet, 24)` passes to
`Radio_TxFSK` a frame of exactly 31 bytes: the six bytes `SYNC_LDR[2..7]`
= `00 00 00 00 18 71`, the 24 payload bytes unchanged and in order, and as
byte 30 the `uint8_t` value of `PAW_Packet::CRC8` over exactly those 24
payload bytes; whatever the transmit buffer held before. -/
theorem Radio_TxLDR_frame (CRC8 : List Nat → Nat) (Radio_TxPacket Radio_TxCount : List Nat)
    (Packet : List Nat) (hBuf : Radio_TxPacket.length = 96) (hLen : Packet.length = 24) :
    (Radio_TxLDR CRC8 Radio_TxPacket Radio_TxCount Packet 24).TxFSK
      = [0x00, 0x00, 0x00, 0x00, 0x18, 0x71] ++ Packet ++ [CRC8 Packet % 256] ∧
    (Radio_TxLDR CRC8 Radio_TxPacket Radio_TxCount Packet 24).TxFSK.length = 31 ∧
    (Radio_TxLDR CRC8 Radio_TxPacket Radio_TxCount Packet 24).TxFSK.take 6
      = (SYNC_LDR.drop 2).take 6 := by
  have hB1 : (memcpy Radio_TxPacket 0 (SYNC_LDR.drop 2) 6).length = 96 := by
    rw [memcpy_length, hBuf]
  have hB2 : (memcpy (memcpy Radio_TxPacket 0 (SYNC_LDR.drop 2) 6) 6 Packet 24).length = 96 := by
    rw [memcpy_length, hB1]
  have hPayload :
      ((memcpy (memcpy Radio_TxPacket 0 (SYNC_LDR.drop 2) 6) 6 Packet 24).drop 6).take 24
        = Packet := by
    apply List.ext_getElem?
    intro i
    by_cases hi : i < 24
    · rw [List.getElem?_take_of_lt hi, List.getElem?_drop, memcpy_getElem?, hB1,
        if_pos (by omega), List.getD_eq_getElem _ _ (by omega)]
      have : 6 + i - 6 = i := by omega
      simp [this, List.getElem?_eq_getElem (show i < Packet.length by omega)]
    · rw [List.getElem?_eq_none (by simp; omega), List.getElem?_eq_none (by omega)]
  have hFrame : (Radio_TxLDR CRC8 Radio_TxPacket Radio_TxCount Packet 24).TxFSK
      = [0x00, 0x00, 0x00, 0x00, 0x18, 0x71] ++ Packet ++ [CRC8 Packet % 256] := by
    unfold Radio_TxLDR
    simp only [hPayload]
    apply List.ext_getElem?
    intro i
    by_cases hi : i < 31
    · rw [show (6 + 24 + 1) % 256 = 31 from rfl, List.getElem?_take_of_lt hi, List.getElem?_set,
        hB2]
      by_cases h30 : 6 + 24 = i
      · subst h30
        simp [hLen]
      · rw [if_neg h30, memcpy_getElem?, hB1]
        by_cases h6 : 6 ≤ i
        · rw [if_pos (by omega), List.getD_eq_getElem _ _ (by omega),
            List.getElem?_append_left (by simp; omega),
            List.getElem?_append_right (by simp; omega)]
          simp [List.getElem?_eq_getElem (show i - 6 < Packet.length by omega)]
        · rw [if_neg (by omega), memcpy_getElem?, hBuf, if_pos (by omega),
            List.getElem?_append_left (by simp; omega),
            List.getElem?_append_left (by simp; omega)]
          have hi6 : i < 6 := by omega
          interval_cases i <;> rfl
    · rw [List.getElem?_eq_none (by simp; omega), List.getElem?_eq_none (by simp; omega)]
  refine ⟨hFrame, ?_, ?_⟩
  · rw [hFrame]; simp [hLen]
  · rw [hFrame]; simp [SYNC_LDR]

/-- Witness for C10: the sample ADS-L payload sent from a zeroed buffer, with
the exclusive-or check byte. -/
theorem Radio_TxLDR_frame_witness :
    (Radio_TxLDR PAW_CRC8 (List.replicate 96 0) (List.replicate 8 0) LDR_sample_payload 24).TxFSK
      = [0x00, 0x00, 0x00, 0x00, 0x18, 0x71] ++ LDR_sample_payload ++ [0x5C] :=
  (Radio_TxLDR_frame PAW_CRC8 (List.replicate 96 0) (List.replicate 8 0) LDR_sample_payload
    (by decide) (by decide)).1

/-- Whatever the CRC routines are, a frame forwarded as ADS-L with a zero
CRC-24 syndrome is dropped once a bit of its trailer byte (bits 192..199 of
the frame) is inverted in a way that changes that byte: the repair block is
skipped because the syndrome is still zero, and the CRC-8 test returns. -/
theorem DecodeRxLDR_trailer_damage_dropped (C : LDR_Codec) (RxPkt : FSK_RxPacket)
    (Trailer : Nat)
    (hCRC : C.checkPI (RxPkt.Data.take 24) % 4294967296 = 0)
    (hCRC8 : C.CRC8 (RxPkt.Data.take 24) % 256 = RxPkt.Data.getD 24 0)
    (hLen : 24 < RxPkt.Data.length) (hDamage : Trailer ≠ RxPkt.Data.getD 24 0) :
    DecodeRxLDR C { RxPkt with Data := RxPkt.Data.set 24 Trailer } = LDR_Decision.Drop := by
  have hTake : (RxPkt.Data.set 24 Trailer).take 24 = RxPkt.Data.take 24 := by
    apply List.ext_getElem?
    intro i
    by_cases hi : i < 24
    · rw [List.getElem?_take_of_lt hi, List.getElem?_take_of_lt hi,
        List.getElem?_set_ne (by omega)]
    · rw [List.getElem?_eq_none (by simp; omega), List.getElem?_eq_none (by simp; omega)]
  have hGet : (RxPkt.Data.set 24 Trailer).getD 24 0 = Trailer := by
    rw [List.getD_eq_getElem _ _ (by simpa using hLen)]
    simp
  have hRepair : DecodeRxLDR_Repair C (RxPkt.Data.set 24 Trailer) RxPkt.Err
      = (RxPkt.Data.set 24 Trailer, RxPkt.Err, 0, RxPkt.Data.getD 24 0) := by
    simp [DecodeRxLDR_Repair, hTake, hCRC, hCRC8]
  unfold DecodeRxLDR
  simp only [hRepair, hGet]
  by_cases hGate : RxPkt.Bytes ≠ 25 ∨ RxPkt.Manchester = true
  · rw [if_pos hGate]
  · rw [if_neg hGate, if_pos (Ne.symm hDamage)]

/-- Outside the plans with the secondary protocol (`Plan > 1`) both
`Radio_Slot` calls keep `TxProt = OGN`, and with a single queued packet both
get the pointer to it (`OgnPacket2 = OgnPacket1`). -/
theorem Radio_Task_single_packet_outside_EU (F : FreqPlan) (H : Hash_Lib) (UTC : Nat)
    (TxPower : Int) (RandomRX msTimeA msTimeB : Nat)
    (OGN_TxFIFO : FIFO OGN_TxPacket) (ADSL_TxFIFO : FIFO ADSL_Packet)
    (hPlan : 1 < F.Plan)
    (hSize : OGN_TxFIFO.Size = 4) (hWF : OGN_TxFIFO.WF) (hOne : OGN_TxFIFO.Full = 1) :
    (Radio_Task_Slots F H UTC TxPower RandomRX msTimeA msTimeB OGN_TxFIFO ADSL_TxFIFO).1.TxPacket
      = some (TxPacketRef.OGN OGN_TxFIFO.ReadPtr) ∧
    (Radio_Task_Slots F H UTC TxPower RandomRX msTimeA msTimeB OGN_TxFIFO ADSL_TxFIFO).2.1.TxPacket
      = some (TxPacketRef.OGN OGN_TxFIFO.ReadPtr) := by
  have hEU : ¬ (F.Plan ≤ 1) := by omega
  unfold Radio_Task_Slots
  simp only [Radio_Task_Dequeue_one OGN_TxFIFO _ hSize hWF hOne]
  simp [Radio_Task_SlotCall, Radio_Task_Hash, hEU]

/-- The other producers of `OGN_TxFIFO` keep whitening away from ciphertext:
the valid-position branch stores the payload encrypted with the key when it
sets `Header.Encrypted` and whitened otherwise; a status or info packet never
carries `Header.Encrypted`; a relayed packet flagged `Header.Encrypted`
carries the payload of the relay queue unchanged. -/
theorem OGN_TxFIFO_producers_keep_ciphertext (B : PROC_Build) (L : OGN_Lib)
    (XorShift32 : Nat → Nat) (P : Parameters) (S : PROC_State) :
    (∀ (Encoded : List Nat) (UnixTime : Nat) (AverSpeed Radio_TxCredit : Int)
        (TxPacket : OGN_TxPacket),
      S.OGN_TxFIFO.WritePtr < S.OGN_TxFIFO.Data.length →
      (vTaskPROC_Position B L XorShift32 P Encoded UnixTime AverSpeed Radio_TxCredit
        S).OGN_TxFIFO.Data[S.OGN_TxFIFO.WritePtr]? = some TxPacket →
      TxPacket.Packet.Data
        = if TxPacket.Packet.Header.Encrypted then L.Encrypt P.EncryptKey Encoded
          else L.Whiten Encoded) ∧
    (∀ (StatData InfoData : List Nat) (InfoChars : Nat) (TxPacket : OGN_TxPacket),
      S.OGN_TxFIFO.WritePtr < S.OGN_TxFIFO.Data.length →
      (vTaskPROC_Status L XorShift32 P StatData InfoChars InfoData S).OGN_TxFIFO
        ≠ S.OGN_TxFIFO →
      (vTaskPROC_Status L XorShift32 P StatData InfoChars InfoData
        S).OGN_TxFIFO.Data[S.OGN_TxFIFO.WritePtr]? = some TxPacket →
      TxPacket.Packet.Header.Encrypted = false) ∧
    (∀ (R : Relay_Lib) (Q : Relay_PrioQueue) (RX : Nat) (Packet : OGN_TxPacket),
      (GetRelayPacket L R XorShift32 Q RX Packet).Ret = true →
      (GetRelayPacket L R XorShift32 Q RX Packet).Packet.Packet.Header.Encrypted = true →
      (GetRelayPacket L R XorShift32 Q RX Packet).Packet.Packet.Data
        = (Q.Packet.getD (R.getRand Q (XorShift32 RX) % 256) default).Packet.Data) := by
  refine ⟨?_, ?_, ?_⟩
  · intro Encoded UnixTime AverSpeed Radio_TxCredit TxPacket hIdx hGet
    unfold vTaskPROC_Position at hGet
    by_cases hB : S.TxBackOff ≠ 0 <;> by_cases hE : (B.WITH_ENCRYPT && P.Encrypt) = true <;>
      by_cases hF : (S.OGN_TxFIFO.WritePtr + 1) % S.OGN_TxFIFO.Size = S.OGN_TxFIFO.ReadPtr <;>
      simp [hB, hE, hF, FIFO.setWrite, FIFO.Write, hIdx, OGN_Header.clear] at hGet <;>
      subst hGet <;> simp
  · intro StatData InfoData InfoChars TxPacket hIdx hChanged hGet
    unfold vTaskPROC_Status at hGet hChanged
    by_cases hGo : S.StatTxBackOff = 0 ∧ S.OGN_TxFIFO.Full < 2
    · by_cases hI : (P.AddrType ≠ 0 ∧ XorShift32 S.RandomRX &&& 0x10 ≠ 0)
      · by_cases hTx : InfoChars % 256 ≠ 0
        · by_cases hF :
            (S.OGN_TxFIFO.WritePtr + 1) % S.OGN_TxFIFO.Size = S.OGN_TxFIFO.ReadPtr <;>
            simp [hGo, hI, hTx, hF, FIFO.setWrite, FIFO.Write, hIdx, OGN_Header.clear] at hGet <;>
            subst hGet <;> rfl
        · simp [hGo, hI, hTx] at hChanged
      · by_cases hF :
          (S.OGN_TxFIFO.WritePtr + 1) % S.OGN_TxFIFO.Size = S.OGN_TxFIFO.ReadPtr <;>
          simp [hGo, hI, hF, FIFO.setWrite, FIFO.Write, hIdx, OGN_Header.clear] at hGet <;>
          subst hGet <;> rfl
    · simp [hGo] at hChanged
  · intro R Q RX Packet hRet hEnc
    unfold GetRelayPacket at hRet hEnc ⊢
    by_cases hSum : Q.Sum = 0
    · rw [if_pos hSum] at hRet
      exact absurd hRet (by simp)
    · rw [if_neg hSum] at hRet hEnc ⊢
      dsimp only at hRet hEnc ⊢
      by_cases hRank : (Q.Packet.getD (R.getRand Q (XorShift32 RX) % 256) default).Rank = 0
      · rw [if_pos hRank] at hRet
        exact absurd hRet (by simp)
      · rw [if_neg hRank] at hEnc ⊢
        dsimp only at hEnc ⊢
        rw [if_pos hEnc]

/-- Whatever the CRC routines are, a frame whose CRC-8 does not match its
trailer byte on arrival is never forwarded as PilotAware: either the repair
block flips a bit and clears `CRC`, and the frame can only go on as ADS-L, or
nothing is repaired and the CRC-8 test returns.  So a damaged PilotAware
frame is not repaired. -/
theorem DecodeRxLDR_CRC8_mismatch_never_PAW (C : LDR_Codec) (RxPkt : FSK_RxPacket)
    (hSeen : C.CRC8 (RxPkt.Data.take 24) % 256 ≠ RxPkt.Data.getD 24 0) :
    (DecodeRxLDR C RxPkt).kind ≠ 2 := by
  unfold DecodeRxLDR
  by_cases hGate : RxPkt.Bytes ≠ 25 ∨ RxPkt.Manchester = true
  · rw [if_pos hGate]
    simp [LDR_Decision.kind]
  · rw [if_neg hGate]
    unfold DecodeRxLDR_Repair
    dsimp only
    by_cases hFix : C.checkPI (RxPkt.Data.take 24) % 4294967296 ≠ 0 ∧
        C.CRC8 (RxPkt.Data.take 24) % 256 ≠ RxPkt.Data.getD 24 0
    · rw [if_pos hFix]
      by_cases hBit : C.FindCRCsyndrome (C.checkPI (RxPkt.Data.take 24) % 4294967296) % 256 ≠ 0xFF
      · rw [if_pos hBit]
        dsimp only
        split_ifs with h1 h2 h3
        · simp [LDR_Decision.kind]
        · simp [LDR_Decision.kind]
        · exact absurd rfl h2
        · exact absurd rfl h2
      · rw [if_neg hBit]
        dsimp only
        rw [if_pos hSeen]
        simp [LDR_Decision.kind]
    · rw [if_neg hFix]
      dsimp only
      rw [if_pos hSeen]
      simp [LDR_Decision.kind]

theorem ADSL_CRCsyndromeTable_eq :
    ADSL_CRCsyndromeTable = [
      0x7ABEE1, 0xC2A574, 0x6152BA, 0x30A95D, 0xE7AEAA, 0x73D755, 0xC611AE, 0x6308D7, 0xCE7E6F, 0x98C533, 0xB3989D, 0xA6364A, 0x531B25, 0xD67796, 0x6B3BCB, 0xCA67E1, 0x9AC9F4, 0x4D64FA, 0x26B27D, 0xECA33A, 0x76519D, 0xC4D2CA, 0x626965, 0xCECEB6, 0x67675B, 0xCC49A9, 0x99DED0, 0x4CEF68, 0x2677B4, 0x133BDA, 0x099DED, 0xFB34F2, 0x7D9A79, 0xC13738, 0x609B9C, 0x304DCE, 0x1826E7, 0xF3E977, 0x860EBF, 0xBCFD5B, 0xA184A9, 0xAF3850, 0x579C28, 0x2BCE14, 0x15E70A, 0x0AF385, 0xFA83C6, 0x7D41E3, 0xC15AF5, 0x9F577E, 0x4FABBF, 0xD82FDB, 0x93EDE9, 0xB60CF0, 0x5B0678, 0x2D833C, 0x16C19E, 0x0B60CF, 0xFA4A63, 0x82DF35, 0xBE959E, 0x5F4ACF, 0xD05F63, 0x97D5B5, 0xB410DE, 0x5A086F, 0xD2FE33, 0x96851D, 0xB4B88A, 0x5A5C45, 0xD2D426, 0x696A13, 0xCB4F0D, 0x9A5D82, 0x4D2EC1, 0xD96D64, 0x6CB6B2, 0x365B59, 0xE4D7A8, 0x726BD4, 0x3935EA, 0x1C9AF5, 0xF1B77E, 0x78DBBF, 0xC397DB, 0x9E31E9, 0xB0E2F0, 0x587178, 0x2C38BC, 0x161C5E, 0x0B0E2F, 0xFA7D13, 0x82C48D, 0xBE9842, 0x5F4C21, 0xD05C14, 0x682E0A, 0x341705, 0xE5F186, 0x72F8C3, 0xC68665, 0x9CB936, 0x4E5C9B, 0xD8D449, 0x939020, 0x49C810, 0x24E408, 0x127204, 0x093902, 0x049C81, 0xFDB444, 0x7EDA22, 0x3F6D11, 0xE04C8C, 0x702646, 0x381323, 0xE3F395, 0x8E03CE, 0x4701E7, 0xDC7AF7, 0x91C77F, 0xB719BB, 0xA476D9, 0xADC168, 0x56E0B4, 0x2B705A, 0x15B82D, 0xF52612, 0x7A9309, 0xC2B380, 0x6159C0, 0x30ACE0, 0x185670, 0x0C2B38, 0x06159C, 0x030ACE, 0x018567, 0xFF38B7, 0x80665F, 0xBFC92B, 0xA01E91, 0xAFF54C, 0x57FAA6, 0x2BFD53, 0xEA04AD, 0x8AF852, 0x457C29, 0xDD4410, 0x6EA208, 0x375104, 0x1BA882, 0x0DD441, 0xF91024, 0x7C8812, 0x3E4409, 0xE0D800, 0x706C00, 0x383600, 0x1C1B00, 0x0E0D80, 0x0706C0, 0x038360, 0x01C1B0, 0x00E0D8, 0x00706C, 0x003836, 0x001C1B, 0xFFF409, 0x800000, 0x400000, 0x200000, 0x100000, 0x080000, 0x040000, 0x020000, 0x010000, 0x008000, 0x004000, 0x002000, 0x001000, 0x000800, 0x000400, 0x000200, 0x000100, 0x000080, 0x000040, 0x000020, 0x000010, 0x000008, 0x000004, 0x000002, 0x000001 ] := by
  set_option maxRecDepth 1000000 in decide

theorem ADSL_CRCsyndromeTable_nodup : ADSL_CRCsyndromeTable.Nodup := by
  rw [ADSL_CRCsyndromeTable_eq]
  set_option maxRecDepth 1000000 in decide

theorem ADSL_CRCsyndromeTable_pos : ∀ s ∈ ADSL_CRCsyndromeTable, s ≠ 0 ∧ s < 4294967296 := by
  rw [ADSL_CRCsyndromeTable_eq]
  set_option maxRecDepth 1000000 in decide

theorem ADSL_FindCRCsyndrome_CRCsyndrome (Bit : Nat) (h : Bit < 192) :
    ADSL_FindCRCsyndrome (ADSL_CRCsyndrome Bit) = Bit ∧ ADSL_CRCsyndrome Bit ≠ 0 ∧
      ADSL_CRCsyndrome Bit < 4294967296 := by
  have hLen : ADSL_CRCsyndromeTable.length = 192 := by simp [ADSL_CRCsyndromeTable]
  have hBit : Bit < ADSL_CRCsyndromeTable.length := by omega
  have hGet : ADSL_CRCsyndromeTable[Bit] = ADSL_CRCsyndrome Bit := by
    simp [ADSL_CRCsyndromeTable]
  have hIdx : List.indexOf (ADSL_CRCsyndrome Bit) ADSL_CRCsyndromeTable = Bit := by
    rw [← hGet]
    exact List.indexOf_getElem ADSL_CRCsyndromeTable_nodup Bit hBit
  have hMem : ADSL_CRCsyndrome Bit ∈ ADSL_CRCsyndromeTable := by
    rw [← hGet]
    exact List.getElem_mem _
  refine ⟨?_, ADSL_CRCsyndromeTable_pos _ hMem⟩
  unfold ADSL_FindCRCsyndrome
  rw [hIdx, if_pos h]

theorem and_msb_ne_zero_iff (c : Nat) : c &&& 0x80000000 ≠ 0 ↔ c.testBit 31 = true := by
  have h2 : (0x80000000 : Nat) = 2 ^ 31 := by norm_num
  rw [h2]
  constructor
  · intro h
    by_contra hb
    apply h
    apply Nat.eq_of_testBit_eq
    intro i
    rw [Nat.testBit_and, Nat.testBit_two_pow, Nat.zero_testBit]
    by_cases hi : 31 = i
    · subst hi
      simp at hb
      simp [hb]
    · simp [hi]
  · intro h h0
    have : (c &&& 2 ^ 31).testBit 31 = true := by
      rw [Nat.testBit_and, h, Nat.testBit_two_pow_self]
      rfl
    rw [h0] at this
    simp at this

theorem ADSL_PolyStep_testBit (c i : Nat) :
    (ADSL_PolyStep c).testBit i =
      (decide (i < 32) && (decide (1 ≤ i) &&
        (xor (c.testBit (i - 1)) (c.testBit 31 && (0xFFFA0480 : Nat).testBit (i - 1))))) := by
  unfold ADSL_PolyStep
  rw [Nat.testBit_mod_two_pow, Nat.testBit_shiftLeft]
  by_cases hm : c.testBit 31 = true
  · rw [if_pos ((and_msb_ne_zero_iff c).2 hm), Nat.testBit_xor, hm]
    simp
  · rw [if_neg (fun h => hm ((and_msb_ne_zero_iff c).1 h))]
    simp at hm
    simp [hm]

theorem ADSL_PolyStep_xor (a b : Nat) :
    ADSL_PolyStep (a ^^^ b) = ADSL_PolyStep a ^^^ ADSL_PolyStep b := by
  apply Nat.eq_of_testBit_eq
  intro i
  rw [Nat.testBit_xor, ADSL_PolyStep_testBit, ADSL_PolyStep_testBit, ADSL_PolyStep_testBit,
    Nat.testBit_xor, Nat.testBit_xor]
  cases decide (i < 32) <;> cases decide (1 ≤ i) <;> cases a.testBit (i - 1) <;>
    cases b.testBit (i - 1) <;> cases a.testBit 31 <;> cases b.testBit 31 <;>
    cases (0xFFFA0480 : Nat).testBit (i - 1) <;> rfl

theorem ADSL_PolyStep_iterate_xor (n a b : Nat) :
    ADSL_PolyStep^[n] (a ^^^ b) = ADSL_PolyStep^[n] a ^^^ ADSL_PolyStep^[n] b := by
  induction n generalizing a b with
  | zero => rfl
  | succ n ih => rw [Function.iterate_succ_apply, Function.iterate_succ_apply,
      Function.iterate_succ_apply, ADSL_PolyStep_xor, ih]

theorem ADSL_Poly_low_bits : ∀ j, j < 7 → (0xFFFA0480 : Nat).testBit j = false := by
  decide

theorem ADSL_PolyStep_iterate_low (n : Nat) (hn : n ≤ 8) (y : Nat) :
    ∀ j, j < n → (ADSL_PolyStep^[n] y).testBit j = false := by
  induction n with
  | zero => intro j hj; omega
  | succ n ih =>
      intro j hj
      rw [Function.iterate_succ_apply', ADSL_PolyStep_testBit]
      by_cases h0 : 1 ≤ j
      · have h1 := ih (by omega) (j - 1) (by omega)
        have h2 := ADSL_Poly_low_bits (j - 1) (by omega)
        simp [h1, h2]
      · simp [h0]

theorem or_eq_xor_of_low (c x : Nat) (hc : ∀ j, j < 8 → c.testBit j = false) (hx : x < 256) :
    c ||| x = c ^^^ x := by
  apply Nat.eq_of_testBit_eq
  intro i
  rw [Nat.testBit_or, Nat.testBit_xor]
  by_cases hi : i < 8
  · simp [hc i hi]
  · have : x.testBit i = false := by
      apply Nat.testBit_lt_two_pow
      calc x < 2 ^ 8 := hx
        _ ≤ 2 ^ i := Nat.pow_le_pow_right (by norm_num) (by omega)
    simp [this]

theorem xor_low (c1 c2 : Nat) (h1 : ∀ j, j < 8 → c1.testBit j = false)
    (h2 : ∀ j, j < 8 → c2.testBit j = false) : ∀ j, j < 8 → (c1 ^^^ c2).testBit j = false := by
  intro j hj
  rw [Nat.testBit_xor, h1 j hj, h2 j hj]
  rfl

theorem xor_lt_256 (x y : Nat) (hx : x < 256) (hy : y < 256) : x ^^^ y < 256 :=
  Nat.xor_lt_two_pow (n := 8) hx hy

theorem ADSL_PolyPass_xor (c1 c2 x1 x2 : Nat) (h1 : ∀ j, j < 8 → c1.testBit j = false)
    (h2 : ∀ j, j < 8 → c2.testBit j = false) (hx1 : x1 < 256) (hx2 : x2 < 256) :
    ADSL_PolyPass (c1 ^^^ c2) (x1 ^^^ x2) = ADSL_PolyPass c1 x1 ^^^ ADSL_PolyPass c2 x2 := by
  unfold ADSL_PolyPass
  rw [or_eq_xor_of_low _ _ (xor_low c1 c2 h1 h2) (xor_lt_256 x1 x2 hx1 hx2),
    or_eq_xor_of_low c1 x1 h1 hx1, or_eq_xor_of_low c2 x2 h2 hx2, ← ADSL_PolyStep_iterate_xor]
  congr 1
  rw [Nat.xor_assoc, Nat.xor_assoc, ← Nat.xor_assoc c2 x1 x2, Nat.xor_comm c2 x1,
    Nat.xor_assoc x1 c2 x2]

theorem ADSL_PolyPass_low (c x : Nat) : ∀ j, j < 8 → (ADSL_PolyPass c x).testBit j = false :=
  ADSL_PolyStep_iterate_low 8 (le_refl 8) _

theorem foldl_ADSL_PolyPass_xor (a : List Nat) :
    ∀ (e : List Nat) (c1 c2 : Nat), a.length = e.length →
      (∀ x ∈ a, x < 256) → (∀ x ∈ e, x < 256) →
      (∀ j, j < 8 → c1.testBit j = false) → (∀ j, j < 8 → c2.testBit j = false) →
      (List.zipWith (fun x y => x ^^^ y) a e).foldl ADSL_PolyPass (c1 ^^^ c2)
        = a.foldl ADSL_PolyPass c1 ^^^ e.foldl ADSL_PolyPass c2 := by
  induction a with
  | nil =>
      intro e c1 c2 hlen _ _ _ _
      cases e with
      | nil => rfl
      | cons y e => simp at hlen
  | cons x a ih =>
      intro e c1 c2 hlen ha he h1 h2
      cases e with
      | nil => simp at hlen
      | cons y e =>
          simp only [List.zipWith_cons_cons, List.foldl_cons]
          rw [ADSL_PolyPass_xor c1 c2 x y h1 h2 (ha x (by simp)) (he y (by simp))]
          exact ih e _ _ (by simpa using hlen) (fun z hz => ha z (by simp [hz]))
            (fun z hz => he z (by simp [hz])) (ADSL_PolyPass_low c1 x) (ADSL_PolyPass_low c2 y)

theorem shl8_or_xor (c1 c2 b1 b2 : Nat) (hb1 : b1 < 256) (hb2 : b2 < 256) :
    (((c1 ^^^ c2) <<< 8) ||| (b1 ^^^ b2)) % 2 ^ 32
      = ((c1 <<< 8) ||| b1) % 2 ^ 32 ^^^ ((c2 <<< 8) ||| b2) % 2 ^ 32 := by
  apply Nat.eq_of_testBit_eq
  intro i
  simp only [Nat.testBit_mod_two_pow, Nat.testBit_or, Nat.testBit_shiftLeft, Nat.testBit_xor]
  by_cases hi : i < 8
  · have h8 : ¬ (i ≥ 8) := by omega
    simp only [h8, decide_False, Bool.false_and, Bool.false_or]
    cases decide (i < 32) <;> cases b1.testBit i <;> cases b2.testBit i <;> rfl
  · have hle : 2 ^ 8 ≤ 2 ^ i := Nat.pow_le_pow_right (by norm_num) (by omega)
    have h1 : b1.testBit i = false := Nat.testBit_lt_two_pow (lt_of_lt_of_le hb1 hle)
    have h2 : b2.testBit i = false := Nat.testBit_lt_two_pow (lt_of_lt_of_le hb2 hle)
    simp only [h1, h2, Bool.or_false]
    cases decide (i < 32) <;> cases decide (i ≥ 8) <;> cases c1.testBit (i - 8) <;>
      cases c2.testBit (i - 8) <;> rfl

theorem foldl_shl8_or_xor (a : List Nat) :
    ∀ (e : List Nat) (c1 c2 : Nat), a.length = e.length →
      (∀ x ∈ a, x < 256) → (∀ x ∈ e, x < 256) →
      (List.zipWith (fun x y => x ^^^ y) a e).foldl
          (fun c b => ((c <<< 8) ||| b) % 2 ^ 32) (c1 ^^^ c2)
        = a.foldl (fun c b => ((c <<< 8) ||| b) % 2 ^ 32) c1
          ^^^ e.foldl (fun c b => ((c <<< 8) ||| b) % 2 ^ 32) c2 := by
  induction a with
  | nil =>
      intro e c1 c2 hlen _ _
      cases e with
      | nil => rfl
      | cons y e => simp at hlen
  | cons x a ih =>
      intro e c1 c2 hlen ha he
      cases e with
      | nil => simp at hlen
      | cons y e =>
          simp only [List.zipWith_cons_cons, List.foldl_cons]
          rw [shl8_or_xor c1 c2 x y (ha x (by simp)) (he y (by simp))]
          exact ih e _ _ (by simpa using hlen) (fun z hz => ha z (by simp [hz]))
            (fun z hz => he z (by simp [hz]))

theorem shl8_mod_xor (a b : Nat) :
    ((a ^^^ b) <<< 8) % 2 ^ 32 = (a <<< 8) % 2 ^ 32 ^^^ (b <<< 8) % 2 ^ 32 := by
  apply Nat.eq_of_testBit_eq
  intro i
  simp only [Nat.testBit_mod_two_pow, Nat.testBit_shiftLeft, Nat.testBit_xor]
  cases decide (i < 32) <;> cases decide (i ≥ 8) <;> cases a.testBit (i - 8) <;>
    cases b.testBit (i - 8) <;> rfl

theorem shl8_mod_low (a : Nat) : ∀ j, j < 8 → ((a <<< 8) % 2 ^ 32).testBit j = false := by
  intro j hj
  have h8 : ¬ (j ≥ 8) := by omega
  rw [Nat.testBit_mod_two_pow, Nat.testBit_shiftLeft]
  simp [h8]

theorem shr8_xor (a b : Nat) : (a ^^^ b) >>> 8 = a >>> 8 ^^^ b >>> 8 := by
  apply Nat.eq_of_testBit_eq
  intro i
  simp only [Nat.testBit_shiftRight, Nat.testBit_xor]

theorem mem_of_mem_take {n : Nat} {l : List Nat} {x : Nat} (h : x ∈ l.take n) : x ∈ l :=
  List.mem_of_mem_take h

theorem mem_of_mem_drop {n : Nat} {l : List Nat} {x : Nat} (h : x ∈ l.drop n) : x ∈ l :=
  List.mem_of_mem_drop h

/-- The CRC-24 syndrome is linear over the exclusive-or of byte buffers. -/
theorem ADSL_checkPI_xor (a e : List Nat) (hlen : a.length = e.length)
    (ha : ∀ x ∈ a, x < 256) (he : ∀ x ∈ e, x < 256) :
    ADSL_checkPI (List.zipWith (fun x y => x ^^^ y) a e) = ADSL_checkPI a ^^^ ADSL_checkPI e := by
  unfold ADSL_checkPI
  rw [List.take_zipWith, List.drop_zipWith]
  have h0 : (0 : Nat) = 0 ^^^ 0 := rfl
  have hInit := foldl_shl8_or_xor (a.take 3) (e.take 3) 0 0 (by simp [hlen])
    (fun x hx => ha x (mem_of_mem_take hx)) (fun x hx => he x (mem_of_mem_take hx))
  rw [← h0] at hInit
  rw [hInit, shl8_mod_xor,
    foldl_ADSL_PolyPass_xor (a.drop 3) (e.drop 3) _ _ (by simp [hlen])
      (fun x hx => ha x (mem_of_mem_drop hx)) (fun x hx => he x (mem_of_mem_drop hx))
      (shl8_mod_low _) (shl8_mod_low _),
    shr8_xor]

theorem FlipBit_eq_zipWith (D : List Nat) (b : Nat) :
    FlipBit D b = List.zipWith (fun x y => x ^^^ y) D (FlipBit (List.replicate D.length 0) b) := by
  apply List.ext_getElem
  · simp [FlipBit]
  · intro i h1 h2
    have hi : i < D.length := by simpa [FlipBit] using h1
    simp only [FlipBit, List.getElem_zipWith, List.getElem_set, List.getElem_replicate]
    by_cases hk : b / 8 = i
    · subst hk
      simp [List.getD_eq_getElem _ _ hi, hi]
    · simp [hk]

theorem FlipBit_take (D : List Nat) (b n : Nat) (h : b / 8 < n) :
    (FlipBit D b).take n = FlipBit (D.take n) b := by
  apply List.ext_getElem?
  intro i
  unfold FlipBit
  by_cases hi : i < n
  · rw [List.getElem?_take_of_lt hi, List.getElem?_set, List.getElem?_set, List.length_take,
      List.getElem?_take_of_lt hi]
    have hget : (D.take n).getD (b / 8) 0 = D.getD (b / 8) 0 := by
      simp only [List.getD_eq_getElem?_getD, List.getElem?_take_of_lt h]
    rw [hget]
    by_cases hk : b / 8 = i
    · subst hk
      by_cases hl : b / 8 < D.length
      · simp [hl, h]
      · simp [hl]
    · simp [hk]
  · rw [List.getElem?_eq_none (by simp; omega), List.getElem?_eq_none (by simp; omega)]

theorem FlipBit_zero_lt_256 (n b : Nat) : ∀ x ∈ FlipBit (List.replicate n 0) b, x < 256 := by
  intro x hx
  unfold FlipBit at hx
  rcases List.mem_or_eq_of_mem_set hx with h | h
  · rw [List.eq_of_mem_replicate h]
    norm_num
  · rw [h]
    have hk : 7 - b % 8 ≤ 7 := by omega
    have h0 : (List.replicate n 0).getD (b / 8) 0 = 0 := by
      simp only [List.getD_eq_getElem?_getD]
      by_cases hl : b / 8 < n
      · simp [hl]
      · simp [hl]
    rw [h0, Nat.zero_xor, Nat.shiftLeft_eq, Nat.one_mul]
    calc 2 ^ (7 - b % 8) ≤ 2 ^ 7 := Nat.pow_le_pow_right (by norm_num) hk
      _ < 256 := by norm_num

theorem foldl_xor_zipWith (a : List Nat) :
    ∀ (e : List Nat) (c1 c2 : Nat), a.length = e.length →
      (List.zipWith (fun x y => x ^^^ y) a e).foldl (fun c b => c ^^^ b) (c1 ^^^ c2)
        = a.foldl (fun c b => c ^^^ b) c1 ^^^ e.foldl (fun c b => c ^^^ b) c2 := by
  induction a with
  | nil =>
      intro e c1 c2 hlen
      cases e with
      | nil => rfl
      | cons y e => simp at hlen
  | cons x a ih =>
      intro e c1 c2 hlen
      cases e with
      | nil => simp at hlen
      | cons y e =>
          simp only [List.zipWith_cons_cons, List.foldl_cons]
          have : c1 ^^^ c2 ^^^ (x ^^^ y) = (c1 ^^^ x) ^^^ (c2 ^^^ y) := by
            rw [Nat.xor_assoc, Nat.xor_assoc, ← Nat.xor_assoc c2 x y, Nat.xor_comm c2 x,
              Nat.xor_assoc x c2 y]
          rw [this]
          exact ih e _ _ (by simpa using hlen)

theorem foldl_xor_lt_256 (a : List Nat) :
    ∀ c, c < 256 → (∀ x ∈ a, x < 256) → a.foldl (fun c b => c ^^^ b) c < 256 := by
  induction a with
  | nil => intro c hc _; exact hc
  | cons x a ih =>
      intro c hc ha
      simp only [List.foldl_cons]
      exact ih _ (xor_lt_256 c x hc (ha x (by simp))) (fun z hz => ha z (by simp [hz]))

theorem foldl_xor_FlipBit_zero :
    ∀ b, b < 192 →
      (FlipBit (List.replicate 24 0) b).foldl (fun c x => c ^^^ x) 0 = 1 <<< (7 - b % 8) ∧
      1 <<< (7 - b % 8) ≠ 0 := by
  set_option maxRecDepth 1000000 in decide

/-- The external check byte changes with every single inverted payload bit. -/
theorem PAW_CRC8_FlipBit (D : List Nat) (b : Nat) (hLen : D.length = 24) (hb : b < 192)
    (hByte : ∀ x ∈ D, x < 256) :
    PAW_CRC8 (FlipBit D b) % 256 ≠ PAW_CRC8 D % 256 := by
  have hz := foldl_xor_FlipBit_zero b hb
  have hLin : PAW_CRC8 (FlipBit D b) = PAW_CRC8 D ^^^ 1 <<< (7 - b % 8) := by
    unfold PAW_CRC8
    rw [FlipBit_eq_zipWith D b, hLen]
    have h := foldl_xor_zipWith D (FlipBit (List.replicate 24 0) b) 0x71 0
      (by rw [FlipBit_length, List.length_replicate, hLen])
    rw [Nat.xor_zero] at h
    rw [h, hz.1]
  have h1 : PAW_CRC8 D < 256 := foldl_xor_lt_256 D 0x71 (by norm_num) hByte
  have h2 : PAW_CRC8 (FlipBit D b) < 256 := by
    apply foldl_xor_lt_256 _ 0x71 (by norm_num)
    rw [FlipBit_eq_zipWith D b]
    intro x hx
    rw [List.mem_iff_getElem] at hx
    obtain ⟨i, hi, rfl⟩ := hx
    rw [List.getElem_zipWith]
    exact xor_lt_256 _ _ (hByte _ (List.getElem_mem _))
      (FlipBit_zero_lt_256 _ _ _ (List.getElem_mem _))
  rw [Nat.mod_eq_of_lt h1, Nat.mod_eq_of_lt h2, hLin]
  intro hEq
  apply hz.2
  have : 1 <<< (7 - b % 8) = PAW_CRC8 D ^^^ (PAW_CRC8 D ^^^ 1 <<< (7 - b % 8)) := by
    rw [← Nat.xor_assoc, Nat.xor_self, Nat.zero_xor]
  rw [this, hEq, Nat.xor_self]

/-- With the CRC-24 of ADS-L and the exclusive-or check byte written out
above, the conditions of the repair hold for every intact ADS-L frame and
every one of its 192 payload bits: `DecodeRxLDR` forwards the frame with
that bit inverted as ADS-L, with the payload of the intact frame. -/
theorem DecodeRxLDR_model_repairs_every_payload_bit (RxPkt : FSK_RxPacket) (b : Nat)
    (hBytes : RxPkt.Bytes = 25) (hManch : RxPkt.Manchester = false)
    (hLen : RxPkt.Data.length = 25) (hByte : ∀ x ∈ RxPkt.Data, x < 256) (hb : b < 192)
    (hCRC : ADSL_checkPI (RxPkt.Data.take 24) = 0)
    (hCRC8 : PAW_CRC8 (RxPkt.Data.take 24) = RxPkt.Data.getD 24 0) :
    DecodeRxLDR LDR_Codec_model RxPkt = LDR_Decision.ADSL RxPkt ∧
    DecodeRxLDR LDR_Codec_model { RxPkt with Data := FlipBit RxPkt.Data b }
      = LDR_Decision.ADSL { RxPkt with Err := FlipBit RxPkt.Err b } := by
  have hT : (RxPkt.Data.take 24).length = 24 := by simp [hLen]
  have hTB : ∀ x ∈ RxPkt.Data.take 24, x < 256 := fun x hx => hByte x (mem_of_mem_take hx)
  have hFT : (FlipBit RxPkt.Data b).take 24 = FlipBit (RxPkt.Data.take 24) b :=
    FlipBit_take _ _ _ (by omega)
  have hSyn := ADSL_FindCRCsyndrome_CRCsyndrome b hb
  have hLin : ADSL_checkPI ((FlipBit RxPkt.Data b).take 24) = ADSL_CRCsyndrome b := by
    rw [hFT, FlipBit_eq_zipWith, hT,
      ADSL_checkPI_xor _ _ (by rw [FlipBit_length, List.length_replicate, hT]) hTB
        (FlipBit_zero_lt_256 _ _), hCRC, Nat.zero_xor]
    rfl
  have hByte8 : RxPkt.Data.getD 24 0 < 256 := by
    rw [List.getD_eq_getElem _ _ (by omega)]
    exact hByte _ (List.getElem_mem _)
  have hC8 : LDR_Codec_model.CRC8 (RxPkt.Data.take 24) % 256 = RxPkt.Data.getD 24 0 := by
    have hF : LDR_Codec_model.CRC8 = PAW_CRC8 := rfl
    rw [hF, hCRC8, Nat.mod_eq_of_lt hByte8]
  have hP : LDR_Codec_model.checkPI = ADSL_checkPI := rfl
  have hCRC0 : LDR_Codec_model.checkPI (RxPkt.Data.take 24) % 4294967296 = 0 := by
    rw [hP, hCRC]
  have hS : LDR_Codec_model.checkPI ((FlipBit RxPkt.Data b).take 24) % 4294967296
      = ADSL_CRCsyndrome b := by
    rw [hP, hLin, Nat.mod_eq_of_lt hSyn.2.2]
  refine ⟨DecodeRxLDR_of_Repair LDR_Codec_model RxPkt RxPkt.Data RxPkt.Err hBytes hManch
      (DecodeRxLDR_Repair_intact LDR_Codec_model _ _ hCRC0 hC8),
    DecodeRxLDR_of_Repair LDR_Codec_model { RxPkt with Data := FlipBit RxPkt.Data b } RxPkt.Data
      (FlipBit RxPkt.Err b) hBytes hManch
      (DecodeRxLDR_Repair_flipped LDR_Codec_model _ _ b hLen hb hC8 ?_ ?_ ?_)⟩
  · rw [hS]
    exact hSyn.2.1
  · have hF : LDR_Codec_model.FindCRCsyndrome = ADSL_FindCRCsyndrome := by
      simp only [LDR_Codec_model]
    rw [hS, hF, hSyn.1]
    exact Nat.mod_eq_of_lt (by omega)
  · have hF : LDR_Codec_model.CRC8 = PAW_CRC8 := rfl
    rw [hFT, ← hC8, hF]
    exact PAW_CRC8_FlipBit _ b hT hb hTB


theorem DecodeRxLDR_Repair_located (C : LDR_Codec) (Data Err : List Nat)
    (hCRC : C.checkPI (Data.take 24) % 4294967296 ≠ 0)
    (hCRC8 : C.CRC8 (Data.take 24) % 256 ≠ Data.getD 24 0)
    (hBit : C.FindCRCsyndrome (C.checkPI (Data.take 24) % 4294967296) % 256 ≠ 0xFF) :
    DecodeRxLDR_Repair C Data Err =
      (FlipBit Data (C.FindCRCsyndrome (C.checkPI (Data.take 24) % 4294967296) % 256),
       FlipBit Err (C.FindCRCsyndrome (C.checkPI (Data.take 24) % 4294967296) % 256), 0,
       C.CRC8 ((FlipBit Data
         (C.FindCRCsyndrome (C.checkPI (Data.take 24) % 4294967296) % 256)).take 24) % 256) := by
  unfold DecodeRxLDR_Repair
  simp only []
  rw [if_pos ⟨hCRC, hCRC8⟩, if_pos hBit]

theorem DecodeRxLDR_Repair_untouched (C : LDR_Codec) (Data Err : List Nat)
    (h : ¬ (C.checkPI (Data.take 24) % 4294967296 ≠ 0 ∧
            C.CRC8 (Data.take 24) % 256 ≠ Data.getD 24 0 ∧
            C.FindCRCsyndrome (C.checkPI (Data.take 24) % 4294967296) % 256 ≠ 0xFF)) :
    DecodeRxLDR_Repair C Data Err =
      (Data, Err, C.checkPI (Data.take 24) % 4294967296, C.CRC8 (Data.take 24) % 256) := by
  unfold DecodeRxLDR_Repair
  simp only []
  by_cases h1 : C.checkPI (Data.take 24) % 4294967296 ≠ 0 ∧
      C.CRC8 (Data.take 24) % 256 ≠ Data.getD 24 0
  · have h2 : ¬ C.FindCRCsyndrome (C.checkPI (Data.take 24) % 4294967296) % 256 ≠ 0xFF :=
      fun h2 => h ⟨h1.1, h1.2, h2⟩
    rw [if_pos h1, if_neg h2]
  · rw [if_neg h1]

/-- C11: `DecodeRxLDR` forwards a frame only if it has 25 bytes, is not
Manchester-flagged and, as it stands after the optional single-bit repair,
carries in `Data[24]` the CRC-8 of its first 24 bytes.  It calls
`DecodeRxADSL` only when the CRC-24 syndrome of the payload is zero, either
of the frame as received or of the frame with the syndrome-located bit
inverted (the codec being consistent on this frame: inverting the located
bit clears the syndrome); it converts the frame as PilotAware only when the
frame was not repaired and the internal check of the whitened payload is
zero.  Every other frame is dropped. -/
theorem DecodeRxLDR_forwards_only_checked (C : LDR_Codec) (RxPkt : FSK_RxPacket)
    (hSyn : C.FindCRCsyndrome (C.checkPI (RxPkt.Data.take 24) % 4294967296) % 256 ≠ 0xFF →
      C.checkPI ((FlipBit RxPkt.Data
        (C.FindCRCsyndrome (C.checkPI (RxPkt.Data.take 24) % 4294967296) % 256)).take 24)
          % 4294967296 = 0) :
    (∀ P, DecodeRxLDR C RxPkt = LDR_Decision.ADSL P →
      RxPkt.Bytes = 25 ∧ RxPkt.Manchester = false ∧
      (P.Data = RxPkt.Data ∨
        (C.FindCRCsyndrome (C.checkPI (RxPkt.Data.take 24) % 4294967296) % 256 ≠ 0xFF ∧
          P.Data = FlipBit RxPkt.Data
            (C.FindCRCsyndrome (C.checkPI (RxPkt.Data.take 24) % 4294967296) % 256))) ∧
      P.Data.getD 24 0 = C.CRC8 (P.Data.take 24) % 256 ∧
      C.checkPI (P.Data.take 24) % 4294967296 = 0) ∧
    (∀ P, DecodeRxLDR C RxPkt = LDR_Decision.PAW P →
      RxPkt.Bytes = 25 ∧ RxPkt.Manchester = false ∧
      RxPkt.Data.getD 24 0 = C.CRC8 (RxPkt.Data.take 24) % 256 ∧
      P.Data = C.Whiten (RxPkt.Data.take 24) ++ RxPkt.Data.drop 24 ∧
      C.IntCRC (P.Data.take 24) % 256 = 0) ∧
    (DecodeRxLDR C RxPkt = LDR_Decision.Drop ∨
      (∃ P, DecodeRxLDR C RxPkt = LDR_Decision.ADSL P) ∨
      (∃ P, DecodeRxLDR C RxPkt = LDR_Decision.PAW P)) := by
  have hCases : DecodeRxLDR C RxPkt = LDR_Decision.Drop ∨
      (∃ P, DecodeRxLDR C RxPkt = LDR_Decision.ADSL P) ∨
      (∃ P, DecodeRxLDR C RxPkt = LDR_Decision.PAW P) := by
    cases h : DecodeRxLDR C RxPkt with
    | Drop => exact Or.inl rfl
    | ADSL P => exact Or.inr (Or.inl ⟨P, rfl⟩)
    | PAW P => exact Or.inr (Or.inr ⟨P, rfl⟩)
  by_cases hGate : RxPkt.Bytes ≠ 25 ∨ RxPkt.Manchester = true
  · have hDrop : DecodeRxLDR C RxPkt = LDR_Decision.Drop := by
      unfold DecodeRxLDR
      rw [if_pos hGate]
    refine ⟨?_, ?_, hCases⟩ <;> intro P hP <;> rw [hDrop] at hP <;>
      exact LDR_Decision.noConfusion hP
  · have hBytes : RxPkt.Bytes = 25 := by
      by_contra hne
      exact hGate (Or.inl hne)
    have hManch : RxPkt.Manchester = false := by
      cases hm : RxPkt.Manchester with
      | false => rfl
      | true => exact absurd (Or.inr hm) hGate
    by_cases hRep : C.checkPI (RxPkt.Data.take 24) % 4294967296 ≠ 0 ∧
        C.CRC8 (RxPkt.Data.take 24) % 256 ≠ RxPkt.Data.getD 24 0 ∧
        C.FindCRCsyndrome (C.checkPI (RxPkt.Data.take 24) % 4294967296) % 256 ≠ 0xFF
    · have hD : DecodeRxLDR C RxPkt =
          if C.CRC8 ((FlipBit RxPkt.Data (C.FindCRCsyndrome
              (C.checkPI (RxPkt.Data.take 24) % 4294967296) % 256)).take 24) % 256
            ≠ (FlipBit RxPkt.Data (C.FindCRCsyndrome
              (C.checkPI (RxPkt.Data.take 24) % 4294967296) % 256)).getD 24 0
          then LDR_Decision.Drop
          else LDR_Decision.ADSL { RxPkt with
            Data := FlipBit RxPkt.Data (C.FindCRCsyndrome
              (C.checkPI (RxPkt.Data.take 24) % 4294967296) % 256)
            Err := FlipBit RxPkt.Err (C.FindCRCsyndrome
              (C.checkPI (RxPkt.Data.take 24) % 4294967296) % 256) } := by
        unfold DecodeRxLDR
        rw [if_neg hGate, DecodeRxLDR_Repair_located C _ _ hRep.1 hRep.2.1 hRep.2.2]
        simp
      refine ⟨?_, ?_, hCases⟩
      · intro P hP
        rw [hD] at hP
        split_ifs at hP with hT
        injection hP with hP
        subst hP
        refine ⟨hBytes, hManch, Or.inr ⟨hRep.2.2, rfl⟩, ?_, hSyn hRep.2.2⟩
        exact (not_not.mp hT).symm
      · intro P hP
        rw [hD] at hP
        split_ifs at hP
    · have hD : DecodeRxLDR C RxPkt =
          if C.CRC8 (RxPkt.Data.take 24) % 256 ≠ RxPkt.Data.getD 24 0 then LDR_Decision.Drop
          else if C.checkPI (RxPkt.Data.take 24) % 4294967296 = 0 then LDR_Decision.ADSL RxPkt
          else if C.IntCRC ((C.Whiten (RxPkt.Data.take 24) ++ RxPkt.Data.drop 24).take 24) % 256
              ≠ 0 then LDR_Decision.Drop
          else LDR_Decision.PAW { RxPkt with
            Data := C.Whiten (RxPkt.Data.take 24) ++ RxPkt.Data.drop 24 } := by
        unfold DecodeRxLDR
        rw [if_neg hGate, DecodeRxLDR_Repair_untouched C _ _ hRep]
      refine ⟨?_, ?_, hCases⟩
      · intro P hP
        rw [hD] at hP
        split_ifs at hP with hT hZ
        injection hP with hP
        subst hP
        exact ⟨hBytes, hManch, Or.inl rfl, (not_not.mp hT).symm, hZ⟩
      · intro P hP
        rw [hD] at hP
        split_ifs at hP with hT hZ hI
        injection hP with hP
        subst hP
        exact ⟨hBytes, hManch, (not_not.mp hT).symm, rfl, not_not.mp hI⟩

set_option maxRecDepth 1000000 in
/-- Witness for C11: the sample ADS-L frame with payload bit 37 inverted is
repaired and forwarded as ADS-L; the forwarded frame carries the CRC-8 of its
payload and the payload has a zero syndrome. -/
theorem DecodeRxLDR_forwards_only_checked_witness :
    DecodeRxLDR LDR_Codec_model
        { LDR_Frame (LDR_sample_payload ++ [0x5C]) with
          Data := FlipBit (LDR_sample_payload ++ [0x5C]) 37 }
      = LDR_Decision.ADSL
        { LDR_Frame (LDR_sample_payload ++ [0x5C]) with
          Err := FlipBit (List.replicate 25 0) 37 } ∧
    (LDR_sample_payload ++ [0x5C]).getD 24 0
      = LDR_Codec_model.CRC8 ((LDR_sample_payload ++ [0x5C]).take 24) % 256 ∧
    LDR_Codec_model.checkPI ((LDR_sample_payload ++ [0x5C]).take 24) % 4294967296 = 0 := by
  have hFind : LDR_Codec_model.FindCRCsyndrome (LDR_Codec_model.checkPI
      ((FlipBit (LDR_sample_payload ++ [0x5C]) 37).take 24) % 4294967296) % 256 = 37 := by
    set_option maxRecDepth 1000000 in decide
  have hD : DecodeRxLDR LDR_Codec_model
        { LDR_Frame (LDR_sample_payload ++ [0x5C]) with
          Data := FlipBit (LDR_sample_payload ++ [0x5C]) 37 }
      = LDR_Decision.ADSL
        { LDR_Frame (LDR_sample_payload ++ [0x5C]) with
          Err := FlipBit (List.replicate 25 0) 37 } :=
    DecodeRxLDR_of_Repair LDR_Codec_model
      { LDR_Frame (LDR_sample_payload ++ [0x5C]) with
        Data := FlipBit (LDR_sample_payload ++ [0x5C]) 37 }
      (LDR_sample_payload ++ [0x5C]) (FlipBit (List.replicate 25 0) 37) rfl rfl
      (DecodeRxLDR_Repair_flipped LDR_Codec_model _ _ 37 (by decide) (by decide)
        (by set_option maxRecDepth 1000000 in decide)
        (by set_option maxRecDepth 1000000 in decide)
        hFind
        (by set_option maxRecDepth 1000000 in decide))
  exact ⟨hD, ((DecodeRxLDR_forwards_only_checked LDR_Codec_model
      { LDR_Frame (LDR_sample_payload ++ [0x5C]) with
        Data := FlipBit (LDR_sample_payload ++ [0x5C]) 37 }
      (fun _ => by
        show LDR_Codec_model.checkPI ((FlipBit (FlipBit (LDR_sample_payload ++ [0x5C]) 37)
          (LDR_Codec_model.FindCRCsyndrome (LDR_Codec_model.checkPI
            ((FlipBit (LDR_sample_payload ++ [0x5C]) 37).take 24) % 4294967296) % 256)).take 24)
            % 4294967296 = 0
        rw [hFind]
        set_option maxRecDepth 1000000 in decide)).1 _ hD).2.2.2⟩

theorem ADSL_PolyStep_lt (CRC : Nat) : ADSL_PolyStep CRC < 2 ^ 32 := by
  unfold ADSL_PolyStep
  exact Nat.mod_lt _ (by norm_num)

theorem ADSL_PolyPass_lt (CRC Byte : Nat) : ADSL_PolyPass CRC Byte < 2 ^ 32 := by
  unfold ADSL_PolyPass
  rw [show (8 : Nat) = 7 + 1 from rfl, Function.iterate_succ_apply']
  exact ADSL_PolyStep_lt _

theorem foldl_ADSL_PolyPass_lt (l : List Nat) (c : Nat) (hc : c < 2 ^ 32) :
    l.foldl ADSL_PolyPass c < 2 ^ 32 := by
  induction l generalizing c with
  | nil => simpa using hc
  | cons b l ih => exact ih _ (ADSL_PolyPass_lt c b)

/-- The long-range codec written out above is consistent on every 25-byte
frame: when `FindCRCsyndrome` locates a bit for the syndrome of the payload,
inverting that bit clears the syndrome. -/
theorem LDR_Codec_model_located_bit_clears_syndrome (Data : List Nat)
    (hLen : Data.length = 25) (hByte : ∀ x ∈ Data, x < 256)
    (hBit : ADSL_FindCRCsyndrome (ADSL_checkPI (Data.take 24) % 4294967296) % 256 ≠ 0xFF) :
    ADSL_checkPI ((FlipBit Data
      (ADSL_FindCRCsyndrome (ADSL_checkPI (Data.take 24) % 4294967296) % 256)).take 24)
        % 4294967296 = 0 := by
  have hT : (Data.take 24).length = 24 := by simp [hLen]
  have hTB : ∀ x ∈ Data.take 24, x < 256 := fun x hx => hByte x (mem_of_mem_take hx)
  have hTabLen : ADSL_CRCsyndromeTable.length = 192 := by simp [ADSL_CRCsyndromeTable]
  generalize hS : ADSL_checkPI (Data.take 24) % 4294967296 = S at hBit ⊢
  have hIdx : List.indexOf S ADSL_CRCsyndromeTable < 192 := by
    by_contra hn
    apply hBit
    unfold ADSL_FindCRCsyndrome
    rw [if_neg hn]
  have hFind : ADSL_FindCRCsyndrome S = List.indexOf S ADSL_CRCsyndromeTable := by
    unfold ADSL_FindCRCsyndrome
    rw [if_pos hIdx]
  rw [hFind]
  generalize hB : List.indexOf S ADSL_CRCsyndromeTable = Bit at hIdx
  have hBm : Bit % 256 = Bit := Nat.mod_eq_of_lt (by omega)
  rw [hBm]
  have hBitLen : Bit < ADSL_CRCsyndromeTable.length := by omega
  have hGet : ADSL_CRCsyndromeTable[Bit] = S := by
    subst hB
    exact List.getElem_indexOf _
  have hSyn : ADSL_CRCsyndrome Bit = S := by
    rw [← hGet]
    simp [ADSL_CRCsyndromeTable]
  have hMem : S ∈ ADSL_CRCsyndromeTable := by
    rw [← hGet]
    exact List.getElem_mem _
  have hSlt := (ADSL_CRCsyndromeTable_pos S hMem).2
  have hFT : (FlipBit Data Bit).take 24 = FlipBit (Data.take 24) Bit :=
    FlipBit_take _ _ _ (by omega)
  have hLin : ADSL_checkPI ((FlipBit Data Bit).take 24)
      = ADSL_checkPI (Data.take 24) ^^^ ADSL_CRCsyndrome Bit := by
    rw [hFT, FlipBit_eq_zipWith, hT,
      ADSL_checkPI_xor _ _ (by rw [FlipBit_length, List.length_replicate, hT]) hTB
        (FlipBit_zero_lt_256 _ _)]
    rfl
  have hPlt : ADSL_checkPI (Data.take 24) < 4294967296 := by
    unfold ADSL_checkPI
    rw [Nat.shiftRight_eq_div_pow]
    exact lt_of_le_of_lt (Nat.div_le_self _ _)
      (foldl_ADSL_PolyPass_lt _ _ (Nat.mod_lt _ (by norm_num)))
  rw [Nat.mod_eq_of_lt hPlt] at hS
  rw [hLin, hSyn, hS, Nat.xor_self]

theorem toInt32_of_range (x : Int) (h1 : -2147483648 ≤ x) (h2 : x < 2147483648) :
    toInt32 x = x := by
  unfold toInt32
  omega

/-- The credit charge of the FSK and the beacon transmitter: each lowers
`Radio_TxCredit` by the predicted time on air in whole milliseconds (no wrap
while the credit stays above `-2^31 + 2^32/1000`), and the end of the cycle
adds 10 ms up to the ceiling of 60000. -/
theorem Radio_TxCredit_charged (getTimeOnAir : Nat → Nat) (Packet : List Nat) (Len : Nat)
    (FNT : FANET_Packet) (T : Radio_TxState)
    (h1 : -2143188680 ≤ T.Radio_TxCredit) (h2 : T.Radio_TxCredit ≤ 60000) :
    (Radio_TxFSK getTimeOnAir Packet Len T).Radio_TxCredit
      = T.Radio_TxCredit - ((getTimeOnAir Len % 4294967296 / 1000 : Nat) : Int) ∧
    (Radio_TxFANET getTimeOnAir FNT T).2.Radio_TxCredit
      = T.Radio_TxCredit - ((getTimeOnAir FNT.Len % 4294967296 / 1000 : Nat) : Int) ∧
    Radio_Task_Replenish T.Radio_TxCredit = min (T.Radio_TxCredit + 10) 60000 := by
  have hq : ∀ n : Nat, ((n % 4294967296 / 1000 : Nat) : Int) ≤ 4294967 := by
    intro n
    have : n % 4294967296 / 1000 ≤ 4294967 := by omega
    exact_mod_cast this
  have hq0 : ∀ n : Nat, (0 : Int) ≤ ((n % 4294967296 / 1000 : Nat) : Int) := fun n =>
    Int.ofNat_nonneg _
  refine ⟨?_, ?_, ?_⟩
  · have := hq (getTimeOnAir Len)
    have := hq0 (getTimeOnAir Len)
    simp only [Radio_TxFSK, Radio_TxCredit_spend]
    exact toInt32_of_range _ (by omega) (by omega)
  · have := hq (getTimeOnAir FNT.Len)
    have := hq0 (getTimeOnAir FNT.Len)
    simp only [Radio_TxFANET, Radio_TxCredit_spend]
    exact toInt32_of_range _ (by omega) (by omega)
  · unfold Radio_Task_Replenish
    rw [toInt32_of_range _ (by omega) (by omega)]
    split_ifs with h
    · rw [min_eq_right (by omega)]
    · rw [min_eq_left (by omega)]

/-- C12 (the code as it is): a LoRaWAN uplink transmission hands its bytes to
the chip and leaves the air-time credit `Radio_TxCredit` as it was, whatever
the packet and its predicted time on air; it is not charged. -/
theorem Radio_TxLoRaWAN_not_charged (Packet : List Nat) (PktLen : Nat) (T : Radio_TxState) :
    (Radio_TxLoRaWAN Packet PktLen T).Transmitted = T.Transmitted ++ [Packet.take PktLen] ∧
    (Radio_TxLoRaWAN Packet PktLen T).Radio_TxCredit = T.Radio_TxCredit := by
  simp [Radio_TxLoRaWAN]

/-- The same at a concrete input: a 23-byte join request sent with full
credit leaves the credit at 60000, where the FSK transmitter charges a frame
of 5.2 ms with 5 ms. -/
theorem Radio_TxCredit_LoRaWAN_sample :
    (Radio_TxLoRaWAN (List.replicate 23 0) 23 Radio_TxState_sample).Radio_TxCredit = 60000 ∧
    (Radio_TxFSK (fun Len => 100 * Len) (List.replicate 52 0) 52
      Radio_TxState_sample).Radio_TxCredit = 59995 := by
  decide

/-- C15: both variants of `GetRelayPacket` return false with the output
packet, the relay queue and `Random.RX` untouched when the sum of ranks is 0;
when they return true the sum was not 0, the entry drawn has a rank other
than 0, and the relay queue is the old one after the single call
`decrRank(Idx)` at the index drawn. -/
theorem GetRelayPacket_contract (L : OGN_Lib) (R : Relay_Lib) (A : ADSL_Lib)
    (RA : ADSL_Relay_Lib) (XorShift32 : Nat → Nat) (OGN_RelayQueue : Relay_PrioQueue)
    (ADSL_RelayQueue : ADSL_Relay_PrioQueue) (RandomRX : Nat) (Packet : OGN_TxPacket)
    (AdslPacket : ADSL_Packet) :
    (OGN_RelayQueue.Sum = 0 →
      GetRelayPacket L R XorShift32 OGN_RelayQueue RandomRX Packet
        = { Ret := false, Packet := Packet, Queue := OGN_RelayQueue, RandomRX := RandomRX }) ∧
    ((GetRelayPacket L R XorShift32 OGN_RelayQueue RandomRX Packet).Ret = true →
      OGN_RelayQueue.Sum ≠ 0 ∧
      (OGN_RelayQueue.Packet.getD
        (R.getRand OGN_RelayQueue (XorShift32 RandomRX) % 256) default).Rank ≠ 0 ∧
      (GetRelayPacket L R XorShift32 OGN_RelayQueue RandomRX Packet).Queue
        = R.decrRank OGN_RelayQueue (R.getRand OGN_RelayQueue (XorShift32 RandomRX) % 256)) ∧
    (ADSL_RelayQueue.Sum = 0 →
      GetRelayPacket_ADSL A RA XorShift32 ADSL_RelayQueue RandomRX AdslPacket
        = { Ret := false, Packet := AdslPacket, Queue := ADSL_RelayQueue,
            RandomRX := RandomRX }) ∧
    ((GetRelayPacket_ADSL A RA XorShift32 ADSL_RelayQueue RandomRX AdslPacket).Ret = true →
      ADSL_RelayQueue.Sum ≠ 0 ∧
      (ADSL_RelayQueue.Packet.getD
        (RA.getRand ADSL_RelayQueue (XorShift32 RandomRX) % 256) default).Rank ≠ 0 ∧
      (GetRelayPacket_ADSL A RA XorShift32 ADSL_RelayQueue RandomRX AdslPacket).Queue
        = RA.decrRank ADSL_RelayQueue
            (RA.getRand ADSL_RelayQueue (XorShift32 RandomRX) % 256)) := by
  refine ⟨?_, ?_, ?_, ?_⟩
  · intro h
    simp [GetRelayPacket, h]
  · intro h
    unfold GetRelayPacket at h ⊢
    by_cases hS : OGN_RelayQueue.Sum = 0
    · simp [hS] at h
    · by_cases hR : (OGN_RelayQueue.Packet.getD
          (R.getRand OGN_RelayQueue (XorShift32 RandomRX) % 256) default).Rank = 0
      · simp only [] at h
        rw [if_neg hS, if_pos hR] at h
        exact absurd h (by simp)
      · refine ⟨hS, hR, ?_⟩
        simp only []
        rw [if_neg hS, if_neg hR]
  · intro h
    simp [GetRelayPacket_ADSL, h]
  · intro h
    unfold GetRelayPacket_ADSL at h ⊢
    by_cases hS : ADSL_RelayQueue.Sum = 0
    · simp [hS] at h
    · by_cases hR : (ADSL_RelayQueue.Packet.getD
          (RA.getRand ADSL_RelayQueue (XorShift32 RandomRX) % 256) default).Rank = 0
      · simp only [] at h
        rw [if_neg hS, if_pos hR] at h
        exact absurd h (by simp)
      · refine ⟨hS, hR, ?_⟩
        simp only []
        rw [if_neg hS, if_neg hR]

/-- An evaluation of `GetRelayPacket`: from a queue holding a candidate of
rank 0 and one of rank 6 the call returns true, takes the second candidate
and halves its rank; with the sum at 0 it returns false and changes nothing. -/
theorem GetRelayPacket_sample :
    (GetRelayPacket OGN_Lib_sample Relay_Lib_sample XorShift32_sample Relay_PrioQueue_sample 8
      default).Ret = true ∧
    ((GetRelayPacket OGN_Lib_sample Relay_Lib_sample XorShift32_sample Relay_PrioQueue_sample 8
      default).Queue.Packet.map fun p => p.Rank) = [0, 3] ∧
    GetRelayPacket OGN_Lib_sample Relay_Lib_sample XorShift32_sample
        { Relay_PrioQueue_sample with Sum := 0 } 8 default
      = { Ret := false, Packet := default, Queue := { Relay_PrioQueue_sample with Sum := 0 },
          RandomRX := 8 } := by
  decide

/-- C16: for a packet that is not a position packet, or that carries the
device's own address and address type, `ProcessRxOGN` makes no call that
touches the relay queue, the distance calculation or the traffic processing,
and `ProcessRxADSL` makes no call at all (for ADS-L the compared type is
`getAddrTable() - 4`, or 0 below 4).  So whatever `addNew` inserts is a
position packet of another device. -/
theorem ProcessRx_skips_nonposition_and_own (B : PROC_Build) (P : Parameters) (E : PROC_RxEnv)
    (A : ADSL_Lib) (EA : PROC_AdslRxEnv) (RxPacket : OGN_RxPacket) (AdslRx : ADSL_RxPacket)
    (RxTime : Nat) :
    ((RxPacket.Packet.Header.NonPos = true ∨
        (RxPacket.Packet.Header.Address = P.Address ∧
          RxPacket.Packet.Header.AddrType = P.AddrType)) →
      ∀ ev ∈ ProcessRxOGN B P E RxPacket RxTime, ev.isRelayOrTraffic = false) ∧
    ((A.isPos AdslRx.Packet = false ∨
        (A.getAddress AdslRx.Packet = P.Address ∧
          ProcessRxADSL_AddrType A AdslRx.Packet = P.AddrType)) →
      ProcessRxADSL B P A EA AdslRx RxTime = []) ∧
    (∀ Added, RxEvent.addNew Added ∈ ProcessRxOGN B P E RxPacket RxTime →
      RxPacket.Packet.Header.NonPos = false ∧
      ¬ (RxPacket.Packet.Header.Address = P.Address ∧
          RxPacket.Packet.Header.AddrType = P.AddrType)) ∧
    (∀ Added, AdslRxEvent.addNew Added ∈ ProcessRxADSL B P A EA AdslRx RxTime →
      A.isPos AdslRx.Packet = true ∧
      ¬ (A.getAddress AdslRx.Packet = P.Address ∧
          ProcessRxADSL_AddrType A AdslRx.Packet = P.AddrType)) := by
  have hOgn : (RxPacket.Packet.Header.NonPos = true ∨
        (RxPacket.Packet.Header.Address = P.Address ∧
          RxPacket.Packet.Header.AddrType = P.AddrType)) →
      ∀ ev ∈ ProcessRxOGN B P E RxPacket RxTime, ev.isRelayOrTraffic = false := by
    intro h ev hev
    unfold ProcessRxOGN at hev
    by_cases hN : RxPacket.Packet.Header.NonPos = true
    · rw [if_pos hN] at hev
      by_cases hL : B.WITH_SDLOG = true
      · rw [if_pos hL] at hev
        rw [List.mem_singleton.mp hev]
        rfl
      · rw [if_neg hL] at hev
        exact absurd hev (List.not_mem_nil _)
    · rcases h with h | h
      · exact absurd h hN
      · rw [if_neg hN, if_pos h] at hev
        exact absurd hev (List.not_mem_nil _)
  have hAdsl : (A.isPos AdslRx.Packet = false ∨
        (A.getAddress AdslRx.Packet = P.Address ∧
          ProcessRxADSL_AddrType A AdslRx.Packet = P.AddrType)) →
      ProcessRxADSL B P A EA AdslRx RxTime = [] := by
    intro h
    unfold ProcessRxADSL
    by_cases hP : A.isPos AdslRx.Packet = false
    · rw [if_pos hP]
    · rcases h with h | h
      · exact absurd h hP
      · rw [if_neg hP, if_pos h]
  refine ⟨hOgn, hAdsl, ?_, ?_⟩
  · intro Added hmem
    have hNot : ¬ (RxPacket.Packet.Header.NonPos = true ∨
        (RxPacket.Packet.Header.Address = P.Address ∧
          RxPacket.Packet.Header.AddrType = P.AddrType)) := by
      intro h
      have := hOgn h _ hmem
      simp [RxEvent.isRelayOrTraffic] at this
    constructor
    · cases hN : RxPacket.Packet.Header.NonPos with
      | false => rfl
      | true => exact absurd (Or.inl hN) hNot
    · exact fun h => hNot (Or.inr h)
  · intro Added hmem
    have hNot : ¬ (A.isPos AdslRx.Packet = false ∨
        (A.getAddress AdslRx.Packet = P.Address ∧
          ProcessRxADSL_AddrType A AdslRx.Packet = P.AddrType)) := by
      intro h
      rw [hAdsl h] at hmem
      exact absurd hmem (List.not_mem_nil _)
    constructor
    · cases hN : A.isPos AdslRx.Packet with
      | true => rfl
      | false => exact absurd (Or.inl hN) hNot
    · exact fun h => hNot (Or.inr h)

/-- Evaluations of the two receive paths: a position packet of another
device reaches `addNew`; the same packets under the device's own address,
and a non-position packet, do not. -/
theorem ProcessRx_sample :
    (ProcessRxOGN PROC_Build_sample Parameters_sample PROC_RxEnv_sample
        { OGN_RxPacket_sample_encrypted with
          Packet := { OGN_RxPacket_sample_encrypted.Packet with
            Header := { OGN_RxPacket_sample_encrypted.Packet.Header with Encrypted := false } } }
        7).map RxEvent.isRelayOrTraffic = [true, true] ∧
    ProcessRxOGN PROC_Build_sample Parameters_sample PROC_RxEnv_sample
        { OGN_RxPacket_sample_encrypted with
          Packet := { OGN_RxPacket_sample_encrypted.Packet with
            Header := { OGN_RxPacket_sample_encrypted.Packet.Header with
              Address := 0xABCDEF } } } 7 = [] ∧
    ProcessRxOGN PROC_Build_sample Parameters_sample PROC_RxEnv_sample
        { OGN_RxPacket_sample_encrypted with
          Packet := { OGN_RxPacket_sample_encrypted.Packet with
            Header := { OGN_RxPacket_sample_encrypted.Packet.Header with NonPos := true } } }
        7 = [] ∧
    ProcessRxADSL PROC_Build_sample Parameters_sample ADSL_Lib_sample PROC_AdslRxEnv_sample
        ADSL_RxPacket_sample_own 7 = [] ∧
    (ProcessRxADSL PROC_Build_sample Parameters_sample ADSL_Lib_sample PROC_AdslRxEnv_sample
        { ADSL_RxPacket_sample_own with Packet := { Byte := [2, 7, 0x56, 0x34, 0x12, 0, 0, 0] } }
        7).length = 2 := by
  decide

theorem FIFO_setWrite_Full {α : Type} (Q : FIFO α) (x : α) : (Q.setWrite x).Full = Q.Full := rfl

theorem FIFO_setWrite_WF {α : Type} (Q : FIFO α) (x : α) (h : Q.WF) : (Q.setWrite x).WF := by
  obtain ⟨h1, h2, h3⟩ := h
  exact ⟨by simp [FIFO.setWrite, h1], h2, h3⟩

theorem FIFO_Write_Full {α : Type} (Q : FIFO α) (hSize : Q.Size = 4) (hWF : Q.WF)
    (hFull : Q.Full < 3) : Q.Write.Full = Q.Full + 1 ∧ Q.Write.WF ∧ Q.Write.Size = 4 := by
  obtain ⟨h1, h2, h3⟩ := hWF
  unfold FIFO.Full at hFull ⊢
  unfold FIFO.Write FIFO.WF
  rw [hSize] at h2 h3 hFull ⊢
  have hne : ¬ (Q.WritePtr + 1) % 4 = Q.ReadPtr := by omega
  rw [if_neg hne]
  simp only [hSize]
  refine ⟨by omega, ⟨by rw [h1, hSize], h2, by omega⟩, trivial⟩

theorem vTaskPROC_Relay_idle (L : OGN_Lib) (R : Relay_Lib) (XorShift32 : Nat → Nat) (Fuel : Nat)
    (Q : FIFO OGN_TxPacket) (RelayQ : Relay_PrioQueue) (RX : Nat) (h : 2 ≤ Q.Full) :
    vTaskPROC_Relay L R XorShift32 Fuel Q RelayQ RX = (Q, RelayQ, RX) := by
  cases Fuel with
  | zero => rfl
  | succ n =>
      unfold vTaskPROC_Relay
      rw [if_neg (by omega)]

theorem vTaskPROC_Relay_ADSL_idle (A : ADSL_Lib) (R : ADSL_Relay_Lib) (XorShift32 : Nat → Nat)
    (Fuel : Nat) (Q : FIFO ADSL_Packet) (RelayQ : ADSL_Relay_PrioQueue) (RX : Nat)
    (h : 2 ≤ Q.Full) :
    vTaskPROC_Relay_ADSL A R XorShift32 Fuel Q RelayQ RX = (Q, RelayQ, RX) := by
  cases Fuel with
  | zero => rfl
  | succ n =>
      unfold vTaskPROC_Relay_ADSL
      rw [if_neg (by omega)]

theorem vTaskPROC_Relay_Full (L : OGN_Lib) (R : Relay_Lib) (XorShift32 : Nat → Nat) :
    ∀ (Fuel : Nat) (Q : FIFO OGN_TxPacket) (RelayQ : Relay_PrioQueue) (RX : Nat),
      Q.Size = 4 → Q.WF →
      (vTaskPROC_Relay L R XorShift32 Fuel Q RelayQ RX).1.Full ≤ max Q.Full 2 := by
  intro Fuel
  induction Fuel with
  | zero => intro Q RelayQ RX _ _; exact le_max_left _ _
  | succ n ih =>
      intro Q RelayQ RX hSize hWF
      unfold vTaskPROC_Relay
      by_cases hF : Q.Full < 2
      · rw [if_pos hF]
        simp only []
        split_ifs with hRet
        · exact le_max_left _ _
        · have hW := FIFO_Write_Full (Q.setWrite
            (GetRelayPacket L R XorShift32 RelayQ RX (Q.Data.getD Q.WritePtr default)).Packet)
            hSize (FIFO_setWrite_WF _ _ hWF) (by rw [FIFO_setWrite_Full]; omega)
          refine le_trans (ih _ _ _ hW.2.2 hW.2.1) ?_
          rw [hW.1, FIFO_setWrite_Full]
          omega
      · rw [if_neg hF]
        exact le_max_left _ _

theorem vTaskPROC_Relay_ADSL_Full (A : ADSL_Lib) (R : ADSL_Relay_Lib) (XorShift32 : Nat → Nat) :
    ∀ (Fuel : Nat) (Q : FIFO ADSL_Packet) (RelayQ : ADSL_Relay_PrioQueue) (RX : Nat),
      Q.Size = 4 → Q.WF →
      (vTaskPROC_Relay_ADSL A R XorShift32 Fuel Q RelayQ RX).1.Full ≤ max Q.Full 2 := by
  intro Fuel
  induction Fuel with
  | zero => intro Q RelayQ RX _ _; exact le_max_left _ _
  | succ n ih =>
      intro Q RelayQ RX hSize hWF
      unfold vTaskPROC_Relay_ADSL
      by_cases hF : Q.Full < 2
      · rw [if_pos hF]
        simp only []
        split_ifs with hRet
        · exact le_max_left _ _
        · have hW := FIFO_Write_Full (Q.setWrite
            (GetRelayPacket_ADSL A R XorShift32 RelayQ RX (Q.Data.getD Q.WritePtr default)).Packet)
            hSize (FIFO_setWrite_WF _ _ hWF) (by rw [FIFO_setWrite_Full]; omega)
          refine le_trans (ih _ _ _ hW.2.2 hW.2.1) ?_
          rw [hW.1, FIFO_setWrite_Full]
          omega
      · rw [if_neg hF]
        exact le_max_left _ _

theorem vTaskPROC_Relay_stable (L : OGN_Lib) (R : Relay_Lib) (XorShift32 : Nat → Nat)
    (Fuel : Nat) :
    ∀ (k : Nat) (Q : FIFO OGN_TxPacket) (RelayQ : Relay_PrioQueue) (RX : Nat),
      Q.Size = 4 → Q.WF → 2 ≤ Q.Full + k →
      vTaskPROC_Relay L R XorShift32 (Fuel + k) Q RelayQ RX
        = vTaskPROC_Relay L R XorShift32 k Q RelayQ RX := by
  intro k
  induction k with
  | zero =>
      intro Q RelayQ RX _ _ h
      rw [vTaskPROC_Relay_idle _ _ _ _ _ _ _ (by omega),
        vTaskPROC_Relay_idle _ _ _ _ _ _ _ (by omega)]
  | succ k ih =>
      intro Q RelayQ RX hSize hWF h
      rw [← Nat.add_assoc]
      unfold vTaskPROC_Relay
      by_cases hF : Q.Full < 2
      · rw [if_pos hF, if_pos hF]
        simp only []
        split_ifs with hRet
        · rfl
        · have hW := FIFO_Write_Full (Q.setWrite
            (GetRelayPacket L R XorShift32 RelayQ RX (Q.Data.getD Q.WritePtr default)).Packet)
            hSize (FIFO_setWrite_WF _ _ hWF) (by rw [FIFO_setWrite_Full]; omega)
          exact ih _ _ _ hW.2.2 hW.2.1 (by rw [hW.1, FIFO_setWrite_Full]; omega)
      · rw [if_neg hF, if_neg hF]

theorem vTaskPROC_Relay_ADSL_stable (A : ADSL_Lib) (R : ADSL_Relay_Lib)
    (XorShift32 : Nat → Nat) (Fuel : Nat) :
    ∀ (k : Nat) (Q : FIFO ADSL_Packet) (RelayQ : ADSL_Relay_PrioQueue) (RX : Nat),
      Q.Size = 4 → Q.WF → 2 ≤ Q.Full + k →
      vTaskPROC_Relay_ADSL A R XorShift32 (Fuel + k) Q RelayQ RX
        = vTaskPROC_Relay_ADSL A R XorShift32 k Q RelayQ RX := by
  intro k
  induction k with
  | zero =>
      intro Q RelayQ RX _ _ h
      rw [vTaskPROC_Relay_ADSL_idle _ _ _ _ _ _ _ (by omega),
        vTaskPROC_Relay_ADSL_idle _ _ _ _ _ _ _ (by omega)]
  | succ k ih =>
      intro Q RelayQ RX hSize hWF h
      rw [← Nat.add_assoc]
      unfold vTaskPROC_Relay_ADSL
      by_cases hF : Q.Full < 2
      · rw [if_pos hF, if_pos hF]
        simp only []
        split_ifs with hRet
        · rfl
        · have hW := FIFO_Write_Full (Q.setWrite
            (GetRelayPacket_ADSL A R XorShift32 RelayQ RX (Q.Data.getD Q.WritePtr default)).Packet)
            hSize (FIFO_setWrite_WF _ _ hWF) (by rw [FIFO_setWrite_Full]; omega)
          exact ih _ _ _ hW.2.2 hW.2.1 (by rw [hW.1, FIFO_setWrite_Full]; omega)
      · rw [if_neg hF, if_neg hF]

theorem vTaskPROC_Status_Full (L : OGN_Lib) (XorShift32 : Nat → Nat) (P : Parameters)
    (StatData : List Nat) (InfoChars : Nat) (InfoData : List Nat) (S : PROC_State)
    (hSize : S.OGN_TxFIFO.Size = 4) (hWF : S.OGN_TxFIFO.WF) :
    (2 ≤ S.OGN_TxFIFO.Full →
      (vTaskPROC_Status L XorShift32 P StatData InfoChars InfoData S).OGN_TxFIFO
        = S.OGN_TxFIFO) ∧
    (vTaskPROC_Status L XorShift32 P StatData InfoChars InfoData S).OGN_TxFIFO.Full
      ≤ max S.OGN_TxFIFO.Full 2 := by
  unfold vTaskPROC_Status
  simp only []
  constructor
  · intro h
    rw [if_neg (by omega)]
  · by_cases hC : S.StatTxBackOff = 0 ∧ S.OGN_TxFIFO.Full < 2
    · have hW := fun x => FIFO_Write_Full (S.OGN_TxFIFO.setWrite x)
        hSize (FIFO_setWrite_WF _ x hWF) (by rw [FIFO_setWrite_Full]; omega)
      rw [if_pos hC]
      split_ifs
      all_goals first
        | exact le_max_left _ _
        | (show (FIFO.Write (S.OGN_TxFIFO.setWrite _)).Full ≤ _
           rw [(hW _).1, FIFO_setWrite_Full]
           omega)
    · rw [if_neg hC]
      exact le_max_left _ _

theorem vTaskPROC_AdslStatus_Full (A : ADSL_Lib) (T : ADSL_Telem) (XorShift32 : Nat → Nat)
    (S : PROC_AdslState) (hSize : S.ADSL_TxFIFO.Size = 4) (hWF : S.ADSL_TxFIFO.WF) :
    (2 ≤ S.ADSL_TxFIFO.Full →
      (vTaskPROC_AdslStatus A T XorShift32 S).ADSL_TxFIFO = S.ADSL_TxFIFO) ∧
    (vTaskPROC_AdslStatus A T XorShift32 S).ADSL_TxFIFO.Full ≤ max S.ADSL_TxFIFO.Full 2 := by
  unfold vTaskPROC_AdslStatus
  simp only []
  constructor
  · intro h
    by_cases h1 : S.StatTxBackOff ≠ 0
    · rw [if_pos h1]
    · rw [if_neg h1, if_neg (by omega)]
  · by_cases h1 : S.StatTxBackOff ≠ 0
    · rw [if_pos h1]
      exact le_max_left _ _
    · rw [if_neg h1]
      by_cases h2 : S.ADSL_TxFIFO.Full < 2
      · have hW := fun x => FIFO_Write_Full (S.ADSL_TxFIFO.setWrite x)
          hSize (FIFO_setWrite_WF _ x hWF) (by rw [FIFO_setWrite_Full]; omega)
        rw [if_pos h2]
        show (FIFO.Write (S.ADSL_TxFIFO.setWrite _)).Full ≤ _
        rw [(hW _).1, FIFO_setWrite_Full]
        omega
      · rw [if_neg h2]
        exact le_max_left _ _

/-- C17: in the status and relay parts of a `vTaskPROC` cycle, with two or
more packets pending in `OGN_TxFIFO` the status part leaves the queue as it
is and the relay refill loop returns at once, and neither part ever takes the
occupancy above `max(before, 2)`; the same holds for the ADS-L telemetry part
and the ADS-L relay loop on `ADSL_TxFIFO`.  Two passes of either relay loop
always reach its exit (more fuel changes nothing). -/
theorem vTaskPROC_enqueues_only_below_two (L : OGN_Lib) (R : Relay_Lib) (A : ADSL_Lib)
    (RA : ADSL_Relay_Lib) (T : ADSL_Telem) (XorShift32 : Nat → Nat) (P : Parameters)
    (StatData : List Nat) (InfoChars : Nat) (InfoData : List Nat) (S : PROC_State)
    (SA : PROC_AdslState) (RelayQ : Relay_PrioQueue) (AdslRelayQ : ADSL_Relay_PrioQueue)
    (Fuel : Nat)
    (hSize : S.OGN_TxFIFO.Size = 4) (hWF : S.OGN_TxFIFO.WF)
    (hSizeA : SA.ADSL_TxFIFO.Size = 4) (hWFA : SA.ADSL_TxFIFO.WF) :
    ((2 ≤ S.OGN_TxFIFO.Full →
        (vTaskPROC_Status L XorShift32 P StatData InfoChars InfoData S).OGN_TxFIFO
          = S.OGN_TxFIFO) ∧
      (vTaskPROC_Status L XorShift32 P StatData InfoChars InfoData S).OGN_TxFIFO.Full
        ≤ max S.OGN_TxFIFO.Full 2) ∧
    ((2 ≤ S.OGN_TxFIFO.Full →
        vTaskPROC_Relay L R XorShift32 Fuel S.OGN_TxFIFO RelayQ S.RandomRX
          = (S.OGN_TxFIFO, RelayQ, S.RandomRX)) ∧
      (vTaskPROC_Relay L R XorShift32 Fuel S.OGN_TxFIFO RelayQ S.RandomRX).1.Full
        ≤ max S.OGN_TxFIFO.Full 2 ∧
      vTaskPROC_Relay L R XorShift32 (Fuel + 2) S.OGN_TxFIFO RelayQ S.RandomRX
        = vTaskPROC_Relay L R XorShift32 2 S.OGN_TxFIFO RelayQ S.RandomRX) ∧
    ((2 ≤ SA.ADSL_TxFIFO.Full →
        (vTaskPROC_AdslStatus A T XorShift32 SA).ADSL_TxFIFO = SA.ADSL_TxFIFO) ∧
      (vTaskPROC_AdslStatus A T XorShift32 SA).ADSL_TxFIFO.Full ≤ max SA.ADSL_TxFIFO.Full 2) ∧
    ((2 ≤ SA.ADSL_TxFIFO.Full →
        vTaskPROC_Relay_ADSL A RA XorShift32 Fuel SA.ADSL_TxFIFO AdslRelayQ SA.RandomRX
          = (SA.ADSL_TxFIFO, AdslRelayQ, SA.RandomRX)) ∧
      (vTaskPROC_Relay_ADSL A RA XorShift32 Fuel SA.ADSL_TxFIFO AdslRelayQ SA.RandomRX).1.Full
        ≤ max SA.ADSL_TxFIFO.Full 2 ∧
      vTaskPROC_Relay_ADSL A RA XorShift32 (Fuel + 2) SA.ADSL_TxFIFO AdslRelayQ SA.RandomRX
        = vTaskPROC_Relay_ADSL A RA XorShift32 2 SA.ADSL_TxFIFO AdslRelayQ SA.RandomRX) :=
  ⟨vTaskPROC_Status_Full L XorShift32 P StatData InfoChars InfoData S hSize hWF,
   ⟨fun h => vTaskPROC_Relay_idle L R XorShift32 Fuel _ _ _ h,
    vTaskPROC_Relay_Full L R XorShift32 Fuel _ _ _ hSize hWF,
    vTaskPROC_Relay_stable L R XorShift32 Fuel 2 _ _ _ hSize hWF (by omega)⟩,
   vTaskPROC_AdslStatus_Full A T XorShift32 SA hSizeA hWFA,
   ⟨fun h => vTaskPROC_Relay_ADSL_idle A RA XorShift32 Fuel _ _ _ h,
    vTaskPROC_Relay_ADSL_Full A RA XorShift32 Fuel _ _ _ hSizeA hWFA,
    vTaskPROC_Relay_ADSL_stable A RA XorShift32 Fuel 2 _ _ _ hSizeA hWFA (by omega)⟩⟩

/-- Witness for C17: with one packet pending the status part commits a second
one (occupancy 2); with two pending it leaves `OGN_TxFIFO` as it is. -/
theorem vTaskPROC_enqueues_only_below_two_witness :
    (vTaskPROC_Status OGN_Lib_sample XorShift32_sample Parameters_sample [1, 2, 3, 4] 0 []
      (PROC_State_pending 1)).OGN_TxFIFO.Full = 2 ∧
    (vTaskPROC_Status OGN_Lib_sample XorShift32_sample Parameters_sample [1, 2, 3, 4] 0 []
      (PROC_State_pending 2)).OGN_TxFIFO = (PROC_State_pending 2).OGN_TxFIFO :=
  ⟨by decide,
   (vTaskPROC_enqueues_only_below_two OGN_Lib_sample Relay_Lib_sample ADSL_Lib_sample
      ADSL_Relay_Lib_sample ADSL_Telem_sample XorShift32_sample Parameters_sample [1, 2, 3, 4] 0
      [] (PROC_State_pending 2) (PROC_AdslState_pending 2) Relay_PrioQueue_sample
      { Sum := 0, Packet := [] } 5 rfl ⟨by decide, by decide, by decide⟩ rfl
      ⟨by decide, by decide, by decide⟩).1.1 (by decide)⟩

theorem Radio_Task_SlotCall_TxPacket (F : FreqPlan) (H : Hash_Lib) (UTC : Nat) (TxPower : Int)
    (First : Bool) (msTime : Nat) (OgnPacket AdslPacket : Option Nat) :
    (Radio_Task_SlotCall F H UTC TxPower First msTime OgnPacket AdslPacket).TxPacket
      = if (if First then (Radio_Task_Hash H UTC (decide (F.Plan ≤ 1))).1
            else !(Radio_Task_Hash H UTC (decide (F.Plan ≤ 1))).1) && decide (F.Plan ≤ 1)
        then AdslPacket.map TxPacketRef.ADSL else OgnPacket.map TxPacketRef.OGN := by
  unfold Radio_Task_SlotCall
  simp only []
  split_ifs <;> rfl

/-- C13 (the code as it is): with one packet queued in `OGN_TxFIFO`, the first
event of the slot part of `Radio_Task` is the `Read()` that releases the slot
of that packet, the queue it leaves is empty, and a later `Radio_Slot` call is
handed the pointer to that same slot as `TxPacket`: the packet is read for
transmission after its slot went back to the producer, not before and not
from a copy. -/
theorem Radio_Task_reads_released_slot (F : FreqPlan) (H : Hash_Lib) (UTC : Nat)
    (TxPower : Int) (RandomRX msTimeA msTimeB : Nat)
    (OGN_TxFIFO : FIFO OGN_TxPacket) (ADSL_TxFIFO : FIFO ADSL_Packet)
    (hSize : OGN_TxFIFO.Size = 4) (hWF : OGN_TxFIFO.WF) (hOne : OGN_TxFIFO.Full = 1) :
    (Radio_Task_Trace F H UTC TxPower RandomRX msTimeA msTimeB OGN_TxFIFO ADSL_TxFIFO).head?
      = some (Radio_Task_Event.Read (TxPacketRef.OGN OGN_TxFIFO.ReadPtr)) ∧
    (Radio_Task_Slots F H UTC TxPower RandomRX msTimeA msTimeB OGN_TxFIFO
      ADSL_TxFIFO).2.2.1.getRead = none ∧
    (∃ Call, Radio_Task_Event.Radio_Slot Call ∈
        (Radio_Task_Trace F H UTC TxPower RandomRX msTimeA msTimeB OGN_TxFIFO ADSL_TxFIFO).tail ∧
      Call.TxPacket = some (TxPacketRef.OGN OGN_TxFIFO.ReadPtr)) := by
  have hDeq := Radio_Task_Dequeue_one OGN_TxFIFO (decide (RandomRX &&& 4 ≠ 0)) hSize hWF hOne
  obtain ⟨hLen, hR, hW⟩ := hWF
  have hFull := hOne
  unfold FIFO.Full at hFull
  rw [hSize] at hFull hR hW
  have hne : OGN_TxFIFO.ReadPtr ≠ OGN_TxFIFO.WritePtr := by omega
  have hnext : (OGN_TxFIFO.ReadPtr + 1) % 4 = OGN_TxFIFO.WritePtr := by omega
  have hEv : Radio_Task_Dequeue_Events OGN_TxFIFO TxPacketRef.OGN
      = [Radio_Task_Event.Read (TxPacketRef.OGN OGN_TxFIFO.ReadPtr)] := by
    simp [Radio_Task_Dequeue_Events, FIFO.getRead, FIFO.Read, hne, hSize, hnext]
  have hQ : (Radio_Task_Dequeue OGN_TxFIFO (decide (RandomRX &&& 4 ≠ 0))).1.getRead = none := by
    simp [Radio_Task_Dequeue, FIFO.getRead, FIFO.Read, hne, hSize, hnext]
  refine ⟨?_, ?_, ?_⟩
  · unfold Radio_Task_Trace
    rw [hEv]
    rfl
  · exact hQ
  · unfold Radio_Task_Trace
    rw [hEv]
    simp only [List.singleton_append, List.tail_cons]
    by_cases hA : ((Radio_Task_Slots F H UTC TxPower RandomRX msTimeA msTimeB OGN_TxFIFO
        ADSL_TxFIFO).1.TxPacket = some (TxPacketRef.OGN OGN_TxFIFO.ReadPtr))
    · exact ⟨_, List.mem_append_right _ (List.mem_cons_self _ _), hA⟩
    · refine ⟨_, List.mem_append_right _ (List.mem_cons_of_mem _ (List.mem_cons_self _ _)), ?_⟩
      unfold Radio_Task_Slots at hA ⊢
      simp only [hDeq, Radio_Task_SlotCall_TxPacket] at hA ⊢
      revert hA
      generalize (Radio_Task_Hash H UTC (decide (F.Plan ≤ 1))).1 = AdslSlot
      generalize decide (F.Plan ≤ 1) = EU
      cases AdslSlot <;> cases EU <;> simp

/-- Witness for C13: UTC second 1700000000, one packet queued in slot 0 of
`OGN_TxFIFO`: the trace is the `Read()` of slot 0 followed by the two slot
calls, and slot A transmits from slot 0. -/
theorem Radio_Task_reads_released_slot_witness :
    (Radio_Task_Trace FreqPlan_sample Hash_Lib_sample 1700000000 14 0 405 810
        (OGN_TxFIFO_empty.setWrite default).Write ADSL_TxFIFO_empty).head?
      = some (Radio_Task_Event.Read (TxPacketRef.OGN 0)) ∧
    (Radio_Task_Slots FreqPlan_sample Hash_Lib_sample 1700000000 14 0 405 810
        (OGN_TxFIFO_empty.setWrite default).Write ADSL_TxFIFO_empty).1.TxPacket
      = some (TxPacketRef.OGN 0) ∧
    (Radio_Task_Slots FreqPlan_sample Hash_Lib_sample 1700000000 14 0 405 810
        (OGN_TxFIFO_empty.setWrite default).Write ADSL_TxFIFO_empty).2.2.1.getRead = none :=
  ⟨(Radio_Task_reads_released_slot FreqPlan_sample Hash_Lib_sample 1700000000 14 0 405 810
      (OGN_TxFIFO_empty.setWrite default).Write ADSL_TxFIFO_empty rfl
      ⟨by decide, by decide, by decide⟩ (by decide)).1,
   by decide, by decide⟩

/-- The hazard behind C13: once the scheduler has released slot 0, the
producer's next stores through `getWrite()` reach it.  After three commits the
fourth store lands in slot 0 while the scheduler still holds the pointer. -/
theorem Radio_Task_released_slot_overwritten :
    (((((Radio_Task_Slots FreqPlan_sample Hash_Lib_sample 1700000000 14 0 405 810
        (OGN_TxFIFO_empty.setWrite default).Write ADSL_TxFIFO_empty).2.2.1.setWrite
          default).Write.setWrite default).Write.setWrite default).Write.setWrite
          { Packet := default, FEC := [1] }).Data.getD 0 default
      = { Packet := default, FEC := [1] } := by
  decide

/-- C20: whatever slot length `Radio_Task` computes, the clamp brings it into
250..480 ms; for every such length `L` and every random word the delay
before the transmission for equal channels has the non-zero modulus `L-200`
and lies in `20..L-181`, so strictly inside the slot, and for different
channels it lies in `25..L-26`. -/
theorem Radio_Slot_TxTime_inside_slot (SlotLen RandomRX : Nat) :
    250 ≤ Radio_Task_ClampSlotLen SlotLen ∧ Radio_Task_ClampSlotLen SlotLen ≤ 480 ∧
    (Radio_Task_ClampSlotLen SlotLen + 4294967296 - 200) % 4294967296
      = Radio_Task_ClampSlotLen SlotLen - 200 ∧
    Radio_Task_ClampSlotLen SlotLen - 200 ≠ 0 ∧
    20 ≤ Radio_Slot_TxTime true RandomRX (Radio_Task_ClampSlotLen SlotLen) ∧
    Radio_Slot_TxTime true RandomRX (Radio_Task_ClampSlotLen SlotLen)
      ≤ Radio_Task_ClampSlotLen SlotLen - 181 ∧
    Radio_Slot_TxTime true RandomRX (Radio_Task_ClampSlotLen SlotLen)
      < Radio_Task_ClampSlotLen SlotLen ∧
    25 ≤ Radio_Slot_TxTime false RandomRX (Radio_Task_ClampSlotLen SlotLen) ∧
    Radio_Slot_TxTime false RandomRX (Radio_Task_ClampSlotLen SlotLen)
      ≤ Radio_Task_ClampSlotLen SlotLen - 26 := by
  have hL : 250 ≤ Radio_Task_ClampSlotLen SlotLen ∧ Radio_Task_ClampSlotLen SlotLen ≤ 480 := by
    unfold Radio_Task_ClampSlotLen
    split_ifs <;> omega
  generalize Radio_Task_ClampSlotLen SlotLen = L at hL ⊢
  obtain ⟨h1, h2⟩ := hL
  have hm1 : (L + 4294967296 - 200) % 4294967296 = L - 200 := by omega
  have hm2 : (L + 4294967296 - 50) % 4294967296 = L - 50 := by omega
  have hr1 : RandomRX % 4294967296 % (L - 200) < L - 200 := Nat.mod_lt _ (by omega)
  have hr2 : RandomRX % 4294967296 % (L - 50) < L - 50 := Nat.mod_lt _ (by omega)
  unfold Radio_Slot_TxTime
  simp only [if_true, Bool.false_eq_true, if_false, hm1, hm2]
  refine ⟨h1, h2, trivial, by omega, ?_, ?_, ?_, ?_, ?_⟩ <;> omega

theorem Radio_Env_millis_mono (E : Radio_Env) (hMono : ∀ n, E.millis n < E.millis (n + 1)) :
    ∀ k n, E.millis n + k ≤ E.millis (n + k) := by
  intro k
  induction k with
  | zero => intro n; simp
  | succ k ih =>
      intro n
      have h1 := ih n
      have h2 := hMono (n + k)
      have h3 : n + (k + 1) = n + k + 1 := rfl
      rw [h3]
      omega

theorem Radio_Env_millis_le (E : Radio_Env) (hMono : ∀ n, E.millis n < E.millis (n + 1))
    (m n : Nat) (h : m ≤ n) : E.millis m + (n - m) ≤ E.millis n := by
  have := Radio_Env_millis_mono E hMono (n - m) m
  rwa [Nat.add_sub_cancel' h] at this

theorem Radio_Receive_Loop_spec (X : Radio_RxLib) (E : Radio_Env)
    (msStart msTimeLen PktLen : Nat) (Manch : Bool) (SysID Channel : Nat)
    (hMono : ∀ n, E.millis n < E.millis (n + 1)) :
    ∀ (Fuel PktCount : Nat) (S : Radio_SlotState),
      msStart ≤ E.millis S.Step → msTimeLen ≤ (E.millis S.Step - msStart) + Fuel → 1 ≤ Fuel →
      ∃ n S1, Radio_Receive_Loop X E msStart msTimeLen PktLen Manch SysID Channel Fuel PktCount S
          = some (n, S1) ∧
        S1.Tx = S.Tx ∧ S1.Radio_BkgRSSI = S.Radio_BkgRSSI ∧ S.Step < S1.Step ∧
        msTimeLen ≤ E.millis S1.Step - msStart := by
  intro Fuel
  induction Fuel with
  | zero => intro _ _ _ _ h; omega
  | succ f ih =>
      intro PktCount S hStart hFuel _
      have hStep := hMono S.Step
      unfold Radio_Receive_Loop
      simp only []
      by_cases hDone : E.millis (S.Step + 1) - msStart ≥ msTimeLen
      · rw [if_pos hDone]
        exact ⟨_, _, rfl, rfl, rfl, Nat.lt_succ_self _, hDone⟩
      · rw [if_neg hDone]
        obtain ⟨n, S1, hEq, hTx, hBkg, hLt, hEnd⟩ :=
          ih (PktCount + (Radio_Receive X (E.Rx (S.Step + 1)) PktLen Manch SysID Channel S.Rx).1)
            { S with Step := S.Step + 1
                     Rx := (Radio_Receive X (E.Rx (S.Step + 1)) PktLen Manch SysID Channel
                       S.Rx).2 }
            (by show msStart ≤ E.millis (S.Step + 1); omega)
            (by show msTimeLen ≤ (E.millis (S.Step + 1) - msStart) + f; omega)
            (by
              have : E.millis (S.Step + 1) - msStart < msTimeLen := by omega
              omega)
        refine ⟨n, S1, hEq, hTx, hBkg, ?_, hEnd⟩
        have : S.Step + 1 < S1.Step := hLt
        omega

theorem Radio_Receive_Timed_spec (X : Radio_RxLib) (E : Radio_Env) (msTimeLen PktLen : Nat)
    (Manch : Bool) (SysID Channel : Nat) (hMono : ∀ n, E.millis n < E.millis (n + 1))
    (Fuel : Nat) (S : Radio_SlotState) (hFuel : msTimeLen ≤ Fuel) (hOne : 1 ≤ Fuel) :
    ∃ n S1, Radio_Receive_Timed X E msTimeLen PktLen Manch SysID Channel Fuel S = some (n, S1) ∧
      S1.Tx = S.Tx ∧ S.Step < S1.Step ∧ E.millis S.Step + msTimeLen ≤ E.millis S1.Step ∧
      S1.Radio_BkgRSSI = Radio_BkgRSSI_update (E.liveRSSI S1.Step) S.Radio_BkgRSSI := by
  obtain ⟨n, S1, hEq, hTx, hBkg, hLt, hEnd⟩ :=
    Radio_Receive_Loop_spec X E (E.millis S.Step) msTimeLen PktLen Manch SysID Channel hMono
      Fuel 0 S (le_refl _) (by omega) hOne
  unfold Radio_Receive_Timed
  rw [hEq]
  refine ⟨n, _, rfl, hTx, hLt, ?_, ?_⟩
  · show E.millis S.Step + msTimeLen ≤ E.millis S1.Step
    have := Radio_Env_millis_le E hMono S.Step S1.Step (by omega)
    omega
  · show Radio_BkgRSSI_update (E.liveRSSI S1.Step) S1.Radio_BkgRSSI = _
    rw [hBkg]

theorem Radio_LBT_LogOK_mono (msTimeLen : Nat) (TxThres : Int) (From1 From2 : Nat)
    (Log : List Radio_LBT_Sample) (h : From1 ≤ From2)
    (hLog : Radio_LBT_LogOK msTimeLen TxThres From2 Log) :
    Radio_LBT_LogOK msTimeLen TxThres From1 Log := by
  cases Log with
  | nil => trivial
  | cons s Log =>
      obtain ⟨h1, h2, h3, h4⟩ := hLog
      exact ⟨h1, le_trans h h2, h3, h4⟩

theorem Radio_Slot_LBT_spec (L : Radio_SlotLib) (E : Radio_Env)
    (msStart msTimeLen RxPktLen : Nat) (RxManch : Bool) (RxSysID RxChannel : Nat)
    (hMono : ∀ n, E.millis n < E.millis (n + 1)) :
    ∀ (Fuel : Nat) (TxThres : Int) (S : Radio_SlotState),
      msStart ≤ E.millis S.Step → msTimeLen - (E.millis S.Step - msStart) + 29 ≤ Fuel →
      ∃ n S1 Log,
        Radio_Slot_LBT L E msStart msTimeLen RxPktLen RxManch RxSysID RxChannel Fuel TxThres S
          = some (n, S1, Log) ∧
        S1.Tx = S.Tx ∧ S.Step ≤ S1.Step ∧
        Radio_LBT_LogOK msTimeLen TxThres (E.millis S.Step - msStart) Log := by
  intro Fuel
  induction Fuel with
  | zero => intro _ _ _ h; omega
  | succ f ih =>
      intro TxThres S hStart hFuel
      unfold Radio_Slot_LBT
      simp only []
      by_cases hEnd : E.millis S.Step - msStart + 20 ≥ msTimeLen
      · rw [if_pos hEnd]
        exact ⟨0, S, [], rfl, rfl, le_refl _, trivial⟩
      · rw [if_neg hEnd]
        by_cases hPass : E.liveRSSI S.Step < S.Radio_BkgRSSI + TxThres
        · rw [if_pos hPass]
          refine ⟨_, _, _, rfl, rfl, le_refl _, ?_⟩
          exact ⟨rfl, le_refl _, by show E.millis S.Step - msStart + 20 < msTimeLen; omega,
            Or.inl ⟨hPass, rfl, rfl⟩⟩
        · rw [if_neg hPass]
          have hw : L.Rx.XorShift64 (L.addRSSI S.Rx.RandomWord (E.liveRSSI S.Step))
              % 4294967296 % 19 < 19 := Nat.mod_lt _ (by norm_num)
          obtain ⟨n, S3, hEq, hTx, hLt, hTime, -⟩ :=
            Radio_Receive_Timed_spec L.Rx E
              (10 + L.Rx.XorShift64 (L.addRSSI S.Rx.RandomWord (E.liveRSSI S.Step))
                % 4294967296 % 19)
              RxPktLen RxManch RxSysID RxChannel hMono f
              (Radio_SlotState.mk S.Step (Radio_RxState.mk S.Rx.FSK_RxFIFO S.Rx.Radio_RxCount
                (L.Rx.XorShift64 (L.addRSSI S.Rx.RandomWord (E.liveRSSI S.Step))))
                S.Radio_BkgRSSI S.Tx)
              (by omega) (by omega)
          have hStep : S.Step < S3.Step := hLt
          have hT : E.millis S.Step + (10 + L.Rx.XorShift64
              (L.addRSSI S.Rx.RandomWord (E.liveRSSI S.Step)) % 4294967296 % 19)
              ≤ E.millis S3.Step := hTime
          obtain ⟨m, S4, Log, hEq4, hTx4, hLe4, hLog⟩ :=
            ih (TxThres + 3) S3 (by omega) (by omega)
          rw [hEq]
          simp only []
          rw [hEq4]
          simp only []
          refine ⟨_, _, _, rfl, by rw [hTx4, hTx], by omega, ?_⟩
          refine ⟨rfl, le_refl _, by show E.millis S.Step - msStart + 20 < msTimeLen; omega,
            Or.inr ⟨hPass, _, rfl, by omega, by omega, ?_⟩⟩
          exact Radio_LBT_LogOK_mono _ _ _ _ _
            (by show E.millis S.Step - msStart + _ ≤ E.millis S3.Step - msStart; omega) hLog

theorem Radio_Slot_TxTime_bounds (SameChan : Bool) (RandomRX msTimeLen : Nat)
    (hLo : 250 ≤ msTimeLen) (hHi : msTimeLen ≤ 480) :
    20 ≤ Radio_Slot_TxTime SameChan RandomRX msTimeLen ∧
    Radio_Slot_TxTime SameChan RandomRX msTimeLen < msTimeLen := by
  have hm1 : (msTimeLen + 4294967296 - 200) % 4294967296 = msTimeLen - 200 := by omega
  have hm2 : (msTimeLen + 4294967296 - 50) % 4294967296 = msTimeLen - 50 := by omega
  have hr1 : RandomRX % 4294967296 % (msTimeLen - 200) < msTimeLen - 200 :=
    Nat.mod_lt _ (by omega)
  have hr2 : RandomRX % 4294967296 % (msTimeLen - 50) < msTimeLen - 50 :=
    Nat.mod_lt _ (by omega)
  unfold Radio_Slot_TxTime
  cases SameChan
  · simp only [Bool.false_eq_true, if_false, hm2]
    omega
  · simp only [if_true, hm1]
    omega

theorem Radio_Slot_Tail_spec (L : Radio_SlotLib) (E : Radio_Env)
    (msStart msTimeLen RxPktLen : Nat) (RxManch : Bool) (RxSysID RxChannel : Nat)
    (hMono : ∀ n, E.millis n < E.millis (n + 1)) (Fuel PktCount : Nat) (S : Radio_SlotState)
    (hFuel : msTimeLen ≤ Fuel) (hOne : 1 ≤ Fuel) :
    ∃ n S1, Radio_Slot_Tail L E msStart msTimeLen RxPktLen RxManch RxSysID RxChannel Fuel
        PktCount S = some (n, S1) ∧ S1.Tx = S.Tx := by
  unfold Radio_Slot_Tail
  by_cases h : E.millis S.Step - msStart < msTimeLen
  · rw [if_pos h]
    obtain ⟨n, S1, hEq, hTx, -⟩ :=
      Radio_Receive_Timed_spec L.Rx E (msTimeLen - (E.millis S.Step - msStart)) RxPktLen RxManch
        RxSysID RxChannel hMono Fuel S (by omega) hOne
    rw [hEq]
    exact ⟨_, _, rfl, hTx⟩
  · rw [if_neg h]
    exact ⟨_, _, rfl, rfl⟩

/-- What `Radio_Slot` does, for a slot length in the range `Radio_Task` uses
and a clock that advances with every blocking call: with enough fuel the
call returns; the transmit side is untouched when a SYNC is unknown or
`TxPacket` is null and is otherwise the result of the one transmission; the
record of the listen-before-talk samples is in order from threshold 10 on,
the first sample no earlier than 20 ms into the slot. -/
theorem Radio_Slot_spec (L : Radio_SlotLib) (E : Radio_Env) (TxChannel msTimeLen : Nat)
    (TxPacket : Option (List Nat)) (TxSysID RxChannel RxSysID : Nat) (Fuel : Nat)
    (S : Radio_SlotState) (hMono : ∀ n, E.millis n < E.millis (n + 1))
    (hLo : 250 ≤ msTimeLen) (hHi : msTimeLen ≤ 480) (hFuel : 509 ≤ Fuel) :
    ∃ n S1 Log,
      Radio_Slot L E TxChannel msTimeLen TxPacket TxSysID RxChannel RxSysID Fuel S
        = some (n, S1, Log) ∧
      S1.Tx = (if (L.SysSYNC TxSysID).1 ≤ 0 ∨ (L.SysSYNC RxSysID).1 ≤ 0 then S.Tx
        else match TxPacket with
          | none => S.Tx
          | some Packet => Radio_Slot_Transmit L Packet TxSysID S.Tx) ∧
      Radio_LBT_LogOK msTimeLen 10 20 Log := by
  unfold Radio_Slot
  simp only []
  by_cases hSync : (L.SysSYNC TxSysID).1 ≤ 0 ∨ (L.SysSYNC RxSysID).1 ≤ 0
  · rw [if_pos hSync, if_pos hSync]
    exact ⟨_, _, _, rfl, rfl, trivial⟩
  · rw [if_neg hSync, if_neg hSync]
    cases TxPacket with
    | none =>
        simp only []
        obtain ⟨n, S1, hEq, hTx⟩ := Radio_Slot_Tail_spec L E (E.millis S.Step) msTimeLen
          (if RxSysID = Radio_SysID_LDR then ((L.SysSYNC RxSysID).2 % 256 + 7) % 256
            else (L.SysSYNC RxSysID).2 % 256)
          (decide (RxSysID < 4 ∨ RxSysID ≥ 8)) RxSysID RxChannel hMono Fuel 0
          (Radio_SlotState.mk S.Step (Radio_RxState.mk S.Rx.FSK_RxFIFO S.Rx.Radio_RxCount
            (L.Rx.XorShift64 S.Rx.RandomWord)) S.Radio_BkgRSSI S.Tx)
          (by omega) (by omega)
        rw [hEq]
        exact ⟨_, _, _, rfl, hTx, trivial⟩
    | some Packet =>
        simp only []
        have hTxTime := Radio_Slot_TxTime_bounds (decide (TxChannel = RxChannel))
          (L.Rx.XorShift64 S.Rx.RandomWord) msTimeLen hLo hHi
        obtain ⟨n1, S2, hEq2, hTx2, hLt2, hTime2, -⟩ :=
          Radio_Receive_Timed_spec L.Rx E
            (Radio_Slot_TxTime (decide (TxChannel = RxChannel))
              (L.Rx.XorShift64 S.Rx.RandomWord) msTimeLen)
            (if RxSysID = Radio_SysID_LDR then ((L.SysSYNC RxSysID).2 % 256 + 7) % 256
              else (L.SysSYNC RxSysID).2 % 256)
            (decide (RxSysID < 4 ∨ RxSysID ≥ 8)) RxSysID RxChannel hMono Fuel
            (Radio_SlotState.mk S.Step (Radio_RxState.mk S.Rx.FSK_RxFIFO S.Rx.Radio_RxCount
              (L.Rx.XorShift64 S.Rx.RandomWord)) S.Radio_BkgRSSI S.Tx)
            (by omega) (by omega)
        have hStep2 : S.Step < S2.Step := hLt2
        have hT2 : E.millis S.Step + Radio_Slot_TxTime (decide (TxChannel = RxChannel))
            (L.Rx.XorShift64 S.Rx.RandomWord) msTimeLen ≤ E.millis S2.Step := hTime2
        have hTxS2 : S2.Tx = S.Tx := hTx2
        rw [hEq2]
        simp only []
        have hLBT : ∃ n2 S3 Log,
            (if decide (TxChannel = RxChannel) = true then
              Radio_Slot_LBT L E (E.millis S.Step) msTimeLen
                (if RxSysID = Radio_SysID_LDR then ((L.SysSYNC RxSysID).2 % 256 + 7) % 256
                  else (L.SysSYNC RxSysID).2 % 256)
                (decide (RxSysID < 4 ∨ RxSysID ≥ 8)) RxSysID RxChannel Fuel 10 S2
              else some (0, S2, [])) = some (n2, S3, Log) ∧
            S3.Tx = S.Tx ∧ S2.Step ≤ S3.Step ∧ Radio_LBT_LogOK msTimeLen 10 20 Log := by
          by_cases hSame : decide (TxChannel = RxChannel) = true
          · rw [if_pos hSame]
            obtain ⟨n2, S3, Log, hEq3, hTx3, hLe3, hLog⟩ :=
              Radio_Slot_LBT_spec L E (E.millis S.Step) msTimeLen
                (if RxSysID = Radio_SysID_LDR then ((L.SysSYNC RxSysID).2 % 256 + 7) % 256
                  else (L.SysSYNC RxSysID).2 % 256)
                (decide (RxSysID < 4 ∨ RxSysID ≥ 8)) RxSysID RxChannel hMono Fuel 10 S2
                (by omega) (by omega)
            exact ⟨n2, S3, Log, hEq3, by rw [hTx3, hTxS2], hLe3,
              Radio_LBT_LogOK_mono _ _ _ _ _ (by omega) hLog⟩
          · rw [if_neg hSame]
            exact ⟨_, _, _, rfl, hTxS2, le_refl _, trivial⟩
        obtain ⟨n2, S3, Log, hEq3, hTx3, hLe3, hLog⟩ := hLBT
        rw [hEq3]
        simp only []
        obtain ⟨n, S5, hEq5, hTx5⟩ := Radio_Slot_Tail_spec L E (E.millis S.Step) msTimeLen
          (if RxSysID = Radio_SysID_LDR then ((L.SysSYNC RxSysID).2 % 256 + 7) % 256
            else (L.SysSYNC RxSysID).2 % 256)
          (decide (RxSysID < 4 ∨ RxSysID ≥ 8)) RxSysID RxChannel hMono Fuel (n1 + n2)
          (Radio_SlotState.mk (S3.Step + 1) S3.Rx S3.Radio_BkgRSSI
            (Radio_Slot_Transmit L Packet TxSysID S3.Tx))
          (by omega) (by omega)
        rw [hEq5]
        refine ⟨_, _, _, rfl, ?_, hLog⟩
        show S5.Tx = Radio_Slot_Transmit L Packet TxSysID S.Tx
        rw [hTx5]
        show Radio_Slot_Transmit L Packet TxSysID S3.Tx = _
        rw [hTx3]

theorem Radio_TxFSK_TxCount (getTimeOnAir : Nat → Nat) (Packet : List Nat) (Len : Nat)
    (T : Radio_TxState) :
    (Radio_TxFSK getTimeOnAir Packet Len T).Radio_TxCount = T.Radio_TxCount ∧
    (Radio_TxFSK getTimeOnAir Packet Len T).Transmitted = T.Transmitted ++ [Packet.take Len] :=
  ⟨rfl, rfl⟩

theorem Radio_Slot_Transmit_Manch (L : Radio_SlotLib) (Packet : List Nat) (TxSysID : Nat)
    (T : Radio_TxState) (h : TxSysID < 4) :
    (Radio_Slot_Transmit L Packet TxSysID T).Radio_TxCount
      = T.Radio_TxCount.set TxSysID ((T.Radio_TxCount.getD TxSysID 0 + 1) % 4294967296) ∧
    (Radio_Slot_Transmit L Packet TxSysID T).Transmitted.length = T.Transmitted.length + 1 := by
  unfold Radio_Slot_Transmit
  simp only []
  rw [if_pos h]
  constructor
  · rfl
  · simp [Radio_TxManchFSK, Radio_TxFSK]

theorem Radio_Slot_Transmit_LDR (L : Radio_SlotLib) (Packet : List Nat) (T : Radio_TxState)
    (hCount : T.Radio_TxCount.length = 8) :
    (Radio_Slot_Transmit L Packet Radio_SysID_LDR T).Radio_TxCount
      = T.Radio_TxCount.set Radio_SysID_LDR
          (((T.Radio_TxCount.getD Radio_SysID_LDR 0 + 1) % 4294967296 + 1) % 4294967296) ∧
    (Radio_Slot_Transmit L Packet Radio_SysID_LDR T).Transmitted.length
      = T.Transmitted.length + 1 := by
  have h4 : ¬ Radio_SysID_LDR < 4 := by decide
  have hIdx : Radio_SysID_LDR < T.Radio_TxCount.length := by rw [hCount]; decide
  unfold Radio_Slot_Transmit
  simp only []
  rw [if_neg h4]
  constructor
  · have hSend : (Radio_TxLDR_Send L.CRC8 L.getTimeOnAir Packet
        ((L.SysSYNC Radio_SysID_LDR).2 % 256) T).Radio_TxCount
        = T.Radio_TxCount.set Radio_SysID_LDR
            ((T.Radio_TxCount.getD Radio_SysID_LDR 0 + 1) % 4294967296) := rfl
    show List.set _ Radio_SysID_LDR ((List.getD _ Radio_SysID_LDR 0 + 1) % 4294967296) = _
    rw [hSend, List.set_set,
      List.getD_eq_getElem _ _ (by rw [List.length_set]; exact hIdx), List.getElem_set_self]
  · simp [Radio_TxLDR_Send, Radio_TxFSK]

/-- C14 (the code as it is): a `Radio_Slot` call that transmits on the
long-range system (`TxSysID = Radio_SysID_LDR`) returns with
`Radio_TxCount[Radio_SysID_LDR]` raised by two for its one transmission:
`Radio_TxLDR` counts the frame and `Radio_Slot` counts it again. -/
theorem Radio_Slot_counts_LDR_twice (L : Radio_SlotLib) (E : Radio_Env)
    (TxChannel msTimeLen : Nat) (Packet : List Nat) (RxChannel RxSysID Fuel : Nat)
    (S : Radio_SlotState) (hMono : ∀ n, E.millis n < E.millis (n + 1))
    (hLo : 250 ≤ msTimeLen) (hHi : msTimeLen ≤ 480) (hFuel : 509 ≤ Fuel)
    (hTxSync : 0 < (L.SysSYNC Radio_SysID_LDR).1) (hRxSync : 0 < (L.SysSYNC RxSysID).1)
    (hCount : S.Tx.Radio_TxCount.length = 8) :
    ∃ n S1 Log,
      Radio_Slot L E TxChannel msTimeLen (some Packet) Radio_SysID_LDR RxChannel RxSysID Fuel S
        = some (n, S1, Log) ∧
      S1.Tx.Transmitted.length = S.Tx.Transmitted.length + 1 ∧
      S1.Tx.Radio_TxCount = S.Tx.Radio_TxCount.set Radio_SysID_LDR
        (((S.Tx.Radio_TxCount.getD Radio_SysID_LDR 0 + 1) % 4294967296 + 1) % 4294967296) := by
  obtain ⟨n, S1, Log, hEq, hTx, -⟩ := Radio_Slot_spec L E TxChannel msTimeLen (some Packet)
    Radio_SysID_LDR RxChannel RxSysID Fuel S hMono hLo hHi hFuel
  rw [if_neg (by omega)] at hTx
  have hT := Radio_Slot_Transmit_LDR L Packet S.Tx hCount
  exact ⟨n, S1, Log, hEq, by rw [hTx]; exact hT.2, by rw [hTx]; exact hT.1⟩

/-- Witness for C14: one O-band slot of 400 ms on a quiet channel, counters
at zero before the call. -/
theorem Radio_Slot_counts_LDR_twice_witness :
    ∃ n S1 Log,
      Radio_Slot Radio_SlotLib_sample Radio_Env_sample 2 400 (some LDR_sample_payload)
        Radio_SysID_LDR 2 Radio_SysID_LDR 509 Radio_SlotState_sample = some (n, S1, Log) ∧
      S1.Tx.Transmitted.length = 1 ∧
      S1.Tx.Radio_TxCount = [0, 0, 0, 0, 2, 0, 0, 0] :=
  Radio_Slot_counts_LDR_twice Radio_SlotLib_sample Radio_Env_sample 2 400 LDR_sample_payload 2
    Radio_SysID_LDR 509 Radio_SlotState_sample (fun n => Nat.lt_succ_self _) (by decide)
    (by decide) (by decide) (by decide) (by decide) rfl

/-- The Manchester protocols are counted once: a `Radio_Slot` call that
transmits with `TxSysID < 4` raises `Radio_TxCount[TxSysID]` by one and leaves
the other counters alone. -/
theorem Radio_Slot_counts_Manchester_once (L : Radio_SlotLib) (E : Radio_Env)
    (TxChannel msTimeLen : Nat) (Packet : List Nat) (TxSysID RxChannel RxSysID Fuel : Nat)
    (S : Radio_SlotState) (hMono : ∀ n, E.millis n < E.millis (n + 1))
    (hLo : 250 ≤ msTimeLen) (hHi : msTimeLen ≤ 480) (hFuel : 509 ≤ Fuel)
    (hManch : TxSysID < 4)
    (hTxSync : 0 < (L.SysSYNC TxSysID).1) (hRxSync : 0 < (L.SysSYNC RxSysID).1) :
    ∃ n S1 Log,
      Radio_Slot L E TxChannel msTimeLen (some Packet) TxSysID RxChannel RxSysID Fuel S
        = some (n, S1, Log) ∧
      S1.Tx.Transmitted.length = S.Tx.Transmitted.length + 1 ∧
      S1.Tx.Radio_TxCount = S.Tx.Radio_TxCount.set TxSysID
        ((S.Tx.Radio_TxCount.getD TxSysID 0 + 1) % 4294967296) := by
  obtain ⟨n, S1, Log, hEq, hTx, -⟩ := Radio_Slot_spec L E TxChannel msTimeLen (some Packet)
    TxSysID RxChannel RxSysID Fuel S hMono hLo hHi hFuel
  rw [if_neg (by omega)] at hTx
  have hT := Radio_Slot_Transmit_Manch L Packet TxSysID S.Tx hManch
  exact ⟨n, S1, Log, hEq, by rw [hTx]; exact hT.2, by rw [hTx]; exact hT.1⟩

/-- A `Radio_Slot` call with a null `TxPacket` transmits nothing and leaves
every transmit counter as it was. -/
theorem Radio_Slot_null_packet_no_count (L : Radio_SlotLib) (E : Radio_Env)
    (TxChannel msTimeLen TxSysID RxChannel RxSysID Fuel : Nat) (S : Radio_SlotState)
    (hMono : ∀ n, E.millis n < E.millis (n + 1))
    (hLo : 250 ≤ msTimeLen) (hHi : msTimeLen ≤ 480) (hFuel : 509 ≤ Fuel) :
    ∃ n S1 Log,
      Radio_Slot L E TxChannel msTimeLen none TxSysID RxChannel RxSysID Fuel S
        = some (n, S1, Log) ∧ S1.Tx = S.Tx := by
  obtain ⟨n, S1, Log, hEq, hTx, -⟩ := Radio_Slot_spec L E TxChannel msTimeLen none
    TxSysID RxChannel RxSysID Fuel S hMono hLo hHi hFuel
  refine ⟨n, S1, Log, hEq, ?_⟩
  rw [hTx]
  split_ifs <;> rfl

/-- An evaluation of the listen-before-talk loop: 30 ms into a slot of 400 ms,
with the noise estimate at -105 dBm and a live RSSI of -100 dBm, the first
sample lies below the bound -95 dBm and is the only one. -/
theorem Radio_Slot_LBT_sample :
    (Radio_Slot_LBT Radio_SlotLib_sample Radio_Env_sample 1000 400 26 true Radio_SysID_OGN_ADSL 1
      40 10 { Radio_SlotState_sample with Step := 30 }).map (fun R => R.2.2)
      = some [{ Step := 30, msTime := 30, RSSI := -100, Radio_BkgRSSI := -105, TxThres := 10,
                Wait := none }] := by
  rw [show (40 : Nat) = 39 + 1 from rfl, Radio_Slot_LBT]
  simp only [Radio_Env_sample, Radio_SlotState_sample]
  norm_num

set_option maxHeartbeats 4000000 in
/-- The same loop on a busy channel, 30 ms into a slot of 70 ms: with the live
RSSI at -90 dBm the sample at threshold 10 fails (bound -95 dBm) and is
followed by a wait of 10 ms; the second sample, at threshold 13 against the
updated estimate -104.25 dBm, fails as well; after its wait fewer than 20 ms
remain and the loop ends. -/
theorem Radio_Slot_LBT_sample_busy :
    ((Radio_Slot_LBT Radio_SlotLib_sample { Radio_Env_sample with liveRSSI := fun _ => -90 }
      1000 70 26 true Radio_SysID_OGN_ADSL 1 13 10
      { Radio_SlotState_sample with Step := 30 }).map
        (fun R => R.2.2.map fun s => (s.msTime, s.Radio_BkgRSSI, s.TxThres, s.Wait)))
      = some [(30, -105, 10, some 10), (40, -417 / 4, 13, some 10)] := by
  simp [Radio_Slot_LBT, Radio_Receive_Timed, Radio_Receive_Loop, Radio_Receive,
    Radio_Env_sample, Radio_SlotState_sample, Radio_SlotLib_sample, Radio_RxLib_sample,
    Radio_RxInput_sample, Radio_RxState_sample, Radio_BkgRSSI_update, Radio_BkgUpdate]
  norm_num
  exact ⟨_, _, _, ⟨rfl, rfl, rfl⟩, by norm_num⟩

/-- Counterexample to C18: with one frame queued in `FNT_TxFIFO` and the
waiting loop left 380 ms after the pulse, the beacon part takes the frame out
of the queue (occupancy 0 afterwards) and transmits nothing. -/
theorem Radio_Task_FANET_drops_late_frame :
    Radio_FNT_State_sample.FNT_TxFIFO.Full = 1 ∧
    (Radio_Task_FANET 40 (fun w => w) (fun Len => 100 * Len) Radio_FNT_Env_sample 380 400
      Radio_FNT_State_sample).map (fun R => (R.2.FNT_TxFIFO.Full, R.2.Tx.Transmitted))
      = some (0, []) := by
  decide

theorem Radio_FNT_Env_millis_le (E : Radio_FNT_Env)
    (hMono : ∀ n, E.millis n < E.millis (n + 1)) :
    ∀ k n, E.millis n + k ≤ E.millis (n + k) := by
  intro k
  induction k with
  | zero => intro n; simp
  | succ k ih =>
      intro n
      have h1 := ih n
      have h2 := hMono (n + k)
      have h3 : n + (k + 1) = n + k + 1 := rfl
      rw [h3]
      omega

theorem Radio_FANETrxPacket_keeps (MaxBytes : Nat) (In : FANET_RxInput) (S : Radio_FNT_State) :
    (Radio_FANETrxPacket MaxBytes In S).2.Step = S.Step ∧
    (Radio_FANETrxPacket MaxBytes In S).2.Tx = S.Tx ∧
    (Radio_FANETrxPacket MaxBytes In S).2.FNT_TxFIFO = S.FNT_TxFIFO := by
  unfold Radio_FANETrxPacket
  split_ifs <;> exact ⟨rfl, rfl, rfl⟩

theorem Radio_RxFANET_Loop_spec (MaxBytes : Nat) (E : Radio_FNT_Env) (msStart msTimeLen : Nat)
    (hMono : ∀ n, E.millis n < E.millis (n + 1)) :
    ∀ (Fuel PktCount : Nat) (S : Radio_FNT_State),
      msStart ≤ E.millis S.Step → msTimeLen ≤ (E.millis S.Step - msStart) + Fuel → 1 ≤ Fuel →
      ∃ n S1, Radio_RxFANET_Loop MaxBytes E msStart msTimeLen Fuel PktCount S = some (n, S1) ∧
        S1.Tx = S.Tx ∧ S1.FNT_TxFIFO = S.FNT_TxFIFO ∧ S.Step < S1.Step := by
  intro Fuel
  induction Fuel with
  | zero => intro _ _ _ _ h; omega
  | succ f ih =>
      intro PktCount S hStart hFuel _
      have hStep := hMono S.Step
      obtain ⟨hK1, hK2, hK3⟩ := Radio_FANETrxPacket_keeps MaxBytes (E.Rx (S.Step + 1))
        { S with Step := S.Step + 1 }
      have hK1' : (Radio_FANETrxPacket MaxBytes (E.Rx (S.Step + 1))
          { S with Step := S.Step + 1 }).2.Step = S.Step + 1 := hK1
      unfold Radio_RxFANET_Loop
      simp only []
      by_cases hDone : E.millis (Radio_FANETrxPacket MaxBytes (E.Rx (S.Step + 1))
          { S with Step := S.Step + 1 }).2.Step - msStart ≥ msTimeLen
      · rw [if_pos hDone]
        exact ⟨_, _, rfl, hK2, hK3, by rw [hK1']; exact Nat.lt_succ_self _⟩
      · rw [if_neg hDone]
        rw [hK1'] at hDone
        obtain ⟨n, S1, hEq, hTx, hQ, hLt⟩ :=
          ih (PktCount + (Radio_FANETrxPacket MaxBytes (E.Rx (S.Step + 1))
              { S with Step := S.Step + 1 }).1)
            (Radio_FANETrxPacket MaxBytes (E.Rx (S.Step + 1)) { S with Step := S.Step + 1 }).2
            (by rw [hK1']; omega) (by rw [hK1']; omega) (by omega)
        rw [hK1'] at hLt
        exact ⟨n, S1, hEq, by rw [hTx, hK2], by rw [hQ, hK3], by omega⟩

theorem Radio_RxFANET_spec (MaxBytes : Nat) (E : Radio_FNT_Env) (msTimeLen : Nat)
    (hMono : ∀ n, E.millis n < E.millis (n + 1)) (Fuel : Nat) (S : Radio_FNT_State)
    (hFuel : msTimeLen ≤ Fuel) (hOne : 1 ≤ Fuel) :
    ∃ n S1, Radio_RxFANET MaxBytes E msTimeLen Fuel S = some (n, S1) ∧
      S1.Tx = S.Tx ∧ S1.FNT_TxFIFO = S.FNT_TxFIFO ∧ S.Step < S1.Step := by
  obtain ⟨n, S1, hEq, hTx, hQ, hLt⟩ :=
    Radio_RxFANET_Loop_spec MaxBytes E (E.millis S.Step) msTimeLen hMono Fuel 0 S (le_refl _)
      (by omega) hOne
  unfold Radio_RxFANET
  rw [hEq]
  exact ⟨n, _, rfl, hTx, hQ, hLt⟩

/-- C18 (amended): when the waiting loop of the beacon part leaves more than
40 ms before the 400 ms mark (`msTime < 360`), the frame that the scheduler
takes out of `FNT_TxFIFO` is passed to `Radio_FANETslot` and transmitted by
`Radio_TxFANET` in the same cycle: the call returns, the read cursor has
moved past the frame, the frame's bytes are the one transmission added and
the beacon transmit counter is raised by one. -/
theorem Radio_Task_FANET_transmits (MaxBytes : Nat) (XorShift64 getTimeOnAir : Nat → Nat)
    (E : Radio_FNT_Env) (msTime Fuel : Nat) (S : Radio_FNT_State) (Slot : Nat)
    (hMono : ∀ n, E.millis n < E.millis (n + 1))
    (hQueued : S.FNT_TxFIFO.getRead = some Slot) (hTime : msTime < 360) (hFuel : 400 ≤ Fuel) :
    ∃ n S1,
      Radio_Task_FANET MaxBytes XorShift64 getTimeOnAir E msTime Fuel S = some (n, S1) ∧
      S1.FNT_TxFIFO.ReadPtr = S.FNT_TxFIFO.Read.ReadPtr ∧
      S1.Tx.Transmitted = S.Tx.Transmitted ++
        [(S.FNT_TxFIFO.Data.getD Slot default).Byte.take
          (S.FNT_TxFIFO.Data.getD Slot default).Len] ∧
      S1.Tx.Radio_TxCount = S.Tx.Radio_TxCount.set Radio_SysID_FNT
        ((S.Tx.Radio_TxCount.getD Radio_SysID_FNT 0 + 1) % 4294967296) := by
  have hSlot : toInt32 (((400 + 4294967296 - msTime % 4294967296) % 4294967296 : Nat) : Int)
      = ((400 - msTime : Nat) : Int) := by
    unfold toInt32
    omega
  have hData : S.FNT_TxFIFO.Read.Data = S.FNT_TxFIFO.Data := by
    unfold FIFO.Read
    split_ifs <;> rfl
  unfold Radio_Task_FANET
  simp only []
  rw [hSlot, hQueued]
  have hGt : ((400 - msTime : Nat) : Int) > 40 := by omega
  rw [if_pos hGt]
  have hLen : ((400 - msTime : Nat) : Int).toNat % 4294967296 = 400 - msTime := by
    rw [Int.toNat_ofNat]
    omega
  rw [hLen]
  unfold Radio_FANETslot
  simp only [Option.isSome_some, if_true]
  have h35 : 400 - msTime > 35 := by omega
  rw [if_pos h35]
  have hMod : (400 - msTime + 4294967296 - 35) % 4294967296 = 400 - msTime - 35 := by omega
  rw [hMod]
  have hr : XorShift64 (XorShift64 S.RandomWord) % 4294967296 % (400 - msTime - 35)
      < 400 - msTime - 35 := Nat.mod_lt _ (by omega)
  obtain ⟨n1, S2, hEq2, hTx2, hQ2, hLt2⟩ := Radio_RxFANET_spec MaxBytes E
    ((5 + XorShift64 (XorShift64 S.RandomWord) % 4294967296 % (400 - msTime - 35)) % 4294967296)
    hMono Fuel
    (Radio_FNT_State.mk S.Step S.FNT_RxFIFO S.FNT_TxFIFO.Read S.Radio_RxCount
      (XorShift64 (XorShift64 S.RandomWord)) S.Radio_BkgRSSI S.Tx)
    (by omega) (by omega)
  have hTxS2 : S2.Tx = S.Tx := hTx2
  have hQS2 : S2.FNT_TxFIFO = S.FNT_TxFIFO.Read := hQ2
  rw [hEq2]
  simp only []
  by_cases hTail : E.millis (S2.Step + 1) - E.millis S.Step < 400 - msTime
  · rw [if_pos hTail]
    obtain ⟨n2, S4, hEq4, hTx4, hQ4, -⟩ := Radio_RxFANET_spec MaxBytes E
      (400 - msTime - (E.millis (S2.Step + 1) - E.millis S.Step)) hMono Fuel
      (Radio_FNT_State.mk (S2.Step + 1) S2.FNT_RxFIFO
        (FIFO.mk S2.FNT_TxFIFO.Size
          (S2.FNT_TxFIFO.Data.set Slot
            (Radio_TxFANET getTimeOnAir (S2.FNT_TxFIFO.Data.getD Slot default) S2.Tx).1)
          S2.FNT_TxFIFO.ReadPtr S2.FNT_TxFIFO.WritePtr)
        S2.Radio_RxCount S2.RandomWord S2.Radio_BkgRSSI
        (Radio_TxFANET getTimeOnAir (S2.FNT_TxFIFO.Data.getD Slot default) S2.Tx).2)
      (by omega) (by omega)
    rw [hEq4]
    refine ⟨_, S4, rfl, ?_, ?_, ?_⟩
    · rw [hQ4]
      show S2.FNT_TxFIFO.ReadPtr = _
      rw [hQS2]
    · rw [hTx4]
      show (Radio_TxFANET getTimeOnAir (S2.FNT_TxFIFO.Data.getD Slot default) S2.Tx).2.Transmitted
        = _
      rw [hQS2, hTxS2, hData]
      rfl
    · rw [hTx4]
      show (Radio_TxFANET getTimeOnAir (S2.FNT_TxFIFO.Data.getD Slot default) S2.Tx).2.Radio_TxCount
        = _
      rw [hTxS2]
      rfl
  · rw [if_neg hTail]
    refine ⟨_, _, rfl, ?_, ?_, ?_⟩
    · show S2.FNT_TxFIFO.ReadPtr = _
      rw [hQS2]
    · show (Radio_TxFANET getTimeOnAir (S2.FNT_TxFIFO.Data.getD Slot default) S2.Tx).2.Transmitted
        = _
      rw [hQS2, hTxS2, hData]
      rfl
    · show (Radio_TxFANET getTimeOnAir (S2.FNT_TxFIFO.Data.getD Slot default) S2.Tx).2.Radio_TxCount
        = _
      rw [hTxS2]
      rfl

/-- Witness for C18 (amended): the queued sample frame, the waiting loop left
100 ms after the pulse. -/
theorem Radio_Task_FANET_transmits_witness :
    ∃ n S1,
      Radio_Task_FANET 40 (fun w => w) (fun Len => 100 * Len) Radio_FNT_Env_sample 100 400
        Radio_FNT_State_sample = some (n, S1) ∧
      S1.FNT_TxFIFO.ReadPtr = 1 ∧
      S1.Tx.Transmitted = [[0x42, 0x11, 0x22]] ∧
      S1.Tx.Radio_TxCount = [0, 0, 0, 0, 0, 1, 0, 0] :=
  Radio_Task_FANET_transmits 40 (fun w => w) (fun Len => 100 * Len) Radio_FNT_Env_sample 100 400
    Radio_FNT_State_sample 0 (fun n => Nat.lt_succ_self _) rfl (by decide) (by decide)

/-- The relay-queue expiry for a slot time of at least 12 s: the primary
queue is expired against `(T + 48) mod 60` and the ADS-L queue against
`4 * ((T - 12) mod 15)`; both lie in 0..59. -/
theorem CleanRelayQueue_from_12 (T : Nat) (h12 : 12 ≤ T) (h32 : T < 4294967296) :
    CleanRelayQueue T 12 = ((T + 48) % 60, 4 * ((T - 12) % 15)) ∧
    (CleanRelayQueue T 12).1 < 60 ∧ (CleanRelayQueue T 12).2 < 60 := by
  have h : CleanRelayQueue T 12 = ((T + 48) % 60, 4 * ((T - 12) % 15)) := by
    unfold CleanRelayQueue
    simp only [Nat.shiftLeft_eq]
    have h1 : (T % 4294967296 + 4294967296 - 12 % 4294967296) % 4294967296 = T - 12 := by omega
    rw [h1]
    have h2 : (T - 12) % 60 % 256 = (T + 48) % 60 := by omega
    rw [h2]
    have h3 : (T + 48) % 60 % 15 % 256 = (T - 12) % 15 := by omega
    rw [h3]
    have h4 : (T - 12) % 15 * 2 ^ 2 % 256 = 4 * ((T - 12) % 15) := by omega
    rw [h4]
  rw [h]
  refine ⟨rfl, ?_, ?_⟩
  · exact Nat.mod_lt _ (by norm_num)
  · show 4 * ((T - 12) % 15) < 60
    omega

/-- C24 (the code as it is): for a slot time below 12 s the `uint32_t`
difference `Time-=Delay` wraps, and `CleanRelayQueue` expires the primary
relay queue against `(T + 4) mod 60` and the ADS-L queue against
`4 * ((T + 4) mod 15)`, not against the second 12 s before `T`. -/
theorem CleanRelayQueue_wraps_below_12 (T : Nat) (h12 : T < 12) :
    CleanRelayQueue T 12 = ((T + 4) % 60, 4 * ((T + 4) % 15)) ∧
    (CleanRelayQueue T 12).1 ≠ (T + 48) % 60 := by
  have h : CleanRelayQueue T 12 = ((T + 4) % 60, 4 * ((T + 4) % 15)) := by
    unfold CleanRelayQueue
    simp only [Nat.shiftLeft_eq]
    have h1 : (T % 4294967296 + 4294967296 - 12 % 4294967296) % 4294967296
        = T + 4294967284 := by omega
    rw [h1]
    have h2 : (T + 4294967284) % 60 % 256 = (T + 4) % 60 := by omega
    rw [h2]
    have h3 : (T + 4) % 60 % 15 % 256 = (T + 4) % 15 := by omega
    rw [h3]
    have h4 : (T + 4) % 15 * 2 ^ 2 % 256 = 4 * ((T + 4) % 15) := by omega
    rw [h4]
  rw [h]
  refine ⟨rfl, ?_⟩
  show (T + 4) % 60 ≠ (T + 48) % 60
  omega

/-- Witness for C24: slot time 5. -/
theorem CleanRelayQueue_wraps_below_12_witness :
    CleanRelayQueue 5 12 = (9, 36) ∧ (CleanRelayQueue 5 12).1 ≠ (5 + 48) % 60 :=
  CleanRelayQueue_wraps_below_12 5 (by decide)

/-- C27 (the code as it is): once the time since the pulse has passed the
nominal end of a slot (more than 800 ms for slot A, more than 1200 ms for
slot B), the `uint32_t` difference wraps and `Radio_Task` gives the slot the
full 480 ms, not 250 ms. -/
theorem Radio_Task_SlotLen_wraps (F : FreqPlan) (H : Hash_Lib) (UTC : Nat) (TxPower : Int)
    (First : Bool) (msTime : Nat) (OgnPacket AdslPacket : Option Nat)
    (hLate : (if First then 800 else 1200) < msTime) (h32 : msTime < 4294967296) :
    (Radio_Task_SlotCall F H UTC TxPower First msTime OgnPacket AdslPacket).msTimeLen = 480 := by
  have hLen : (Radio_Task_SlotCall F H UTC TxPower First msTime OgnPacket AdslPacket).msTimeLen
      = Radio_Task_ClampSlotLen
          (((if First then 800 else 1200) + 2 ^ 32 - msTime % 2 ^ 32) % 2 ^ 32) := by
    unfold Radio_Task_SlotCall
    simp only []
    split_ifs <;> rfl
  rw [hLen]
  unfold Radio_Task_ClampSlotLen
  cases First
  · simp only [Bool.false_eq_true, if_false] at hLate ⊢
    split_ifs <;> omega
  · simp only [if_true] at hLate ⊢
    split_ifs <;> omega

/-- Witness for C27: slot A read 801 ms after the pulse. -/
theorem Radio_Task_SlotLen_wraps_witness :
    (Radio_Task_SlotCall FreqPlan_sample Hash_Lib_sample 1700000000 14 true 801 (some 0)
      none).msTimeLen = 480 :=
  Radio_Task_SlotLen_wraps FreqPlan_sample Hash_Lib_sample 1700000000 14 true 801 (some 0) none
    (by decide) (by decide)

/-- The slot length while the nominal end of the slot has not passed: the
time left, `800 - t` for slot A and `1200 - t` for slot B, clamped into
250..480. -/
theorem Radio_Task_SlotLen_in_time (F : FreqPlan) (H : Hash_Lib) (UTC : Nat) (TxPower : Int)
    (First : Bool) (msTime : Nat) (OgnPacket AdslPacket : Option Nat)
    (hTime : msTime ≤ (if First then 800 else 1200)) :
    (Radio_Task_SlotCall F H UTC TxPower First msTime OgnPacket AdslPacket).msTimeLen
      = max 250 (min 480 ((if First then 800 else 1200) - msTime)) := by
  have hLen : (Radio_Task_SlotCall F H UTC TxPower First msTime OgnPacket AdslPacket).msTimeLen
      = Radio_Task_ClampSlotLen
          (((if First then 800 else 1200) + 2 ^ 32 - msTime % 2 ^ 32) % 2 ^ 32) := by
    unfold Radio_Task_SlotCall
    simp only []
    split_ifs <;> rfl
  rw [hLen]
  unfold Radio_Task_ClampSlotLen
  cases First
  · simp only [Bool.false_eq_true, if_false] at hTime ⊢
    split_ifs <;> omega
  · simp only [if_true] at hTime ⊢
    split_ifs <;> omega

/-- C28 (the code as it is): for every configured power below 4 dBm the
difference `Parameters.TxPower-4` wraps in the `uint8_t` and `ReadStatus`
reports the field 15, the same as for 19 dBm and more, not 0. -/
theorem ReadStatus_TxPower_wraps (TxPower : Int) (hLo : -128 ≤ TxPower) (hHi : TxPower < 4) :
    ReadStatus_TxPower TxPower = 15 := by
  unfold ReadStatus_TxPower toInt8
  simp only []
  have h : ((TxPower + 128) % 256 - 128 - 4) % 256 = TxPower + 252 := by omega
  rw [h]
  have h2 : (TxPower + 252).toNat > 15 := by omega
  rw [if_pos h2]

/-- Witness for C28: a configured power of 0 dBm is reported as 15, above
the 0 reported for 4 dBm. -/
theorem ReadStatus_TxPower_wraps_witness :
    ReadStatus_TxPower 0 = 15 ∧ ReadStatus_TxPower 4 = 0 :=
  ⟨ReadStatus_TxPower_wraps 0 (by decide) (by decide), by decide⟩

/-- The transmit-power field for a configured power from 4 dBm up: the power
less 4, at most 15. -/
theorem ReadStatus_TxPower_from_4 (TxPower : Int) (hLo : 4 ≤ TxPower) (hHi : TxPower ≤ 127) :
    (ReadStatus_TxPower TxPower : Int) = min (TxPower - 4) 15 := by
  unfold ReadStatus_TxPower toInt8
  simp only []
  have h : ((TxPower + 128) % 256 - 128 - 4) % 256 = TxPower - 4 := by omega
  rw [h]
  split_ifs with h2
  · rw [min_eq_right (by omega)]
    rfl
  · rw [min_eq_left (by omega)]
    omega

theorem ReadStatus_RxRate_Loop_spec :
    ∀ (f RxRate RxRateLog2 : Nat), RxRate < 2 ^ f → RxRateLog2 + f < 256 →
      ReadStatus_RxRate_Loop (f + 1) RxRate RxRateLog2
        = some (RxRateLog2 + (if RxRate = 0 then 0 else Nat.log 2 RxRate + 1)) := by
  intro f
  induction f with
  | zero =>
      intro r l hr _
      have h0 : r = 0 := by simpa using hr
      subst h0
      simp [ReadStatus_RxRate_Loop]
  | succ f ih =>
      intro r l hr hl
      unfold ReadStatus_RxRate_Loop
      by_cases h0 : r = 0
      · subst h0
        simp
      · have hne : r ≠ 0 := h0
        rw [if_pos hne, if_neg h0]
        have hShift : r >>> 1 = r / 2 := by simp [Nat.shiftRight_eq_div_pow]
        have hlt : r / 2 < 2 ^ f := by
          rw [Nat.pow_succ] at hr
          omega
        have hmod : (l + 1) % 256 = l + 1 := Nat.mod_eq_of_lt (by omega)
        rw [hShift, hmod, ih (r / 2) (l + 1) hlt (by omega)]
        by_cases h1 : r / 2 = 0
        · have hlog : Nat.log 2 r = 0 := Nat.log_of_lt (by omega)
          rw [if_pos h1, hlog]
        · have hlog : Nat.log 2 r = Nat.log 2 (r / 2) + 1 :=
            Nat.log_of_one_lt_of_le (by norm_num) (by omega)
          rw [if_neg h1, hlog]
          congr 1
          omega

/-- C29: for every 16-bit `RxRate` of at least 1 the shift loop of `ReadStatus`
leaves its exit within 17 tests of its condition, and the stored field is
the binary logarithm rounded down: the `r` in 0..15 with
`2^r <= RxRate < 2^(r+1)`. -/
theorem ReadStatus_RxRate_log2 (RxRate : Nat) (h1 : 1 ≤ RxRate) (h16 : RxRate < 65536) :
    ∃ r, ReadStatus_RxRate 17 RxRate = some r ∧ r = Nat.log 2 RxRate ∧ r ≤ 15 ∧
      2 ^ r ≤ RxRate ∧ RxRate < 2 ^ (r + 1) := by
  have hLog : Nat.log 2 RxRate < 16 :=
    Nat.log_lt_of_lt_pow (by omega) (lt_of_lt_of_eq h16 (by norm_num))
  refine ⟨Nat.log 2 RxRate, ?_, rfl, by omega, Nat.pow_log_le_self 2 (by omega),
    Nat.lt_pow_succ_log_self (by norm_num) RxRate⟩
  unfold ReadStatus_RxRate
  have hShift : (RxRate % 65536) >>> 1 = RxRate / 2 := by
    simp [Nat.shiftRight_eq_div_pow, Nat.mod_eq_of_lt h16]
  rw [hShift, ReadStatus_RxRate_Loop_spec 16 (RxRate / 2) 0 (by norm_num; omega) (by norm_num)]
  by_cases h0 : RxRate / 2 = 0
  · have hlog : Nat.log 2 RxRate = 0 := Nat.log_of_lt (by omega)
    rw [if_pos h0, hlog]
  · have hlog : Nat.log 2 RxRate = Nat.log 2 (RxRate / 2) + 1 :=
      Nat.log_of_one_lt_of_le (by norm_num) (by omega)
    rw [if_neg h0, hlog, Nat.zero_add]

/-- Witness for C29: a rate value of 1000 is stored as 9. -/
theorem ReadStatus_RxRate_log2_witness :
    ∃ r, ReadStatus_RxRate 17 1000 = some r ∧ r = Nat.log 2 1000 ∧ r ≤ 15 ∧
      2 ^ r ≤ 1000 ∧ 1000 < 2 ^ (r + 1) :=
  ReadStatus_RxRate_log2 1000 (by decide) (by decide)

/-- An evaluation of the shift loop: the rate values 1, 2, 3, 1000 and 65535
are stored as 0, 1, 1, 9 and 15. -/
theorem ReadStatus_RxRate_sample :
    [1, 2, 3, 1000, 65535].map (ReadStatus_RxRate 17) = [some 0, some 1, some 1, some 9, some 15] := by
  decide

/-- C30: for every requested power and every gain, the power that
`Radio_ConfigTxPower` hands to `Radio.setOutputPower` is the request less
`Radio_TxPwrGain`, clamped into 0..22 dBm on the SX1262 and into 0..20 dBm
on the SX1276; it is the gain-corrected request itself whenever that lies
in the range. -/
theorem Radio_ConfigTxPower_clamped (WITH_SX1262 : Bool) (Radio_TxPwrGain TxPower : ℚ) :
    Radio_ConfigTxPower WITH_SX1262 Radio_TxPwrGain TxPower
      = max 0 (min (if WITH_SX1262 then 22 else 20) (TxPower - Radio_TxPwrGain)) ∧
    0 ≤ Radio_ConfigTxPower WITH_SX1262 Radio_TxPwrGain TxPower ∧
    Radio_ConfigTxPower WITH_SX1262 Radio_TxPwrGain TxPower ≤ (if WITH_SX1262 then 22 else 20) ∧
    (0 ≤ TxPower - Radio_TxPwrGain →
      TxPower - Radio_TxPwrGain ≤ (if WITH_SX1262 then 22 else 20) →
      Radio_ConfigTxPower WITH_SX1262 Radio_TxPwrGain TxPower = TxPower - Radio_TxPwrGain) := by
  unfold Radio_ConfigTxPower
  simp only []
  generalize TxPower - Radio_TxPwrGain = p
  cases WITH_SX1262
  · simp only [Bool.false_eq_true, if_false]
    by_cases h0 : p < 0
    · rw [if_pos h0]
      refine ⟨?_, le_refl _, by norm_num, ?_⟩
      · rw [max_eq_left]
        exact le_trans (min_le_right _ _) (le_of_lt h0)
      · intro h; exact absurd h (not_le.mpr h0)
    · rw [if_neg h0]
      have hp : 0 ≤ p := not_lt.mp h0
      by_cases h20 : p > 20
      · rw [if_pos h20]
        refine ⟨?_, by norm_num, le_refl _, ?_⟩
        · rw [min_eq_left (le_of_lt h20), max_eq_right (by norm_num)]
        · intro _ h; exact absurd h (not_le.mpr h20)
      · rw [if_neg h20]
        have hle : p ≤ 20 := not_lt.mp h20
        exact ⟨by rw [min_eq_right hle, max_eq_right hp], hp, hle, fun _ _ => rfl⟩
  · simp only [if_true]
    by_cases h0 : p < 0
    · rw [if_pos h0]
      refine ⟨?_, le_refl _, by norm_num, ?_⟩
      · rw [max_eq_left]
        exact le_trans (min_le_right _ _) (le_of_lt h0)
      · intro h; exact absurd h (not_le.mpr h0)
    · rw [if_neg h0]
      have hp : 0 ≤ p := not_lt.mp h0
      by_cases h22 : p > 22
      · rw [if_pos h22]
        refine ⟨?_, by norm_num, le_refl _, ?_⟩
        · rw [min_eq_left (le_of_lt h22), max_eq_right (by norm_num)]
        · intro _ h; exact absurd h (not_le.mpr h22)
      · rw [if_neg h22]
        have hle : p ≤ 22 := not_lt.mp h22
        exact ⟨by rw [min_eq_right hle, max_eq_right hp], hp, hle, fun _ _ => rfl⟩

/-- Evaluations of the power clamp: the boosted request 14 + 13 = 27 dBm
becomes 22 dBm on the SX1262 and 20 dBm on the SX1276, a request of 14 dBm
behind an amplifier of 3 dB becomes 11 dBm, and a request below the gain
becomes 0. -/
theorem Radio_ConfigTxPower_sample :
    Radio_ConfigTxPower true 0 27 = 22 ∧ Radio_ConfigTxPower false 0 27 = 20 ∧
    Radio_ConfigTxPower true 3 14 = 11 ∧ Radio_ConfigTxPower false 3 2 = 0 := by
  unfold Radio_ConfigTxPower
  norm_num

theorem Nat_and_one_le (x : Nat) : x &&& 1 ≤ 1 := by
  rw [Nat.and_one_is_mod]
  omega

theorem FIFO_Full_succ (W R N : Nat) (hR : R < N) (hW : W < N) (hFree : (W + 1) % N ≠ R) :
    ((W + 1) % N + N - R) % N = (W + N - R) % N + 1 := by
  by_cases h1 : W + 1 < N
  · rw [Nat.mod_eq_of_lt h1] at hFree ⊢
    by_cases h2 : R ≤ W
    · have e1 : W + N - R = (W - R) + N := by omega
      have e2 : W + 1 + N - R = (W + 1 - R) + N := by omega
      rw [e1, e2, Nat.add_mod_right, Nat.add_mod_right,
        Nat.mod_eq_of_lt (by omega : W + 1 - R < N), Nat.mod_eq_of_lt (by omega : W - R < N)]
      omega
    · rw [Nat.mod_eq_of_lt (by omega : W + 1 + N - R < N),
        Nat.mod_eq_of_lt (by omega : W + N - R < N)]
      omega
  · have hN : W + 1 = N := by omega
    rw [hN, Nat.mod_self] at hFree
    rw [hN, Nat.mod_self]
    have e1 : W + N - R = (W - R) + N := by omega
    rw [e1, Nat.add_mod_right, Nat.mod_eq_of_lt (by omega : 0 + N - R < N),
      Nat.mod_eq_of_lt (by omega : W - R < N)]
    omega

/-- The two outcomes of a store through `getWrite()` followed by `Write()`.
In a queue with room the slot under the old write cursor holds the packet,
the write cursor has moved on and the occupancy is up by one; in a full
queue `Write()` is refused: both cursors and the occupancy stay. -/
theorem FIFO_setWrite_Write_spec {α : Type} (Q : FIFO α) (x : α) :
    (Q.WF → (Q.WritePtr + 1) % Q.Size ≠ Q.ReadPtr →
      (Q.setWrite x).Write.Data[Q.WritePtr]? = some x ∧
      (Q.setWrite x).Write.WritePtr = (Q.WritePtr + 1) % Q.Size ∧
      (Q.setWrite x).Write.ReadPtr = Q.ReadPtr ∧
      (Q.setWrite x).Write.Full = Q.Full + 1) ∧
    ((Q.WritePtr + 1) % Q.Size = Q.ReadPtr →
      (Q.setWrite x).Write.WritePtr = Q.WritePtr ∧
      (Q.setWrite x).Write.ReadPtr = Q.ReadPtr ∧
      (Q.setWrite x).Write.Full = Q.Full) := by
  constructor
  · intro hWF hFree
    obtain ⟨hLen, hR, hW⟩ := hWF
    have hIdx : Q.WritePtr < Q.Data.length := by omega
    have hEq : (Q.setWrite x).Write
        = { Q.setWrite x with WritePtr := (Q.WritePtr + 1) % Q.Size } := by
      simp [FIFO.Write, FIFO.setWrite, hFree]
    rw [hEq]
    refine ⟨by simp [FIFO.setWrite, List.getElem?_set_self hIdx], rfl, rfl, ?_⟩
    exact FIFO_Full_succ Q.WritePtr Q.ReadPtr Q.Size hR hW hFree
  · intro hFull
    have hEq : (Q.setWrite x).Write = Q.setWrite x := by
      simp [FIFO.Write, FIFO.setWrite, hFull]
    rw [hEq]
    exact ⟨rfl, rfl, rfl⟩

theorem vTaskPROC_Position_commits (B : PROC_Build) (L : OGN_Lib) (XorShift32 : Nat → Nat)
    (P : Parameters) (Encoded : List Nat) (UnixTime : Nat) (AverSpeed Radio_TxCredit : Int)
    (S : PROC_State) (hBack : S.TxBackOff = 0) :
    (vTaskPROC_Position B L XorShift32 P Encoded UnixTime AverSpeed Radio_TxCredit S).OGN_TxFIFO
      = (S.OGN_TxFIFO.setWrite (vTaskPROC_Position_TxPacket B L P
          { Header := vTaskPROC_Position_Header B L P, Data := Encoded })).Write := by
  unfold vTaskPROC_Position vTaskPROC_Position_TxPacket vTaskPROC_Position_Header
  simp only [hBack, ne_eq, not_true_eq_false, if_false]

theorem vTaskPROC_AdslPosition_commits (A : ADSL_Lib) (XorShift32 : Nat → Nat) (F : FreqPlan)
    (P : Parameters) (Encoded : ADSL_Packet) (AverSpeed Radio_TxCredit : Int)
    (S : PROC_AdslPosState) (hBack : S.TxBackOff = 0) (hPlan : F.Plan ≤ 1) :
    (vTaskPROC_AdslPosition A XorShift32 F P Encoded AverSpeed Radio_TxCredit S).ADSL_TxFIFO
      = (S.ADSL_TxFIFO.setWrite (A.setCRC (A.Scramble Encoded))).Write := by
  unfold vTaskPROC_AdslPosition
  simp only [hBack, ne_eq, not_true_eq_false, if_false, hPlan, if_true]

theorem vTaskPROC_Position_backoff (B : PROC_Build) (L : OGN_Lib) (A : ADSL_Lib)
    (XorShift32 : Nat → Nat) (F : FreqPlan) (P : Parameters) (Encoded : List Nat)
    (AdslEncoded : ADSL_Packet) (UnixTime : Nat) (AverSpeed Credit0 Credit1 : Int)
    (S : PROC_State) (SA : PROC_AdslPosState)
    (hBack : S.TxBackOff = 0) (hAdslBack : SA.TxBackOff = 0) (hPlan : F.Plan ≤ 1)
    (hCredit0 : Credit0 ≤ 0) (hCredit1 : 0 < Credit1) :
    ((vTaskPROC_Position B L XorShift32 P Encoded UnixTime AverSpeed Credit0 S).TxBackOff
      = (vTaskPROC_Position B L XorShift32 P Encoded UnixTime AverSpeed Credit1 S).TxBackOff + 1 ∧
    (vTaskPROC_Position B L XorShift32 P Encoded UnixTime AverSpeed Credit1 S).TxBackOff
      = (if AverSpeed < 10 ∧ ¬ (P.AcftType = 3 ∨ (0xB ≤ P.AcftType ∧ P.AcftType ≤ 0xD))
          then 3 + (XorShift32 S.RandomRX &&& 0x1) else 0) ∧
    ((vTaskPROC_Position B L XorShift32 P Encoded UnixTime AverSpeed Credit1 S).TxBackOff = 0 ∨
     (vTaskPROC_Position B L XorShift32 P Encoded UnixTime AverSpeed Credit1 S).TxBackOff = 3 ∨
     (vTaskPROC_Position B L XorShift32 P Encoded UnixTime AverSpeed Credit1 S).TxBackOff = 4)) ∧
    ((vTaskPROC_AdslPosition A XorShift32 F P AdslEncoded AverSpeed Credit0 SA).TxBackOff
      = (vTaskPROC_AdslPosition A XorShift32 F P AdslEncoded AverSpeed Credit1 SA).TxBackOff + 1 ∧
    (vTaskPROC_AdslPosition A XorShift32 F P AdslEncoded AverSpeed Credit1 SA).TxBackOff
      = (if AverSpeed < 10 ∧ ¬ (P.AcftType = 3 ∨ (0xB ≤ P.AcftType ∧ P.AcftType ≤ 0xD))
          then 3 + (XorShift32 SA.RandomRX &&& 0x1) else 0) ∧
    ((vTaskPROC_AdslPosition A XorShift32 F P AdslEncoded AverSpeed Credit1 SA).TxBackOff = 0 ∨
     (vTaskPROC_AdslPosition A XorShift32 F P AdslEncoded AverSpeed Credit1 SA).TxBackOff = 3 ∨
     (vTaskPROC_AdslPosition A XorShift32 F P AdslEncoded AverSpeed Credit1 SA).TxBackOff = 4)) := by
  have hC1 : ¬ Credit1 ≤ 0 := not_le.mpr hCredit1
  have hO := Nat_and_one_le (XorShift32 S.RandomRX)
  have hA := Nat_and_one_le (XorShift32 SA.RandomRX)
  have hO2 : XorShift32 S.RandomRX &&& 1 = 0 ∨ XorShift32 S.RandomRX &&& 1 = 1 := by omega
  have hA2 : XorShift32 SA.RandomRX &&& 1 = 0 ∨ XorShift32 SA.RandomRX &&& 1 = 1 := by omega
  unfold vTaskPROC_Position vTaskPROC_AdslPosition
  simp only [hBack, hAdslBack, ne_eq, not_true_eq_false, if_false, hPlan, if_true, hCredit0, hC1,
    decide_eq_false_iff_not, Nat.zero_add]
  refine ⟨⟨?_, ?_, ?_⟩, ?_, ?_, ?_⟩
  · split_ifs <;> omega
  · split_ifs <;> omega
  · split_ifs
    · rcases hO2 with h | h <;> simp [h]
    · simp
  · split_ifs <;> omega
  · split_ifs <;> omega
  · split_ifs
    · rcases hA2 with h | h <;> simp [h]
    · simp

/-- C21: when `vTaskPROC` reaches a position with its back-off at 0, the
outcome for the transmit queue is the same with a transmit credit of zero or
less as with a positive credit: the position packet (header of this device,
payload encrypted or whitened, FEC words) is stored in the slot under the
write cursor and `Write()` is called.  In a queue with room that slot then
holds the packet, the write cursor has moved on and the occupancy is up by
one; only in a full queue, where `Write()` is refused, do the cursors and the
occupancy stay.  With a credit of zero or less the new back-off is exactly
one more than with a positive credit, where it is 0, or 3 or 4 for a
stationary aircraft that is not a helicopter, balloon or drone.  The same
holds for the ADS-L position packet (scrambled, with its CRC) under
frequency plan 0 or 1. -/
theorem vTaskPROC_Position_credit_adds_one (B : PROC_Build) (L : OGN_Lib) (A : ADSL_Lib)
    (XorShift32 : Nat → Nat) (F : FreqPlan) (P : Parameters) (Encoded : List Nat)
    (AdslEncoded : ADSL_Packet) (UnixTime : Nat) (AverSpeed Credit0 Credit1 : Int)
    (S : PROC_State) (SA : PROC_AdslPosState)
    (hBack : S.TxBackOff = 0) (hAdslBack : SA.TxBackOff = 0) (hPlan : F.Plan ≤ 1)
    (hCredit0 : Credit0 ≤ 0) (hCredit1 : 0 < Credit1) :
    ((vTaskPROC_Position B L XorShift32 P Encoded UnixTime AverSpeed Credit0 S).OGN_TxFIFO
        = (S.OGN_TxFIFO.setWrite (vTaskPROC_Position_TxPacket B L P
            { Header := vTaskPROC_Position_Header B L P, Data := Encoded })).Write ∧
      (vTaskPROC_Position B L XorShift32 P Encoded UnixTime AverSpeed Credit1 S).OGN_TxFIFO
        = (vTaskPROC_Position B L XorShift32 P Encoded UnixTime AverSpeed Credit0 S).OGN_TxFIFO ∧
      (S.OGN_TxFIFO.WF → (S.OGN_TxFIFO.WritePtr + 1) % S.OGN_TxFIFO.Size ≠ S.OGN_TxFIFO.ReadPtr →
        (vTaskPROC_Position B L XorShift32 P Encoded UnixTime AverSpeed Credit0
            S).OGN_TxFIFO.Data[S.OGN_TxFIFO.WritePtr]?
          = some (vTaskPROC_Position_TxPacket B L P
              { Header := vTaskPROC_Position_Header B L P, Data := Encoded }) ∧
        (vTaskPROC_Position B L XorShift32 P Encoded UnixTime AverSpeed Credit0
            S).OGN_TxFIFO.WritePtr = (S.OGN_TxFIFO.WritePtr + 1) % S.OGN_TxFIFO.Size ∧
        (vTaskPROC_Position B L XorShift32 P Encoded UnixTime AverSpeed Credit0
            S).OGN_TxFIFO.ReadPtr = S.OGN_TxFIFO.ReadPtr ∧
        (vTaskPROC_Position B L XorShift32 P Encoded UnixTime AverSpeed Credit0
            S).OGN_TxFIFO.Full = S.OGN_TxFIFO.Full + 1) ∧
      ((S.OGN_TxFIFO.WritePtr + 1) % S.OGN_TxFIFO.Size = S.OGN_TxFIFO.ReadPtr →
        (vTaskPROC_Position B L XorShift32 P Encoded UnixTime AverSpeed Credit0
            S).OGN_TxFIFO.WritePtr = S.OGN_TxFIFO.WritePtr ∧
        (vTaskPROC_Position B L XorShift32 P Encoded UnixTime AverSpeed Credit0
            S).OGN_TxFIFO.ReadPtr = S.OGN_TxFIFO.ReadPtr ∧
        (vTaskPROC_Position B L XorShift32 P Encoded UnixTime AverSpeed Credit0
            S).OGN_TxFIFO.Full = S.OGN_TxFIFO.Full)) ∧
    ((vTaskPROC_Position B L XorShift32 P Encoded UnixTime AverSpeed Credit0 S).TxBackOff
      = (vTaskPROC_Position B L XorShift32 P Encoded UnixTime AverSpeed Credit1 S).TxBackOff + 1 ∧
    (vTaskPROC_Position B L XorShift32 P Encoded UnixTime AverSpeed Credit1 S).TxBackOff
      = (if AverSpeed < 10 ∧ ¬ (P.AcftType = 3 ∨ (0xB ≤ P.AcftType ∧ P.AcftType ≤ 0xD))
          then 3 + (XorShift32 S.RandomRX &&& 0x1) else 0) ∧
    ((vTaskPROC_Position B L XorShift32 P Encoded UnixTime AverSpeed Credit1 S).TxBackOff = 0 ∨
     (vTaskPROC_Position B L XorShift32 P Encoded UnixTime AverSpeed Credit1 S).TxBackOff = 3 ∨
     (vTaskPROC_Position B L XorShift32 P Encoded UnixTime AverSpeed Credit1 S).TxBackOff = 4)) ∧
    ((vTaskPROC_AdslPosition A XorShift32 F P AdslEncoded AverSpeed Credit0 SA).ADSL_TxFIFO
        = (SA.ADSL_TxFIFO.setWrite (A.setCRC (A.Scramble AdslEncoded))).Write ∧
      (vTaskPROC_AdslPosition A XorShift32 F P AdslEncoded AverSpeed Credit1 SA).ADSL_TxFIFO
        = (vTaskPROC_AdslPosition A XorShift32 F P AdslEncoded AverSpeed Credit0 SA).ADSL_TxFIFO ∧
      (SA.ADSL_TxFIFO.WF →
        (SA.ADSL_TxFIFO.WritePtr + 1) % SA.ADSL_TxFIFO.Size ≠ SA.ADSL_TxFIFO.ReadPtr →
        (vTaskPROC_AdslPosition A XorShift32 F P AdslEncoded AverSpeed Credit0
            SA).ADSL_TxFIFO.Data[SA.ADSL_TxFIFO.WritePtr]?
          = some (A.setCRC (A.Scramble AdslEncoded)) ∧
        (vTaskPROC_AdslPosition A XorShift32 F P AdslEncoded AverSpeed Credit0
            SA).ADSL_TxFIFO.WritePtr = (SA.ADSL_TxFIFO.WritePtr + 1) % SA.ADSL_TxFIFO.Size ∧
        (vTaskPROC_AdslPosition A XorShift32 F P AdslEncoded AverSpeed Credit0
            SA).ADSL_TxFIFO.ReadPtr = SA.ADSL_TxFIFO.ReadPtr ∧
        (vTaskPROC_AdslPosition A XorShift32 F P AdslEncoded AverSpeed Credit0
            SA).ADSL_TxFIFO.Full = SA.ADSL_TxFIFO.Full + 1) ∧
      ((SA.ADSL_TxFIFO.WritePtr + 1) % SA.ADSL_TxFIFO.Size = SA.ADSL_TxFIFO.ReadPtr →
        (vTaskPROC_AdslPosition A XorShift32 F P AdslEncoded AverSpeed Credit0
            SA).ADSL_TxFIFO.WritePtr = SA.ADSL_TxFIFO.WritePtr ∧
        (vTaskPROC_AdslPosition A XorShift32 F P AdslEncoded AverSpeed Credit0
            SA).ADSL_TxFIFO.ReadPtr = SA.ADSL_TxFIFO.ReadPtr ∧
        (vTaskPROC_AdslPosition A XorShift32 F P AdslEncoded AverSpeed Credit0
            SA).ADSL_TxFIFO.Full = SA.ADSL_TxFIFO.Full)) ∧
    ((vTaskPROC_AdslPosition A XorShift32 F P AdslEncoded AverSpeed Credit0 SA).TxBackOff
      = (vTaskPROC_AdslPosition A XorShift32 F P AdslEncoded AverSpeed Credit1 SA).TxBackOff + 1 ∧
    (vTaskPROC_AdslPosition A XorShift32 F P AdslEncoded AverSpeed Credit1 SA).TxBackOff
      = (if AverSpeed < 10 ∧ ¬ (P.AcftType = 3 ∨ (0xB ≤ P.AcftType ∧ P.AcftType ≤ 0xD))
          then 3 + (XorShift32 SA.RandomRX &&& 0x1) else 0) ∧
    ((vTaskPROC_AdslPosition A XorShift32 F P AdslEncoded AverSpeed Credit1 SA).TxBackOff = 0 ∨
     (vTaskPROC_AdslPosition A XorShift32 F P AdslEncoded AverSpeed Credit1 SA).TxBackOff = 3 ∨
     (vTaskPROC_AdslPosition A XorShift32 F P AdslEncoded AverSpeed Credit1 SA).TxBackOff = 4)) := by
  have hQ0 := vTaskPROC_Position_commits B L XorShift32 P Encoded UnixTime AverSpeed Credit0 S
    hBack
  have hQ1 := vTaskPROC_Position_commits B L XorShift32 P Encoded UnixTime AverSpeed Credit1 S
    hBack
  have hA0 := vTaskPROC_AdslPosition_commits A XorShift32 F P AdslEncoded AverSpeed Credit0 SA
    hAdslBack hPlan
  have hA1 := vTaskPROC_AdslPosition_commits A XorShift32 F P AdslEncoded AverSpeed Credit1 SA
    hAdslBack hPlan
  obtain ⟨hBO, hBA⟩ := vTaskPROC_Position_backoff B L A XorShift32 F P Encoded AdslEncoded
    UnixTime AverSpeed Credit0 Credit1 S SA hBack hAdslBack hPlan hCredit0 hCredit1
  have hFO := FIFO_setWrite_Write_spec S.OGN_TxFIFO (vTaskPROC_Position_TxPacket B L P
    { Header := vTaskPROC_Position_Header B L P, Data := Encoded })
  have hFA := FIFO_setWrite_Write_spec SA.ADSL_TxFIFO (A.setCRC (A.Scramble AdslEncoded))
  refine ⟨⟨hQ0, by rw [hQ1, hQ0], ?_, ?_⟩, hBO, ⟨hA0, by rw [hA1, hA0], ?_, ?_⟩, hBA⟩
  · rw [hQ0]
    exact hFO.1
  · rw [hQ0]
    exact hFO.2
  · rw [hA0]
    exact hFA.1
  · rw [hA0]
    exact hFA.2

/-- Witness for C21: a stationary glider at start-up with empty queues, with
credit -5 against credit 100: on both protocols the packet is in slot 0, the
occupancy is 1 and the back-off is one more than with credit. -/
theorem vTaskPROC_Position_credit_adds_one_witness :
    ((vTaskPROC_Position PROC_Build_sample OGN_Lib_sample XorShift32_sample Parameters_sample
          [1, 2, 3, 4] 1700000000 0 (-5)
          (PROC_State_start 1)).OGN_TxFIFO.Data[(PROC_State_start 1).OGN_TxFIFO.WritePtr]?
        = some (vTaskPROC_Position_TxPacket PROC_Build_sample OGN_Lib_sample Parameters_sample
            { Header := vTaskPROC_Position_Header PROC_Build_sample OGN_Lib_sample
                Parameters_sample
              Data := [1, 2, 3, 4] }) ∧
      (vTaskPROC_Position PROC_Build_sample OGN_Lib_sample XorShift32_sample Parameters_sample
          [1, 2, 3, 4] 1700000000 0 (-5) (PROC_State_start 1)).OGN_TxFIFO.Full
        = (PROC_State_start 1).OGN_TxFIFO.Full + 1) ∧
    (vTaskPROC_Position PROC_Build_sample OGN_Lib_sample XorShift32_sample Parameters_sample
        [1, 2, 3, 4] 1700000000 0 (-5) (PROC_State_start 1)).TxBackOff
      = (vTaskPROC_Position PROC_Build_sample OGN_Lib_sample XorShift32_sample Parameters_sample
        [1, 2, 3, 4] 1700000000 0 100 (PROC_State_start 1)).TxBackOff + 1 ∧
    ((vTaskPROC_AdslPosition ADSL_Lib_sample XorShift32_sample FreqPlan_sample Parameters_sample
          default 0 (-5)
          (PROC_AdslPosState_start 1)).ADSL_TxFIFO.Data[
            (PROC_AdslPosState_start 1).ADSL_TxFIFO.WritePtr]?
        = some (ADSL_Lib_sample.setCRC (ADSL_Lib_sample.Scramble default)) ∧
      (vTaskPROC_AdslPosition ADSL_Lib_sample XorShift32_sample FreqPlan_sample Parameters_sample
          default 0 (-5) (PROC_AdslPosState_start 1)).ADSL_TxFIFO.Full
        = (PROC_AdslPosState_start 1).ADSL_TxFIFO.Full + 1) ∧
    (vTaskPROC_AdslPosition ADSL_Lib_sample XorShift32_sample FreqPlan_sample Parameters_sample
        default 0 (-5) (PROC_AdslPosState_start 1)).TxBackOff
      = (vTaskPROC_AdslPosition ADSL_Lib_sample XorShift32_sample FreqPlan_sample Parameters_sample
        default 0 100 (PROC_AdslPosState_start 1)).TxBackOff + 1 :=
  have h := vTaskPROC_Position_credit_adds_one PROC_Build_sample OGN_Lib_sample ADSL_Lib_sample
    XorShift32_sample FreqPlan_sample Parameters_sample [1, 2, 3, 4] default 1700000000 0 (-5) 100
    (PROC_State_start 1) (PROC_AdslPosState_start 1) rfl rfl (by decide) (by decide) (by decide)
  have hO := h.1.2.2.1 ⟨by decide, by decide, by decide⟩ (by decide)
  have hA := h.2.2.1.2.2.1 ⟨by decide, by decide, by decide⟩ (by decide)
  ⟨⟨hO.1, hO.2.2.2⟩, h.2.1.1, ⟨hA.1, hA.2.2.2⟩, h.2.2.2.1⟩

/-- An evaluation of the position branch: a stationary glider at start-up
with random word 1 gets the back-off 4 with credit and 5 without, on both
protocols, and the packet is committed in all four cases. -/
theorem vTaskPROC_Position_credit_sample :
    (vTaskPROC_Position PROC_Build_sample OGN_Lib_sample XorShift32_sample Parameters_sample
        [1, 2, 3, 4] 1700000000 0 100 (PROC_State_start 1)).TxBackOff = 4 ∧
    (vTaskPROC_Position PROC_Build_sample OGN_Lib_sample XorShift32_sample Parameters_sample
        [1, 2, 3, 4] 1700000000 0 (-5) (PROC_State_start 1)).TxBackOff = 5 ∧
    (vTaskPROC_Position PROC_Build_sample OGN_Lib_sample XorShift32_sample Parameters_sample
        [1, 2, 3, 4] 1700000000 0 (-5) (PROC_State_start 1)).OGN_TxFIFO.Full = 1 ∧
    (vTaskPROC_AdslPosition ADSL_Lib_sample XorShift32_sample FreqPlan_sample Parameters_sample
        default 0 100 (PROC_AdslPosState_start 1)).TxBackOff = 4 ∧
    (vTaskPROC_AdslPosition ADSL_Lib_sample XorShift32_sample FreqPlan_sample Parameters_sample
        default 0 (-5) (PROC_AdslPosState_start 1)).TxBackOff = 5 ∧
    (vTaskPROC_AdslPosition ADSL_Lib_sample XorShift32_sample FreqPlan_sample Parameters_sample
        default 0 (-5) (PROC_AdslPosState_start 1)).ADSL_TxFIFO.Full = 1 := by
  decide

theorem RxEvent_addNew_mem_opt (Added : OGN_RxPacket) (c : Bool) (e : RxEvent)
    (hne : ∀ X, e ≠ RxEvent.addNew X) :
    ¬ RxEvent.addNew Added ∈ (if c = true then [e] else []) := by
  cases c
  · simp
  · simp only [if_true, List.mem_singleton]
    intro h
    exact hne Added h.symm

theorem ProcessRxOGN_addNew_Packet (B : PROC_Build) (P : Parameters) (E : PROC_RxEnv)
    (RxPacket : OGN_RxPacket) (RxTime : Nat) (Added : OGN_RxPacket)
    (h : RxEvent.addNew Added ∈ ProcessRxOGN B P E RxPacket RxTime) :
    Added.Packet = RxPacket.Packet := by
  unfold ProcessRxOGN at h
  by_cases hN : RxPacket.Packet.Header.NonPos = true
  · rw [if_pos hN] at h
    exact absurd h (RxEvent_addNew_mem_opt Added B.WITH_SDLOG _ (fun X => by simp))
  · rw [if_neg hN] at h
    by_cases hO : RxPacket.Packet.Header.Address = P.Address ∧
        RxPacket.Packet.Header.AddrType = P.AddrType
    · rw [if_pos hO] at h
      simp at h
    · rw [if_neg hO] at h
      by_cases hE : RxPacket.Packet.Header.Encrypted = true ∧ RxPacket.RxErr < 10
      · rw [if_pos hE] at h
        simp only [List.mem_append, List.mem_singleton] at h
        rcases h with h | h
        · injection h with h
          rw [h]
        · exact absurd h (RxEvent_addNew_mem_opt Added B.WITH_SDLOG _ (fun X => by simp))
      · rw [if_neg hE] at h
        cases hD : E.calcDistanceVector RxPacket.Packet with
        | none =>
            rw [hD] at h
            simp at h
        | some D =>
            obtain ⟨LatDist, LonDist⟩ := D
            rw [hD] at h
            simp only [List.mem_append, List.mem_cons, List.mem_singleton, List.not_mem_nil,
              or_false] at h
            rcases h with ((((((((h | h) | h) | h) | h) | h) | h) | h) | h) | h
            · exact absurd h (by simp)
            · injection h with h
              rw [h]
            · exact absurd h (RxEvent_addNew_mem_opt Added _ _ (fun X => by simp))
            · exact absurd h (RxEvent_addNew_mem_opt Added _ _ (fun X => by simp))
            · cases hP : E.addNewPrev
                  { RxPacket with LatDist := LatDist, LonDist := LonDist,
                                  Rank := E.calcRelayRank
                                    { RxPacket with LatDist := LatDist, LonDist := LonDist } } with
              | none => rw [hP] at h; simp at h
              | some Prev => rw [hP] at h; simp at h
            · exact absurd h (RxEvent_addNew_mem_opt Added _ _ (fun X => by simp))
            · exact absurd h (RxEvent_addNew_mem_opt Added _ _ (fun X => by simp))
            · exact absurd h (RxEvent_addNew_mem_opt Added _ _ (fun X => by simp))
            · exact absurd h (RxEvent_addNew_mem_opt Added _ _ (fun X => by simp))
            · exact absurd h (RxEvent_addNew_mem_opt Added _ _ (fun X => by simp))

theorem DecodeRxOGN_addNew_Packet (B : PROC_Build) (P : Parameters) (E : PROC_RxEnv)
    (L : OGN_Lib) (Check : Nat) (RxPacket : OGN_RxPacket) (RxTime : Nat) (Added : OGN_RxPacket)
    (h : RxEvent.addNew Added ∈ DecodeRxOGN B P E L Check RxPacket RxTime) :
    Added.Packet
      = { Header := RxPacket.Packet.Header, Data := L.Dewhiten RxPacket.Packet.Data } := by
  unfold DecodeRxOGN DecodeRxOGN_Handed at h
  by_cases hG : Check ≠ 0 ∨ RxPacket.RxErr ≥ 15
  · rw [if_pos hG] at h
    simp at h
  · rw [if_neg hG] at h
    exact ProcessRxOGN_addNew_Packet B P E _ RxTime Added h

/-- The relay path for packets that are not flagged encrypted: when whitening
undoes de-whitening, a packet that `DecodeRxOGN` committed to the relay queue
and `GetRelayPacket` later draws is sent with the payload words of the
FEC-corrected frame and with its header, the `Relay` flag set. -/
theorem GetRelayPacket_plain_payload_preserved (B : PROC_Build) (P : Parameters)
    (E : PROC_RxEnv) (L : OGN_Lib) (R : Relay_Lib) (XorShift32 : Nat → Nat) (Check : Nat)
    (RxPacket : OGN_RxPacket) (RxTime : Nat) (Added : OGN_RxPacket) (Q : Relay_PrioQueue)
    (RandomRX : Nat) (Out : OGN_TxPacket)
    (hInv : ∀ Data, L.Whiten (L.Dewhiten Data) = Data)
    (hPlain : RxPacket.Packet.Header.Encrypted = false)
    (hAdded : RxEvent.addNew Added ∈ DecodeRxOGN B P E L Check RxPacket RxTime)
    (hSum : Q.Sum ≠ 0)
    (hSel : (Q.Packet.getD (R.getRand Q (XorShift32 RandomRX) % 256) default).Packet
      = Added.Packet)
    (hRank : (Q.Packet.getD (R.getRand Q (XorShift32 RandomRX) % 256) default).Rank ≠ 0) :
    (GetRelayPacket L R XorShift32 Q RandomRX Out).Ret = true ∧
    (GetRelayPacket L R XorShift32 Q RandomRX Out).Packet.Packet.Header
      = { RxPacket.Packet.Header with Relay := 1 } ∧
    (GetRelayPacket L R XorShift32 Q RandomRX Out).Packet.Packet.Data
      = RxPacket.Packet.Data := by
  have hP := DecodeRxOGN_addNew_Packet B P E L Check RxPacket RxTime Added hAdded
  rw [hP] at hSel
  unfold GetRelayPacket
  simp only [if_neg hSum, if_neg hRank, hSel, hPlain, Bool.false_eq_true, if_false, hInv]
  exact ⟨trivial, trivial, trivial⟩

/-- C25 (the code as it is): a packet flagged encrypted that `DecodeRxOGN`
committed to the relay queue and `GetRelayPacket` later draws is sent with
its header, the `Relay` flag set, but with `Dewhiten` of the payload words of
the FEC-corrected frame: `DecodeRxOGN` de-whitens it and `GetRelayPacket`
does not whiten it again.  Wherever `Dewhiten` changes the payload, the
relayed payload differs from the received one. -/
theorem GetRelayPacket_encrypted_payload_dewhitened (B : PROC_Build) (P : Parameters)
    (E : PROC_RxEnv) (L : OGN_Lib) (R : Relay_Lib) (XorShift32 : Nat → Nat) (Check : Nat)
    (RxPacket : OGN_RxPacket) (RxTime : Nat) (Added : OGN_RxPacket) (Q : Relay_PrioQueue)
    (RandomRX : Nat) (Out : OGN_TxPacket)
    (hEnc : RxPacket.Packet.Header.Encrypted = true)
    (hAdded : RxEvent.addNew Added ∈ DecodeRxOGN B P E L Check RxPacket RxTime)
    (hSum : Q.Sum ≠ 0)
    (hSel : (Q.Packet.getD (R.getRand Q (XorShift32 RandomRX) % 256) default).Packet
      = Added.Packet)
    (hRank : (Q.Packet.getD (R.getRand Q (XorShift32 RandomRX) % 256) default).Rank ≠ 0) :
    (GetRelayPacket L R XorShift32 Q RandomRX Out).Ret = true ∧
    (GetRelayPacket L R XorShift32 Q RandomRX Out).Packet.Packet.Header
      = { RxPacket.Packet.Header with Relay := 1 } ∧
    (GetRelayPacket L R XorShift32 Q RandomRX Out).Packet.Packet.Data
      = L.Dewhiten RxPacket.Packet.Data ∧
    (L.Dewhiten RxPacket.Packet.Data ≠ RxPacket.Packet.Data →
      (GetRelayPacket L R XorShift32 Q RandomRX Out).Packet.Packet.Data
        ≠ RxPacket.Packet.Data) := by
  have hP := DecodeRxOGN_addNew_Packet B P E L Check RxPacket RxTime Added hAdded
  rw [hP] at hSel
  unfold GetRelayPacket
  simp only [if_neg hSum, if_neg hRank, hSel, hEnc, if_true]
  exact ⟨trivial, trivial, trivial, fun h => h⟩

/-- The relay queue holding the one packet that `DecodeRxOGN` commits for
`OGN_RxPacket_sample_encrypted`. -/
theorem Relay_PrioQueue_encrypted_committed :
    DecodeRxOGN PROC_Build_sample Parameters_sample PROC_RxEnv_sample OGN_Lib_sample 0
        OGN_RxPacket_sample_encrypted 7
      = [RxEvent.addNew (Relay_PrioQueue_encrypted.Packet.getD 0 default)] := by
  decide

/-- Failing input for C25: the encrypted position packet with payload
`11111111 22222222 33333333 44444444` is received without error, committed
to the relay queue and drawn from it; it is relayed with the payload
`8F2668A8 BC155B9B AD044A8A DA733DFD`. -/
theorem GetRelayPacket_encrypted_payload_dewhitened_witness :
    (GetRelayPacket OGN_Lib_sample Relay_Lib_sample XorShift32_sample Relay_PrioQueue_encrypted
        1 default).Packet.Packet.Data = [0x8F2668A8, 0xBC155B9B, 0xAD044A8A, 0xDA733DFD] ∧
    (GetRelayPacket OGN_Lib_sample Relay_Lib_sample XorShift32_sample Relay_PrioQueue_encrypted
        1 default).Packet.Packet.Data ≠ OGN_RxPacket_sample_encrypted.Packet.Data :=
  have h := GetRelayPacket_encrypted_payload_dewhitened PROC_Build_sample Parameters_sample
    PROC_RxEnv_sample OGN_Lib_sample Relay_Lib_sample XorShift32_sample 0
    OGN_RxPacket_sample_encrypted 7 (Relay_PrioQueue_encrypted.Packet.getD 0 default)
    Relay_PrioQueue_encrypted 1 default rfl (by decide) (by decide) (by decide) (by decide)
  ⟨h.2.2.1.trans (by decide), h.2.2.2 (by decide)⟩

/-- Counterexample to C26: an encrypted position packet of another device
received with 12 corrected bits passes the gate of `DecodeRxOGN` and is
handled by `ProcessRxOGN` as a plaintext position (distance calculation,
traffic awareness, flash log, SD-card log); and an encrypted position packet
received without error is written to the SD-card log besides being added to
the relay queue. -/
theorem ProcessRxOGN_encrypted_not_only_relayed :
    DecodeRxOGN_Handed OGN_Lib_sample 0 { OGN_RxPacket_sample_encrypted with RxErr := 12 }
      ≠ none ∧
    ProcessRxOGN PROC_Build_sample_logging Parameters_sample PROC_RxEnv_sample
        { OGN_RxPacket_sample_encrypted with RxErr := 12 } 7
      = [RxEvent.calcDistanceVector OGN_RxPacket_sample_encrypted.Packet,
         RxEvent.addNew { OGN_RxPacket_sample_encrypted with RxErr := 12, Rank := 1 },
         RxEvent.ProcessTarget OGN_RxPacket_sample_encrypted.Packet,
         RxEvent.FlashLog { OGN_RxPacket_sample_encrypted with RxErr := 12, Rank := 1 },
         RxEvent.IGClog { OGN_RxPacket_sample_encrypted with RxErr := 12, Rank := 1 }] ∧
    ProcessRxOGN PROC_Build_sample_logging Parameters_sample PROC_RxEnv_sample
        OGN_RxPacket_sample_encrypted 7
      = [RxEvent.addNew { OGN_RxPacket_sample_encrypted with Rank := 1 },
         RxEvent.IGClog { OGN_RxPacket_sample_encrypted with Rank := 1 }] := by
  decide

/-- C26 (amended): for a packet flagged encrypted with fewer than 10
corrected bits `ProcessRxOGN` makes no call that reads the payload as a
position: a status or info packet is only written to the SD-card log
(builds with `WITH_SDLOG`), an own packet is dropped, and a position packet
of another device is ranked, added to the relay queue and, in builds with
`WITH_SDLOG`, written to the SD-card log; every call made is one of these. -/
theorem ProcessRxOGN_encrypted_below_10_errors (B : PROC_Build) (P : Parameters)
    (E : PROC_RxEnv) (RxPacket : OGN_RxPacket) (RxTime : Nat)
    (hEnc : RxPacket.Packet.Header.Encrypted = true) (hErr : RxPacket.RxErr < 10) :
    ProcessRxOGN B P E RxPacket RxTime
      = (if RxPacket.Packet.Header.NonPos
          then (if B.WITH_SDLOG then [RxEvent.IGClog RxPacket] else [])
         else if RxPacket.Packet.Header.Address = P.Address ∧
            RxPacket.Packet.Header.AddrType = P.AddrType then []
         else [RxEvent.addNew { RxPacket with Rank := E.calcRelayRank RxPacket }]
            ++ (if B.WITH_SDLOG
                then [RxEvent.IGClog { RxPacket with Rank := E.calcRelayRank RxPacket }]
                else [])) ∧
    (∀ e ∈ ProcessRxOGN B P E RxPacket RxTime,
      e = RxEvent.IGClog RxPacket ∨
      e = RxEvent.addNew { RxPacket with Rank := E.calcRelayRank RxPacket } ∨
      e = RxEvent.IGClog { RxPacket with Rank := E.calcRelayRank RxPacket }) := by
  have hEq : ProcessRxOGN B P E RxPacket RxTime
      = (if RxPacket.Packet.Header.NonPos
          then (if B.WITH_SDLOG then [RxEvent.IGClog RxPacket] else [])
         else if RxPacket.Packet.Header.Address = P.Address ∧
            RxPacket.Packet.Header.AddrType = P.AddrType then []
         else [RxEvent.addNew { RxPacket with Rank := E.calcRelayRank RxPacket }]
            ++ (if B.WITH_SDLOG
                then [RxEvent.IGClog { RxPacket with Rank := E.calcRelayRank RxPacket }]
                else [])) := by
    unfold ProcessRxOGN
    simp only [hEnc, hErr, and_self, if_true]
  refine ⟨hEq, ?_⟩
  rw [hEq]
  intro e he
  split_ifs at he <;> simp at he <;> simp [he]

/-- Witness for C26 (amended): the encrypted sample packet, received without
error by a build with the SD-card log, is added to the relay queue and
logged. -/
theorem ProcessRxOGN_encrypted_below_10_errors_witness :
    ProcessRxOGN PROC_Build_sample_logging Parameters_sample PROC_RxEnv_sample
        OGN_RxPacket_sample_encrypted 7
      = [RxEvent.addNew { OGN_RxPacket_sample_encrypted with Rank := 1 },
         RxEvent.IGClog { OGN_RxPacket_sample_encrypted with Rank := 1 }] :=
  (ProcessRxOGN_encrypted_below_10_errors PROC_Build_sample_logging Parameters_sample
    PROC_RxEnv_sample OGN_RxPacket_sample_encrypted 7 rfl (by decide)).1.trans (by decide)

theorem Radio_Task_WAN_Rx_keeps (W : LoRaWAN_Lib) (In : Radio_WAN_Input) (Fuel : Nat)
    (S S1 : Radio_WAN_State) (h : Radio_Task_WAN_Rx W In Fuel S = some S1) :
    S1.WAN_BackOff = S.WAN_BackOff ∧ S1.WAN_RespTick = S.WAN_RespTick ∧ S1.Tx = S.Tx := by
  unfold Radio_Task_WAN_Rx at h
  simp only [] at h
  by_cases hW : S.WANdev.State = 1 ∨ S.WANdev.State = 3
  · rw [if_pos hW] at h
    by_cases h5 : toInt32 (((S.WAN_RespTick + 4294967296 - In.millisRx % 4294967296)
        % 4294967296 : Nat) : Int) ≤ 5
    · rw [if_pos h5] at h
      injection h with h; subst h; exact ⟨rfl, rfl, rfl⟩
    · rw [if_neg h5] at h
      by_cases h200 : toInt32 (((S.WAN_RespTick + 4294967296 - In.millisRx % 4294967296)
          % 4294967296 : Nat) : Int) < 200
      · rw [if_pos h200] at h
        generalize Radio_RxLoRaWAN In.Rx 64 _ Fuel = R at h
        cases R with
        | none => simp at h
        | some R =>
            obtain ⟨RxLen, Packet⟩ := R
            simp only [] at h
            by_cases hL : RxLen > 0
            · rw [if_pos hL] at h
              injection h with h; subst h; exact ⟨rfl, rfl, rfl⟩
            · rw [if_neg hL] at h
              injection h with h; subst h; exact ⟨rfl, rfl, rfl⟩
      · rw [if_neg h200] at h
        injection h with h; subst h; exact ⟨rfl, rfl, rfl⟩
  · rw [if_neg hW] at h
    injection h with h; subst h; exact ⟨rfl, rfl, rfl⟩

theorem Radio_TxLoRaWAN_length (Packet : List Nat) (PktLen : Nat) (T : Radio_TxState) :
    (Radio_TxLoRaWAN Packet PktLen T).Transmitted.length = T.Transmitted.length + 1 := by
  unfold Radio_TxLoRaWAN
  simp

theorem Radio_Task_WAN_Tx_spec (L : OGN_Lib) (W : LoRaWAN_Lib) (XorShift64 : Nat → Nat)
    (In : Radio_WAN_Input) (S : Radio_WAN_State) :
    ((Radio_Task_WAN_Tx L W XorShift64 In S).Tx.Transmitted.length
        = S.Tx.Transmitted.length + 1 ∧
      50 ≤ (Radio_Task_WAN_Tx L W XorShift64 In S).WAN_BackOff ∧
      (Radio_Task_WAN_Tx L W XorShift64 In S).WAN_BackOff ≤ 68 ∧
      (Radio_Task_WAN_Tx L W XorShift64 In S).WAN_BackOff
        = 50 + XorShift64 In.RandomWord % 18446744073709551616 % 19) ∨
    ((Radio_Task_WAN_Tx L W XorShift64 In S).Tx = S.Tx ∧
      (Radio_Task_WAN_Tx L W XorShift64 In S).WAN_BackOff = S.WAN_BackOff) := by
  have hr : XorShift64 In.RandomWord % 18446744073709551616 % 19 < 19 := Nat.mod_lt _ (by norm_num)
  have hm : (50 + XorShift64 In.RandomWord % 18446744073709551616 % 19) % 256
      = 50 + XorShift64 In.RandomWord % 18446744073709551616 % 19 := by omega
  unfold Radio_Task_WAN_Tx
  simp only []
  by_cases h0 : S.WANdev.State = 0
  · rw [if_pos h0]
    left
    simp only [hm, Radio_TxLoRaWAN_length]
    exact ⟨trivial, by omega, by omega, trivial⟩
  · rw [if_neg h0]
    by_cases h2 : S.WANdev.State = 2
    · rw [if_pos h2]
      cases h1 : In.OgnPacket1 with
      | some Packet =>
          left
          simp only [hm, Radio_TxLoRaWAN_length]
          exact ⟨trivial, by omega, by omega, trivial⟩
      | none =>
          cases h2 : In.OgnPacket2 with
          | some Packet =>
              left
              simp only [hm, Radio_TxLoRaWAN_length]
              exact ⟨trivial, by omega, by omega, trivial⟩
          | none =>
              right
              exact ⟨rfl, rfl⟩
    · rw [if_neg h2]
      right
      exact ⟨rfl, rfl⟩

theorem Radio_Task_WAN_Decide_spec (In : Radio_WAN_Input) (S : Radio_WAN_State) :
    (S.WAN_BackOff ≠ 0 →
      Radio_Task_WAN_Decide In S = (false, { S with WAN_BackOff := S.WAN_BackOff - 1 })) ∧
    (S.WAN_BackOff = 0 → (Radio_Task_WAN_Decide In S).2 = S ∧
      ((Radio_Task_WAN_Decide In S).1 = true →
        S.WANdev.Enable = true ∧ In.TxWAN = true ∧ In.Plan ≤ 1 ∧
        (S.WANdev.State = 0 ∨ S.WANdev.State = 2))) := by
  unfold Radio_Task_WAN_Decide
  constructor
  · intro h
    rw [if_pos h]
  · intro h
    have h0 : ¬ S.WAN_BackOff ≠ 0 := by simp [h]
    rw [if_neg h0]
    by_cases hE : (S.WANdev.Enable && In.TxWAN && decide (In.Plan ≤ 1)) = true
    · rw [if_pos hE]
      refine ⟨rfl, ?_⟩
      intro hT
      simp only [Bool.and_eq_true, decide_eq_true_eq] at hE hT
      exact ⟨hE.1.1, hE.1.2, hE.2, hT⟩
    · rw [if_neg hE]
      exact ⟨rfl, fun hT => by simp at hT⟩

theorem Radio_Task_WAN_pass (L : OGN_Lib) (W : LoRaWAN_Lib) (XorShift64 : Nat → Nat)
    (In : Radio_WAN_Input) (Fuel : Nat) (S S1 : Radio_WAN_State)
    (h : Radio_Task_WAN L W XorShift64 In Fuel S = some S1) :
    (S.WAN_BackOff ≠ 0 →
      (Radio_Task_WAN_Decide In S).1 = false ∧ S1.WAN_BackOff = S.WAN_BackOff - 1 ∧
      S1.Tx = S.Tx ∧ Radio_Task_WAN_Sent S S1 = false) ∧
    (Radio_Task_WAN_Sent S S1 = true →
      S.WAN_BackOff = 0 ∧ (Radio_Task_WAN_Decide In S).1 = true ∧
      50 ≤ S1.WAN_BackOff ∧ S1.WAN_BackOff ≤ 68) := by
  unfold Radio_Task_WAN at h
  simp only [] at h
  obtain ⟨hD1, hD2⟩ := Radio_Task_WAN_Decide_spec In S
  by_cases hB : S.WAN_BackOff ≠ 0
  · have hD := hD1 hB
    rw [hD] at h
    simp only [Bool.false_eq_true, if_false] at h
    obtain ⟨hk1, _, hk3⟩ := Radio_Task_WAN_Rx_keeps W In Fuel _ S1 h
    have hTx : S1.Tx = S.Tx := hk3
    have hSent : Radio_Task_WAN_Sent S S1 = false := by
      unfold Radio_Task_WAN_Sent
      rw [hTx]
      simp
    refine ⟨fun _ => ⟨by rw [hD], hk1, hTx, hSent⟩, ?_⟩
    intro hS
    rw [hSent] at hS
    exact absurd hS (by simp)
  · refine ⟨fun hne => absurd hne hB, ?_⟩
    have hB0 : S.WAN_BackOff = 0 := by
      by_contra hc
      exact hB hc
    obtain ⟨hS2, _⟩ := hD2 hB0
    intro hSent
    unfold Radio_Task_WAN_Sent at hSent
    simp only [decide_eq_true_eq] at hSent
    rw [hS2] at h
    by_cases hT : (Radio_Task_WAN_Decide In S).1 = true
    · rw [if_pos hT] at h
      obtain ⟨hk1, _, hk3⟩ := Radio_Task_WAN_Rx_keeps W In Fuel _ S1 h
      rcases Radio_Task_WAN_Tx_spec L W XorShift64 In S with ⟨_, h50, h68, _⟩ | ⟨hSame, _⟩
      · exact ⟨hB0, hT, by rw [hk1]; exact h50, by rw [hk1]; exact h68⟩
      · rw [hk3, hSame] at hSent
        exact absurd hSent (lt_irrefl _)
    · rw [if_neg hT] at h
      obtain ⟨_, _, hk3⟩ := Radio_Task_WAN_Rx_keeps W In Fuel _ S1 h
      rw [hk3] at hSent
      exact absurd hSent (lt_irrefl _)

theorem Radio_Task_WAN_Run_cons (L : OGN_Lib) (W : LoRaWAN_Lib) (XorShift64 : Nat → Nat)
    (Fuel : Nat) (In : Radio_WAN_Input) (Rest : List Radio_WAN_Input) (S S2 : Radio_WAN_State)
    (Sent : List Bool)
    (h : Radio_Task_WAN_Run L W XorShift64 Fuel (In :: Rest) S = some (Sent, S2)) :
    ∃ S1 Sent1, Radio_Task_WAN L W XorShift64 In Fuel S = some S1 ∧
      Radio_Task_WAN_Run L W XorShift64 Fuel Rest S1 = some (Sent1, S2) ∧
      Sent = Radio_Task_WAN_Sent S S1 :: Sent1 := by
  unfold Radio_Task_WAN_Run at h
  cases hC : Radio_Task_WAN L W XorShift64 In Fuel S with
  | none => rw [hC] at h; simp at h
  | some S1 =>
      rw [hC] at h
      simp only [] at h
      cases hR : Radio_Task_WAN_Run L W XorShift64 Fuel Rest S1 with
      | none => rw [hR] at h; simp at h
      | some R =>
          obtain ⟨Sent1, S3⟩ := R
          rw [hR] at h
          simp only [Option.some.injEq, Prod.mk.injEq] at h
          exact ⟨S1, Sent1, rfl, by rw [hR, h.2], h.1.symm⟩

theorem Radio_Task_WAN_Run_quiet (L : OGN_Lib) (W : LoRaWAN_Lib) (XorShift64 : Nat → Nat)
    (Fuel : Nat) :
    ∀ (Inputs : List Radio_WAN_Input) (S S2 : Radio_WAN_State) (Sent : List Bool),
      Radio_Task_WAN_Run L W XorShift64 Fuel Inputs S = some (Sent, S2) →
      Sent.length = Inputs.length ∧ ∀ k, k < S.WAN_BackOff → Sent.getD k false = false := by
  intro Inputs
  induction Inputs with
  | nil =>
      intro S S2 Sent h
      unfold Radio_Task_WAN_Run at h
      simp only [Option.some.injEq, Prod.mk.injEq] at h
      rw [← h.1]
      exact ⟨rfl, fun k _ => rfl⟩
  | cons In Rest ih =>
      intro S S2 Sent h
      obtain ⟨S1, Sent1, hC, hR, hEq⟩ := Radio_Task_WAN_Run_cons L W XorShift64 Fuel In Rest S S2
        Sent h
      obtain ⟨hLen, hQuiet⟩ := ih S1 S2 Sent1 hR
      obtain ⟨hP1, _⟩ := Radio_Task_WAN_pass L W XorShift64 In Fuel S S1 hC
      rw [hEq]
      refine ⟨by simp [hLen], ?_⟩
      intro k hk
      obtain ⟨_, hB, _, hS⟩ := hP1 (by omega)
      cases k with
      | zero => simpa using hS
      | succ k =>
          rw [List.getD_cons_succ]
          exact hQuiet k (by omega)

theorem Radio_Task_WAN_Run_spacing (L : OGN_Lib) (W : LoRaWAN_Lib) (XorShift64 : Nat → Nat)
    (Fuel : Nat) :
    ∀ (Inputs : List Radio_WAN_Input) (S S2 : Radio_WAN_State) (Sent : List Bool),
      Radio_Task_WAN_Run L W XorShift64 Fuel Inputs S = some (Sent, S2) →
      ∀ i j, i < j → Sent.getD i false = true → Sent.getD j false = true → i + 51 ≤ j := by
  intro Inputs
  induction Inputs with
  | nil =>
      intro S S2 Sent h i j _ hi _
      unfold Radio_Task_WAN_Run at h
      simp only [Option.some.injEq, Prod.mk.injEq] at h
      rw [← h.1] at hi
      simp at hi
  | cons In Rest ih =>
      intro S S2 Sent h i j hij hi hj
      obtain ⟨S1, Sent1, hC, hR, hEq⟩ := Radio_Task_WAN_Run_cons L W XorShift64 Fuel In Rest S S2
        Sent h
      rw [hEq] at hi hj
      cases j with
      | zero => omega
      | succ j =>
          rw [List.getD_cons_succ] at hj
          cases i with
          | zero =>
              rw [List.getD_cons_zero] at hi
              obtain ⟨_, hP2⟩ := Radio_Task_WAN_pass L W XorShift64 In Fuel S S1 hC
              obtain ⟨_, _, h50, _⟩ := hP2 hi
              obtain ⟨_, hQuiet⟩ := Radio_Task_WAN_Run_quiet L W XorShift64 Fuel Rest S1 S2 Sent1 hR
              by_contra hc
              have hq := hQuiet j (by omega)
              rw [hq] at hj
              exact absurd hj (by simp)
          | succ i =>
              rw [List.getD_cons_succ] at hi
              have := ih S1 S2 Sent1 hR i j (by omega) hi hj
              omega

theorem Radio_RxLoRaWAN_Loop_returns (E : Radio_WAN_RxEnv) (msStart msTimeLen : Nat)
    (hMono : ∀ n, E.millis n < E.millis (n + 1)) :
    ∀ (Fuel Step : Nat), msStart ≤ E.millis Step →
      msTimeLen ≤ (E.millis Step - msStart) + Fuel → 1 ≤ Fuel →
      ∃ n, Radio_RxLoRaWAN_Loop E msStart msTimeLen Fuel Step = some n ∧ Step < n ∧
        (msTimeLen ≤ E.millis n - msStart ∨ E.IRQ n = true) := by
  intro Fuel
  induction Fuel with
  | zero => intro _ _ _ h; omega
  | succ f ih =>
      intro Step hStart hFuel _
      have hStep := hMono Step
      unfold Radio_RxLoRaWAN_Loop
      by_cases hDone : E.millis (Step + 1) - msStart ≥ msTimeLen
      · rw [if_pos hDone]
        exact ⟨Step + 1, rfl, Nat.lt_succ_self _, Or.inl hDone⟩
      · rw [if_neg hDone]
        by_cases hIRQ : E.IRQ (Step + 1) = true
        · rw [if_pos hIRQ]
          exact ⟨Step + 1, rfl, Nat.lt_succ_self _, Or.inr hIRQ⟩
        · rw [if_neg hIRQ]
          obtain ⟨n, hEq, hLt, hEnd⟩ := ih (Step + 1) (by omega) (by omega) (by omega)
          exact ⟨n, hEq, by omega, hEnd⟩

theorem Radio_RxLoRaWAN_returns (E : Radio_WAN_RxEnv) (MaxPktLen msTimeLen Fuel : Nat)
    (hMono : ∀ n, E.millis n < E.millis (n + 1)) (hFuel : msTimeLen < Fuel) :
    ∃ RxLen Packet, Radio_RxLoRaWAN E MaxPktLen msTimeLen Fuel = some (RxLen, Packet) ∧
      (RxLen = 0 ∨ (0 < RxLen ∧ RxLen ≤ MaxPktLen)) ∧
      ((∀ n, E.IRQ n = false) → RxLen = 0) := by
  obtain ⟨n, hEq, _, _⟩ := Radio_RxLoRaWAN_Loop_returns E (E.millis 0) msTimeLen hMono Fuel 0
    (le_refl _) (by omega) (by omega)
  unfold Radio_RxLoRaWAN
  rw [hEq]
  simp only []
  by_cases hIRQ : E.IRQ n = false
  · rw [if_pos hIRQ]
    exact ⟨0, [], rfl, Or.inl rfl, fun _ => rfl⟩
  · rw [if_neg hIRQ]
    by_cases hLen : E.PktLen ≤ 0 ∨ E.PktLen > MaxPktLen
    · rw [if_pos hLen]
      exact ⟨0, [], rfl, Or.inl rfl, fun _ => rfl⟩
    · rw [if_neg hLen]
      refine ⟨E.PktLen, _, rfl, Or.inr ?_, fun hAll => absurd (hAll n) hIRQ⟩
      omega

theorem Radio_Task_WAN_Rx_returns (W : LoRaWAN_Lib) (In : Radio_WAN_Input) (Fuel : Nat)
    (S : Radio_WAN_State) (hMono : ∀ n, In.Rx.millis n < In.Rx.millis (n + 1))
    (hFuel : 4294967296 ≤ Fuel) :
    ∃ S1, Radio_Task_WAN_Rx W In Fuel S = some S1 := by
  unfold Radio_Task_WAN_Rx
  simp only []
  by_cases hW : S.WANdev.State = 1 ∨ S.WANdev.State = 3
  · rw [if_pos hW]
    by_cases h5 : toInt32 (((S.WAN_RespTick + 4294967296 - In.millisRx % 4294967296)
        % 4294967296 : Nat) : Int) ≤ 5
    · rw [if_pos h5]
      exact ⟨_, rfl⟩
    · rw [if_neg h5]
      by_cases h200 : toInt32 (((S.WAN_RespTick + 4294967296 - In.millisRx % 4294967296)
          % 4294967296 : Nat) : Int) < 200
      · rw [if_pos h200]
        obtain ⟨RxLen, Packet, hEq, _, _⟩ := Radio_RxLoRaWAN_returns In.Rx 64
          (((S.WAN_RespTick + 4294967296 - In.millisWait % 4294967296) % 4294967296 + 120)
            % 4294967296) Fuel hMono
          (lt_of_lt_of_le (Nat.mod_lt _ (by norm_num)) hFuel)
        rw [hEq]
        simp only []
        by_cases hL : RxLen > 0
        · rw [if_pos hL]
          exact ⟨_, rfl⟩
        · rw [if_neg hL]
          exact ⟨_, rfl⟩
      · rw [if_neg h200]
        exact ⟨_, rfl⟩
  · rw [if_neg hW]
    exact ⟨_, rfl⟩

/-- With a clock that advances with every wait and fuel for the longest
possible receive window, every sequence of passes of the uplink part
returns. -/
theorem Radio_Task_WAN_Run_returns (L : OGN_Lib) (W : LoRaWAN_Lib) (XorShift64 : Nat → Nat)
    (Fuel : Nat) (hFuel : 4294967296 ≤ Fuel) :
    ∀ (Inputs : List Radio_WAN_Input) (S : Radio_WAN_State),
      (∀ In ∈ Inputs, ∀ n, In.Rx.millis n < In.Rx.millis (n + 1)) →
      ∃ Sent S2, Radio_Task_WAN_Run L W XorShift64 Fuel Inputs S = some (Sent, S2) := by
  intro Inputs
  induction Inputs with
  | nil =>
      intro S _
      exact ⟨[], S, rfl⟩
  | cons In Rest ih =>
      intro S hMono
      obtain ⟨S1, hC⟩ : ∃ S1, Radio_Task_WAN L W XorShift64 In Fuel S = some S1 := by
        unfold Radio_Task_WAN
        exact Radio_Task_WAN_Rx_returns W In Fuel _ (hMono In (List.mem_cons_self _ _)) hFuel
      obtain ⟨Sent, S2, hR⟩ := ih S1 (fun In1 hIn => hMono In1 (List.mem_cons_of_mem _ hIn))
      unfold Radio_Task_WAN_Run
      rw [hC]
      simp only []
      rw [hR]
      exact ⟨_, _, rfl⟩

/-- C22: in every sequence of passes of the uplink part of `Radio_Task` that
returns, a pass that starts with `WAN_BackOff` not zero only decrements it,
leaves `WANtx` at 0 and hands no frame to the chip; a pass that hands a
frame to the chip started with `WAN_BackOff` at 0 and with `WANtx` set, and
leaves `WAN_BackOff` in 50..68; and two passes that each hand a frame to the
chip are at least 51 passes apart. -/
theorem Radio_Task_WAN_backoff_spacing (L : OGN_Lib) (W : LoRaWAN_Lib)
    (XorShift64 : Nat → Nat) (Fuel : Nat) (Inputs : List Radio_WAN_Input)
    (S : Radio_WAN_State) (Sent : List Bool)
    (hRun : (Radio_Task_WAN_Run L W XorShift64 Fuel Inputs S).map Prod.fst = some Sent) :
    Sent.length = Inputs.length ∧
    (∀ k, k < S.WAN_BackOff → Sent.getD k false = false) ∧
    (∀ i j, i < j → Sent.getD i false = true → Sent.getD j false = true → i + 51 ≤ j) ∧
    (∀ In S0 S1, Radio_Task_WAN L W XorShift64 In Fuel S0 = some S1 →
      (S0.WAN_BackOff ≠ 0 →
        (Radio_Task_WAN_Decide In S0).1 = false ∧ S1.WAN_BackOff = S0.WAN_BackOff - 1 ∧
        S1.Tx = S0.Tx ∧ Radio_Task_WAN_Sent S0 S1 = false) ∧
      (Radio_Task_WAN_Sent S0 S1 = true →
        S0.WAN_BackOff = 0 ∧ (Radio_Task_WAN_Decide In S0).1 = true ∧
        50 ≤ S1.WAN_BackOff ∧ S1.WAN_BackOff ≤ 68)) := by
  cases hR : Radio_Task_WAN_Run L W XorShift64 Fuel Inputs S with
  | none => rw [hR] at hRun; simp at hRun
  | some R =>
      obtain ⟨Sent1, S2⟩ := R
      rw [hR] at hRun
      simp only [Option.map_some', Option.some.injEq] at hRun
      subst hRun
      obtain ⟨hLen, hQuiet⟩ := Radio_Task_WAN_Run_quiet L W XorShift64 Fuel Inputs S S2 Sent1 hR
      exact ⟨hLen, hQuiet,
        Radio_Task_WAN_Run_spacing L W XorShift64 Fuel Inputs S S2 Sent1 hR,
        fun In S0 S1 h => Radio_Task_WAN_pass L W XorShift64 In Fuel S0 S1 h⟩

set_option maxRecDepth 1000000 in
/-- An evaluation of 130 passes from start-up with nothing received: the
first frame (a join request) goes out in pass 60, when the initial back-off
of 60 has run down, and the second in pass 120, after a back-off of 59. -/
theorem Radio_Task_WAN_Run_sample :
    (Radio_Task_WAN_Run OGN_Lib_sample LoRaWAN_Lib_sample XorShift64_sample 400
        ((List.range 130).map fun Sec => Radio_WAN_Input_sample Sec (1000 * Sec + 1201))
        Radio_WAN_State_start).map Prod.fst
      = some (List.replicate 60 false ++ [true] ++ List.replicate 59 false ++ [true]
          ++ List.replicate 9 false) := by
  decide

/-- Witness for C22: the 130 passes from start-up with nothing received, in
which frames go out in passes 60 and 120. -/
theorem Radio_Task_WAN_backoff_spacing_witness :
    (List.replicate 60 false ++ [true] ++ List.replicate 59 false ++ [true]
        ++ List.replicate 9 false).length
      = ((List.range 130).map fun Sec => Radio_WAN_Input_sample Sec (1000 * Sec + 1201)).length ∧
    (List.replicate 60 false ++ [true] ++ List.replicate 59 false ++ [true]
        ++ List.replicate 9 false).getD 59 false = false ∧
    60 + 51 ≤ 120 :=
  have h := Radio_Task_WAN_backoff_spacing OGN_Lib_sample LoRaWAN_Lib_sample XorShift64_sample 400
    ((List.range 130).map fun Sec => Radio_WAN_Input_sample Sec (1000 * Sec + 1201))
    Radio_WAN_State_start
    (List.replicate 60 false ++ [true] ++ List.replicate 59 false ++ [true]
      ++ List.replicate 9 false)
    Radio_Task_WAN_Run_sample
  ⟨h.1, h.2.1 59 (by decide), h.2.2.1 60 120 (by decide) (by decide) (by decide)⟩

/-- Counterexample to C23: a node waiting for the answer to a join request
after 59 silent passes reaches the reception test 3 ms before the answer is
due.  It retreats to state 0, but the silence count stays at 59 and
`Disconnect` is not invoked (the session is kept); when the test is reached
40 ms before the answer is due and the receive window elapses, the count
reaches 60 and `Disconnect` is invoked. -/
theorem Radio_Task_WAN_Rx_late_not_counted :
    Radio_Task_WAN_Rx LoRaWAN_Lib_sample (Radio_WAN_Input_sample 66 66197) 400
        Radio_WAN_State_waiting
      = some { Radio_WAN_State_waiting with
          WANdev := { Radio_WAN_State_waiting.WANdev with State := 0 } } ∧
    (Radio_Task_WAN_Rx LoRaWAN_Lib_sample (Radio_WAN_Input_sample 66 66197) 400
        Radio_WAN_State_waiting).map (fun S => (S.WANdev.RxSilent, S.WANdev.Session))
      = some (59, [7]) ∧
    Radio_Task_WAN_Rx LoRaWAN_Lib_sample (Radio_WAN_Input_sample 66 66160) 400
        Radio_WAN_State_waiting
      = some { Radio_WAN_State_waiting with
          WANdev := LoRaWAN_Lib_sample.Disconnect
            { Radio_WAN_State_waiting.WANdev with State := 0, RxSilent := 60 } } := by
  set_option maxRecDepth 1000000 in decide

/-- C23 (amended): when the reception test of `Radio_Task` finds the node in
a waiting state (1 or 3), then (a) with the answer due in 5 ms or less the
state retreats by one and nothing else changes: the silence count is not
incremented and `Disconnect` is not invoked; (b) with the answer due in more
than 5 and less than 200 ms the receive window is opened and returns, and
if nothing is received the state retreats by one, `RxSilent` is incremented
and `Disconnect` is invoked exactly when the count has reached 60, while a
received frame leaves `RxSilent` at 0; (c) with the answer due in 200 ms or
more nothing changes. -/
theorem Radio_Task_WAN_Rx_timeout (W : LoRaWAN_Lib) (In : Radio_WAN_Input) (Fuel : Nat)
    (S : Radio_WAN_State)
    (hWait : S.WANdev.State = 1 ∨ S.WANdev.State = 3)
    (hMono : ∀ n, In.Rx.millis n < In.Rx.millis (n + 1))
    (hFuel : ((S.WAN_RespTick + 4294967296 - In.millisWait % 4294967296) % 4294967296 + 120)
      % 4294967296 < Fuel)
    (hSilent : S.WANdev.RxSilent < 255) :
    (toInt32 (((S.WAN_RespTick + 4294967296 - In.millisRx % 4294967296) % 4294967296 : Nat)
        : Int) ≤ 5 →
      Radio_Task_WAN_Rx W In Fuel S
        = some { S with WANdev := { S.WANdev with State := S.WANdev.State - 1 } }) ∧
    (5 < toInt32 (((S.WAN_RespTick + 4294967296 - In.millisRx % 4294967296) % 4294967296 : Nat)
        : Int) →
      toInt32 (((S.WAN_RespTick + 4294967296 - In.millisRx % 4294967296) % 4294967296 : Nat)
        : Int) < 200 →
      ∃ RxLen Packet,
        Radio_RxLoRaWAN In.Rx 64
          (((S.WAN_RespTick + 4294967296 - In.millisWait % 4294967296) % 4294967296 + 120)
            % 4294967296) Fuel = some (RxLen, Packet) ∧
        ((∀ n, In.Rx.IRQ n = false) → RxLen = 0) ∧
        (RxLen ≤ 0 →
          Radio_Task_WAN_Rx W In Fuel S
            = some { S with WANdev :=
                if S.WANdev.RxSilent + 1 ≥ 60
                then W.Disconnect { S.WANdev with State := S.WANdev.State - 1
                                                  RxSilent := S.WANdev.RxSilent + 1 }
                else { S.WANdev with State := S.WANdev.State - 1
                                     RxSilent := S.WANdev.RxSilent + 1 } }) ∧
        (0 < RxLen →
          ∃ S1, Radio_Task_WAN_Rx W In Fuel S = some S1 ∧ S1.WANdev.RxSilent = 0)) ∧
    (200 ≤ toInt32 (((S.WAN_RespTick + 4294967296 - In.millisRx % 4294967296) % 4294967296
        : Nat) : Int) →
      Radio_Task_WAN_Rx W In Fuel S = some S) := by
  have hInc : (S.WANdev.RxSilent + 1) % 256 = S.WANdev.RxSilent + 1 :=
    Nat.mod_eq_of_lt (by omega)
  refine ⟨?_, ?_, ?_⟩
  · intro h5
    unfold Radio_Task_WAN_Rx
    simp only []
    rw [if_pos hWait, if_pos h5]
  · intro h5 h200
    obtain ⟨RxLen, Packet, hEq, _, hQuiet⟩ := Radio_RxLoRaWAN_returns In.Rx 64
      (((S.WAN_RespTick + 4294967296 - In.millisWait % 4294967296) % 4294967296 + 120)
        % 4294967296) Fuel hMono hFuel
    refine ⟨RxLen, Packet, hEq, hQuiet, ?_, ?_⟩
    · intro hLen
      unfold Radio_Task_WAN_Rx
      simp only []
      rw [if_pos hWait, if_neg (not_le.mpr h5), if_pos h200, hEq]
      simp only []
      rw [if_neg (not_lt.mpr hLen), hInc]
    · intro hLen
      unfold Radio_Task_WAN_Rx
      simp only []
      rw [if_pos hWait, if_neg (not_le.mpr h5), if_pos h200, hEq]
      simp only []
      rw [if_pos hLen]
      exact ⟨_, rfl, rfl⟩
  · intro h200
    unfold Radio_Task_WAN_Rx
    simp only []
    rw [if_pos hWait, if_neg (by omega), if_neg (by omega)]

/-- Witness for C23 (amended): the waiting node of
`Radio_WAN_State_waiting`, tested on a silent channel 3 ms and 40 ms before
the answer is due. -/
theorem Radio_Task_WAN_Rx_timeout_witness :
    Radio_Task_WAN_Rx LoRaWAN_Lib_sample (Radio_WAN_Input_sample 66 66197) 400
        Radio_WAN_State_waiting
      = some { Radio_WAN_State_waiting with
          WANdev := { Radio_WAN_State_waiting.WANdev with
            State := Radio_WAN_State_waiting.WANdev.State - 1 } } ∧
    ∃ RxLen Packet,
      Radio_RxLoRaWAN (Radio_WAN_Input_sample 66 66160).Rx 64
        (((Radio_WAN_State_waiting.WAN_RespTick + 4294967296
            - (Radio_WAN_Input_sample 66 66160).millisWait % 4294967296) % 4294967296 + 120)
          % 4294967296) 400 = some (RxLen, Packet) ∧
      ((∀ n, (Radio_WAN_Input_sample 66 66160).Rx.IRQ n = false) → RxLen = 0) ∧
      (RxLen ≤ 0 →
        Radio_Task_WAN_Rx LoRaWAN_Lib_sample (Radio_WAN_Input_sample 66 66160) 400
            Radio_WAN_State_waiting
          = some { Radio_WAN_State_waiting with WANdev :=
              if Radio_WAN_State_waiting.WANdev.RxSilent + 1 ≥ 60
              then LoRaWAN_Lib_sample.Disconnect { Radio_WAN_State_waiting.WANdev with
                     State := Radio_WAN_State_waiting.WANdev.State - 1
                     RxSilent := Radio_WAN_State_waiting.WANdev.RxSilent + 1 }
              else { Radio_WAN_State_waiting.WANdev with
                     State := Radio_WAN_State_waiting.WANdev.State - 1
                     RxSilent := Radio_WAN_State_waiting.WANdev.RxSilent + 1 } }) ∧
      (0 < RxLen →
        ∃ S1, Radio_Task_WAN_Rx LoRaWAN_Lib_sample (Radio_WAN_Input_sample 66 66160) 400
            Radio_WAN_State_waiting = some S1 ∧ S1.WANdev.RxSilent = 0) :=
  ⟨(Radio_Task_WAN_Rx_timeout LoRaWAN_Lib_sample (Radio_WAN_Input_sample 66 66197) 400
      Radio_WAN_State_waiting (Or.inl rfl) (fun n => Nat.lt_succ_self _) (by decide)
      (by decide)).1 (by decide),
   (Radio_Task_WAN_Rx_timeout LoRaWAN_Lib_sample (Radio_WAN_Input_sample 66 66160) 400
      Radio_WAN_State_waiting (Or.inl rfl) (fun n => Nat.lt_succ_self _) (by decide)
      (by decide)).2.1 (by decide) (by decide)⟩
end OgnTracker
